import Mathlib

/-! Layout model of the MKx LLC interface headers (`llc-api.h`, revisions r16 and r17.1)

The two headers declare the wire format exchanged between the host LLC driver and the
SAF5x00 radio: packed structures, enumerations and length constants.  Every structure in the
headers carries `__attribute__((packed))`, so a member sits directly after the previous one
and the size of a structure is the sum of the sizes of its members (the maximum, for a union).

This file transcribes the declarations into values of `CType` (one Lean definition per C
declaration, same name, same member order) and derives sizes and offsets with `sizeof` and
`offsetof`, the way a C compiler does for a packed little-endian target.  Revision r16 lives
in namespace `R16`, revision r17.1 in namespace `R17`.
-/

namespace LLC

/-! ## C object types -/

/-- The object types that occur in the headers: the fixed-width integers of `stdint.h`,
arrays (a zero count is a flexible or zero-length array member), packed structures and
packed unions.  Members are listed in declaration order. -/
inductive CType where
  | uint8_t
  | int8_t
  | uint16_t
  | int16_t
  | uint32_t
  | int32_t
  | uint64_t
  | array (elem : CType) (count : Nat)
  | struct (fields : List (String × CType))
  | union (members : List (String × CType))

mutual
/-- The value of `sizeof(T)` for a packed type. -/
def CType.sizeof : CType → Nat
  | .uint8_t => 1
  | .int8_t => 1
  | .uint16_t => 2
  | .int16_t => 2
  | .uint32_t => 4
  | .int32_t => 4
  | .uint64_t => 8
  | .array e n => n * e.sizeof
  | .struct fs => CType.sizeofFields fs
  | .union ms => CType.sizeofMembers ms
/-- Size of a packed member list: the members follow each other without padding. -/
def CType.sizeofFields : List (String × CType) → Nat
  | [] => 0
  | f :: rest => f.2.sizeof + CType.sizeofFields rest
/-- Size of a packed union: the size of its largest member. -/
def CType.sizeofMembers : List (String × CType) → Nat
  | [] => 0
  | m :: rest => max m.2.sizeof (CType.sizeofMembers rest)
end

/-- Scalar description of an integer type: `(signed, width in bytes)`; `none` for
aggregates. -/
def CType.scalar : CType → Option (Bool × Nat)
  | .uint8_t => some (false, 1)
  | .int8_t => some (true, 1)
  | .uint16_t => some (false, 2)
  | .int16_t => some (true, 2)
  | .uint32_t => some (false, 4)
  | .int32_t => some (true, 4)
  | .uint64_t => some (false, 8)
  | _ => none

/-- Byte offset of the member `name` inside a packed member list. -/
def offsetIn : List (String × CType) → String → Option Nat
  | [], _ => none
  | f :: rest, name =>
    if f.1 = name then some 0 else (offsetIn rest name).map (f.2.sizeof + ·)

/-- The value of `offsetof(T, name)`: members of a structure are laid out in order, members of
a union all start at offset 0. -/
def CType.offsetof : CType → String → Option Nat
  | .struct fs, name => offsetIn fs name
  | .union ms, name => if ms.any (fun m => m.1 = name) then some 0 else none
  | _, _ => none

/-- Declared type of the member `name` of a structure or union. -/
def CType.member : CType → String → Option CType
  | .struct fs, name => (fs.find? (fun f => f.1 = name)).map (·.2)
  | .union ms, name => (ms.find? (fun m => m.1 = name)).map (·.2)
  | _, _ => none

/-- The value of `offsetof(T, a.b.c)` for a chain of member names. -/
def CType.offsetofPath : CType → List String → Option Nat
  | _, [] => some 0
  | t, name :: rest =>
    match t.offsetof name, t.member name with
    | some o, some t' => (t'.offsetofPath rest).map (o + ·)
    | _, _ => none

/-- Offsets and widths of a packed member list, starting at byte `base`:
one `(name, offset, size)` entry per member, in declaration order. -/
def layoutFrom : Nat → List (String × CType) → List (String × Nat × Nat)
  | _, [] => []
  | base, f :: rest => (f.1, base, f.2.sizeof) :: layoutFrom (base + f.2.sizeof) rest

/-- Table of `(name, offset, size)` of the members of a structure. -/
def CType.layout : CType → List (String × Nat × Nat)
  | .struct fs => layoutFrom 0 fs
  | .union ms => ms.map (fun m => (m.1, 0, m.2.sizeof))
  | _ => []

/-- Names of the members of a structure or union, in declaration order. -/
def CType.memberNames : CType → List String
  | .struct fs => fs.map (·.1)
  | .union ms => ms.map (·.1)
  | _ => []

/-! ## Revision r16 -/

namespace R16

/-- Enumeration `eMKxIFMsgType` (r16, lines 131-171): enumerator `MKXIF_COUNT`. -/
def MKXIF_COUNT : Nat := 17

/-- Enumeration `eMKxIFMsgType` (r16): `MKXIF_MAX = MKXIF_COUNT - 1`. -/
def MKXIF_MAX : Nat := MKXIF_COUNT - 1

/-- Enumeration `eMKxIFMsgType` of r16: every enumerator with its value, in declaration
order. -/
def eMKxIFMsgType : List (String × Nat) :=
  [ ("MKXIF_APIVERSION", 0),
    ("MKXIF_TXPACKET", 1),
    ("MKXIF_RXPACKET", 2),
    ("MKXIF_SET_TSF", 3),
    ("MKXIF_TXEVENT", 4),
    ("MKXIF_RADIOACFG", 5),
    ("MKXIF_RADIOBCFG", 6),
    ("MKXIF_RADIOASTATS", 7),
    ("MKXIF_RADIOBSTATS", 8),
    ("MKXIF_FLUSHQ", 9),
    ("MKXIF_DEBUG", 10),
    ("MKXIF_C2XSEC", 11),
    ("MKXIF_CALIBRATION", 12),
    ("MKXIF_TEMP", 13),
    ("MKXIF_GET_TSF", 14),
    ("MKXIF_AUXADC", 15),
    ("MKXIF_AUXADCCFG", 16),
    ("MKXIF_COUNT", MKXIF_COUNT),
    ("MKXIF_MAX", MKXIF_MAX) ]

/-- Type `tMKxIFMsgType` is `typedef uint16_t tMKxIFMsgType`. -/
def tMKxIFMsgType : CType := .uint16_t

/-- Structure `tMKxIFMsg` of r16 (lines 176-188), the LLC managed message header. -/
def tMKxIFMsg : CType :=
  .struct
    [ ("Type", tMKxIFMsgType),
      ("Len", .uint16_t),
      ("Seq", .uint16_t),
      ("Ret", .int16_t),
      ("Data", .array .uint8_t 0) ]

/-- Type `tMKxRadio` is `typedef int8_t tMKxRadio` in r16. -/
def tMKxRadio : CType := .int8_t

/-- Type `tMKxChannel` is `typedef int8_t tMKxChannel` in r16. -/
def tMKxChannel : CType := .int8_t

/-- Type `tMKxChannelFreq` is `typedef uint16_t tMKxChannelFreq`. -/
def tMKxChannelFreq : CType := .uint16_t

/-- Type `tMKxMCS` is `typedef uint8_t tMKxMCS`. -/
def tMKxMCS : CType := .uint8_t

/-- Type `tMKxPower` is `typedef int16_t tMKxPower`. -/
def tMKxPower : CType := .int16_t

/-- Type `tMKxAntenna` is `typedef uint8_t tMKxAntenna`. -/
def tMKxAntenna : CType := .uint8_t

/-- Type `tMKxTSF` is `typedef uint64_t tMKxTSF`. -/
def tMKxTSF : CType := .uint64_t

/-- Type `tMKxTxCtrlFlags` is `typedef uint8_t tMKxTxCtrlFlags`. -/
def tMKxTxCtrlFlags : CType := .uint8_t

/-- Structure `tMKxTxPacketData` of r16 (lines 517-544), the transmit descriptor. -/
def tMKxTxPacketData : CType :=
  .struct
    [ ("RadioID", tMKxRadio),
      ("ChannelID", tMKxChannel),
      ("TxAntenna", tMKxAntenna),
      ("MCS", tMKxMCS),
      ("TxPower", tMKxPower),
      ("TxCtrlFlags", tMKxTxCtrlFlags),
      ("Reserved0", .uint8_t),
      ("Expiry", tMKxTSF),
      ("TxFrameLength", .uint16_t),
      ("Reserved1", .uint16_t),
      ("TxFrame", .array .uint8_t 0) ]

/-- Structure `tMKxTxPacket` of r16 (lines 549-555). -/
def tMKxTxPacket : CType :=
  .struct
    [ ("Hdr", tMKxIFMsg),
      ("TxPacketData", tMKxTxPacketData) ]

/-- Structure `tMKxTxEventData` of r16 (lines 561-585). -/
def tMKxTxEventData : CType :=
  .struct
    [ ("TxStatus", .int16_t),
      ("MACSequenceNumber", .uint16_t),
      ("TxTime", tMKxTSF),
      ("AckResponseDelay_ps", .uint32_t),
      ("CTSResponseDelay_ps", .uint32_t),
      ("MACDwellTime", .uint32_t),
      ("NumShortRetries", .uint8_t),
      ("NumLongRetries", .uint8_t),
      ("DestAddress", .array .uint8_t 6),
      ("Reserved0", .uint32_t),
      ("Reserved1", .uint32_t) ]

/-- Structure `tMKxTxEvent` of r16 (lines 590-596). -/
def tMKxTxEvent : CType :=
  .struct
    [ ("Hdr", tMKxIFMsg),
      ("TxEventData", tMKxTxEventData) ]

/-- Structure `tMKxRxPacketData` of r16 (lines 605-643), the receive descriptor. -/
def tMKxRxPacketData : CType :=
  .struct
    [ ("RadioID", tMKxRadio),
      ("ChannelID", tMKxChannel),
      ("MCS", tMKxMCS),
      ("FCSPass", .uint8_t),
      ("RxPowerAnt1", tMKxPower),
      ("RxPowerAnt2", tMKxPower),
      ("RxNoiseAnt1", tMKxPower),
      ("RxNoiseAnt2", tMKxPower),
      ("RxFreqOffset", .int32_t),
      ("RxTSF", tMKxTSF),
      ("RxFrameLength", .uint16_t),
      ("Reserved0", .uint16_t),
      ("Reserved1", .uint32_t),
      ("Reserved2", .uint32_t),
      ("Reserved3", .uint32_t),
      ("Reserved4", .uint32_t),
      ("RxFrame", .array .uint8_t 0) ]

/-- Structure `tMKxRxPacket` of r16 (lines 648-654). -/
def tMKxRxPacket : CType :=
  .struct
    [ ("Hdr", tMKxIFMsg),
      ("RxPacketData", tMKxRxPacketData) ]

/-- Type `tMKxC2XSecVerRes` is `typedef uint8_t tMKxC2XSecVerRes` in r16. -/
def tMKxC2XSecVerRes : CType := .uint8_t

/-- Type `tMKxC2XSecCId` is `typedef uint8_t tMKxC2XSecCId` in r16. -/
def tMKxC2XSecCId : CType := .uint8_t

/-- Type `tMKxC2XSecSig` is `typedef uint8_t tMKxC2XSecSig[32]`. -/
def tMKxC2XSecSig : CType := .array .uint8_t 32

/-- Type `tMKxC2XSecHash` is `typedef uint8_t tMKxC2XSecHash[32]`. -/
def tMKxC2XSecHash : CType := .array .uint8_t 32

/-- Type `tMKxC2XSecCoord` is `typedef uint8_t tMKxC2XSecCoord[32]`. -/
def tMKxC2XSecCoord : CType := .array .uint8_t 32

/-- Structure `tMKxC2XSecPair` of r16 (lines 1070-1076). -/
def tMKxC2XSecPair : CType :=
  .struct [ ("X", tMKxC2XSecCoord), ("Y", tMKxC2XSecCoord) ]

/-- Structure `tMKxC2XSecCompPubKey` of r16 (lines 1079-1085). -/
def tMKxC2XSecCompPubKey : CType :=
  .struct [ ("X", tMKxC2XSecCoord), ("Ybit", .uint8_t) ]

/-- Structure `tMKxC2XSecVSoH` of r16 (lines 1089-1101), verify signature of hash. -/
def tMKxC2XSecVSoH : CType :=
  .struct
    [ ("PubKey", tMKxC2XSecPair),
      ("E", tMKxC2XSecHash),
      ("R", tMKxC2XSecSig),
      ("S", tMKxC2XSecSig),
      ("CurveId", tMKxC2XSecCId) ]

/-- Structure `tMKxC2XSecDPK` of r16 (lines 1105-1111), decompress public key. -/
def tMKxC2XSecDPK : CType :=
  .struct
    [ ("MKxC2XSecCompPubKey", tMKxC2XSecCompPubKey),
      ("CurveId", tMKxC2XSecCId) ]

/-- Structure `tMKxC2XSecREPK` of r16 (lines 1115-1125), reconstruct ECC public key. -/
def tMKxC2XSecREPK : CType :=
  .struct
    [ ("hvij", tMKxC2XSecHash),
      ("RVij", tMKxC2XSecPair),
      ("Spca", tMKxC2XSecPair),
      ("CurveId", tMKxC2XSecCId) ]

/-- Union `tMKxC2XSecCmdPL` of r16 (lines 1128-1138), the command payload. -/
def tMKxC2XSecCmdPL : CType :=
  .union
    [ ("VerifySigOfHash", tMKxC2XSecVSoH),
      ("DecompEccPubKey", tMKxC2XSecDPK),
      ("ReconEccPubKey", tMKxC2XSecREPK),
      ("Data", .array .uint8_t 0) ]

/-- Structure `tMKxC2XSecCmd` of r16 (lines 1167-1181); `Payload` is a zero-length array. -/
def tMKxC2XSecCmd : CType :=
  .struct
    [ ("CLA", .uint8_t),
      ("INS", .uint8_t),
      ("USN", .array .uint8_t 2),
      ("LC", .uint8_t),
      ("Payload", .array tMKxC2XSecCmdPL 0),
      ("LE", .uint8_t) ]

/-- Structure `tMKxC2XSecCmdPA` of r16 (lines 1186-1196), the payload-aligned command. -/
def tMKxC2XSecCmdPA : CType :=
  .struct
    [ ("Padding", .array .uint8_t 3),
      ("Data", .array .uint8_t 0),
      ("Cmd", tMKxC2XSecCmd),
      ("End", .array .uint8_t 0) ]

/-- Structure `tMKxC2XSecResRsp` of r16 (lines 1200-1204). -/
def tMKxC2XSecResRsp : CType :=
  .struct [ ("VerResult", tMKxC2XSecVerRes) ]

/-- Structure `tMKxC2XSecPubKeyRsp` of r16 (lines 1208-1212). -/
def tMKxC2XSecPubKeyRsp : CType :=
  .struct [ ("PubKey", tMKxC2XSecPair) ]

/-- Union `tMKxC2XSecRspPL` of r16 (lines 1215-1223), the response payload. -/
def tMKxC2XSecRspPL : CType :=
  .union
    [ ("ResRsp", tMKxC2XSecResRsp),
      ("PubKeyRsp", tMKxC2XSecPubKeyRsp),
      ("Data", .array .uint8_t 0) ]

/-- Structure `tMKxC2XSecRsp` of r16 (lines 1238-1247); `Payload` is a zero-length array. -/
def tMKxC2XSecRsp : CType :=
  .struct
    [ ("USN", .array .uint8_t 2),
      ("Payload", .array tMKxC2XSecRspPL 0),
      ("SW", .array .uint8_t 2) ]

/-- Structure `tMKxC2XSecRspPA` of r16 (lines 1252-1262), the payload-aligned response. -/
def tMKxC2XSecRspPA : CType :=
  .struct
    [ ("Padding", .array .uint8_t 6),
      ("Data", .array .uint8_t 0),
      ("Rsp", tMKxC2XSecRsp),
      ("End", .array .uint8_t 0) ]

/-- Union `tMKxC2XSecAPDU` of r16 (lines 1267-1273). -/
def tMKxC2XSecAPDU : CType :=
  .union
    [ ("C", tMKxC2XSecCmdPA),
      ("R", tMKxC2XSecRspPA) ]

/-- Structure `tMKxC2XSec` of r16 (lines 1278-1284), the C2X security message. -/
def tMKxC2XSec : CType :=
  .struct
    [ ("Hdr", tMKxIFMsg),
      ("APDU", tMKxC2XSecAPDU) ]

/-- Bit-field form of `tMKxAddressMatching` (r16 lines 796-814, compiled when
`LLC_NO_BITFIELDS` is not defined): the bit-field members with their widths in bits, in
declaration order; every member has the storage type `uint64_t`. -/
def tMKxAddressMatching_bitfields : List (String × Nat) :=
  [ ("Mask", 48),
    ("Pad0", 16),
    ("Addr", 48),
    ("MatchCtrl", 8),
    ("Pad1", 8) ]

/-- Constant `LLC_API_VERSION_MAJOR` is `3U` in r16. -/
def LLC_API_VERSION_MAJOR : Nat := 3

/-- Constant `CALIBRATION_VERSION` is `1U` in r16. -/
def CALIBRATION_VERSION : Nat := 1

/-- Constant `MKX_API_MAGIC` is `(0xC0DA)`. -/
def MKX_API_MAGIC : Nat := 0xC0DA

/-- Constant `AMS_TABLE_COUNT` is `8`. -/
def AMS_TABLE_COUNT : Nat := 8

/-- Constant `CAL_CHANNEL_COUNT` is `(((184U - 168U)/2U) + 1U + 1U)`. -/
def CAL_CHANNEL_COUNT : Nat := ((184 - 168) / 2) + 1 + 1

/-- Constant `CAL_POINT_COUNT` is `2`. -/
def CAL_POINT_COUNT : Nat := 2

/-- Constant `MKX_ANT_COUNT` is `2U`. -/
def MKX_ANT_COUNT : Nat := 2

/-- Enumeration `eMKxRadio`: `MKX_RADIO_COUNT = 2`. -/
def MKX_RADIO_COUNT : Nat := 2

/-- Enumeration `eMKxRadio`: `MKX_RADIO_MAX = MKX_RADIO_COUNT - 1`. -/
def MKX_RADIO_MAX : Nat := MKX_RADIO_COUNT - 1

/-- Enumeration `eMKxChannel`: `MKX_CHANNEL_COUNT = 2`. -/
def MKX_CHANNEL_COUNT : Nat := 2

/-- Enumeration `eMKxTxQueue` of r16: `MKX_TXQ_COUNT` follows `MKX_TXQ_AC_BK = 4`. -/
def MKX_TXQ_COUNT : Nat := 4 + 1

/-- Enumeration `eMKxAuxADCIndex`: `AUXADC_INDEX_COUNT = 7`. -/
def AUXADC_INDEX_COUNT : Nat := 7

/-- Enumeration `eMKxStatus` of r16 (lines 259-306): every enumerator with its value. -/
def eMKxStatus : List (String × Int) :=
  [ ("MKXSTATUS_SUCCESS", 0),
    ("MKXSTATUS_FAILURE_INTERNAL_ERROR", -256),
    ("MKXSTATUS_FAILURE_INVALID_HANDLE", -257),
    ("MKXSTATUS_FAILURE_INVALID_CONFIG", -258),
    ("MKXSTATUS_FAILURE_INVALID_LENGTH", -259),
    ("MKXSTATUS_FAILURE_INVALID_PARAM", -260),
    ("MKXSTATUS_FAILURE_AUTOCAL_REJECT_SIMULTANEOUS", -261),
    ("MKXSTATUS_FAILURE_AUTOCAL_REJECT_UNCONFIGURED", -262),
    ("MKXSTATUS_FAILURE_INVALID_CALIBRATION", -263),
    ("MKXSTATUS_FAILURE_INVALID_CALIBRATION_VERSION", -264),
    ("MKXSTATUS_FAILURE_RADIOCONFIG_MAX", -513),
    ("MKXSTATUS_FAILURE_RADIOCONFIG_MIN", -768),
    ("MKXSTATUS_TX_FAIL_TTL", -769),
    ("MKXSTATUS_TX_FAIL_RETRIES", -770),
    ("MKXSTATUS_TX_FAIL_QUEUEFULL", -771),
    ("MKXSTATUS_TX_FAIL_RADIO_NOT_PRESENT", -772),
    ("MKXSTATUS_TX_FAIL_MALFORMED", -773),
    ("MKXSTATUS_TX_FAIL_RADIO_UNCONFIGURED", -774),
    ("MKXSTATUS_TX_FAIL_PACKET_TOO_LONG", -775),
    ("MKXSTATUS_SECURITY_ACCELERATOR_NOT_PRESENT", -1024),
    ("MKXSTATUS_SECURITY_FIFO_FULL", -1025),
    ("MKXSTATUS_RESERVED", 0xC0DA) ]

/-- Enumerator `MKXSTATUS_SUCCESS = 0`. -/
def MKXSTATUS_SUCCESS : Int := 0

/-- Enumerator `MKXSTATUS_FAILURE_INVALID_HANDLE = -257` (r16). -/
def MKXSTATUS_FAILURE_INVALID_HANDLE : Int := -257

/-- Enumerator `MKXSTATUS_FAILURE_INVALID_PARAM = -260` (r16). -/
def MKXSTATUS_FAILURE_INVALID_PARAM : Int := -260

/-- Type `tMKxBandwidth` is `typedef int8_t tMKxBandwidth` in r16. -/
def tMKxBandwidth : CType := .int8_t

/-- Type `tMKxDualTxControl` is `typedef uint8_t tMKxDualTxControl`. -/
def tMKxDualTxControl : CType := .uint8_t

/-- Type `tMKxSetTSFCmd` is `typedef uint8_t tMKxSetTSFCmd`. -/
def tMKxSetTSFCmd : CType := .uint8_t

/-- Type `tMKxRadioMode` is `typedef uint16_t tMKxRadioMode`. -/
def tMKxRadioMode : CType := .uint16_t

/-- Type `tMKxAuxADCIndex` is `typedef uint8_t tMKxAuxADCIndex`. -/
def tMKxAuxADCIndex : CType := .uint8_t

/-- Type `tMKxCompensatorSel` is `typedef uint8_t tMKxCompensatorSel`. -/
def tMKxCompensatorSel : CType := .uint8_t

/-- Type `tMKxPowerCalMode` is `typedef uint8_t tMKxPowerCalMode`. -/
def tMKxPowerCalMode : CType := .uint8_t

/-- Type `tMKxCompensatorReturn` is `typedef uint32_t tMKxCompensatorReturn`. -/
def tMKxCompensatorReturn : CType := .uint32_t

/-- Type `tMKxRSSICalMode` is `typedef uint8_t tMKxRSSICalMode`. -/
def tMKxRSSICalMode : CType := .uint8_t

/-- Type `tMKxTempSource` is `typedef uint16_t tMKxTempSource`. -/
def tMKxTempSource : CType := .uint16_t

/-- Structure `tMKxSetTSFData` of r16 (lines 673-685). -/
def tMKxSetTSFData : CType :=
  .struct
    [ ("Cmd", tMKxSetTSFCmd),
      ("Reserved0", .uint8_t),
      ("Reserved1", .uint8_t),
      ("Reserved2", .uint8_t),
      ("UTC", tMKxTSF),
      ("TSF", tMKxTSF) ]

/-- Structure `tMKxSetTSF` of r16 (lines 690-696). -/
def tMKxSetTSF : CType :=
  .struct
    [ ("Hdr", tMKxIFMsg),
      ("SetTSFData", tMKxSetTSFData) ]

/-- Structure `tMKxAddressMatching` of r16 (lines 796-814) in the byte-array form that
`wrapper.h` selects by defining `LLC_NO_BITFIELDS`. -/
def tMKxAddressMatching : CType :=
  .struct
    [ ("Mask", .array .uint8_t 6),
      ("Reserved0", .uint16_t),
      ("Addr", .array .uint8_t 6),
      ("MatchCtrl", .uint16_t) ]

/-- Structure `tMKxTxQConfig` of r16 (lines 817-827). -/
def tMKxTxQConfig : CType :=
  .struct
    [ ("AIFS", .uint8_t),
      ("CWMIN", .uint8_t),
      ("CWMAX", .uint16_t),
      ("TXOP", .uint16_t) ]

/-- Structure `tMKxChanConfigPHY` of r16 (lines 831-848). -/
def tMKxChanConfigPHY : CType :=
  .struct
    [ ("ChannelFreq", tMKxChannelFreq),
      ("Bandwidth", tMKxBandwidth),
      ("TxAntenna", tMKxAntenna),
      ("RxAntenna", tMKxAntenna),
      ("DefaultMCS", tMKxMCS),
      ("DefaultTxPower", tMKxPower) ]

/-- Structure `tMKxChanConfigMAC` of r16 (lines 851-877). -/
def tMKxChanConfigMAC : CType :=
  .struct
    [ ("DualTxControl", tMKxDualTxControl),
      ("CSThreshold", .int8_t),
      ("SlotTime", .uint16_t),
      ("DIFSTime", .uint16_t),
      ("SIFSTime", .uint16_t),
      ("EIFSTime", .uint16_t),
      ("TxQueue", .array tMKxTxQConfig MKX_TXQ_COUNT),
      ("AMSTable", .array tMKxAddressMatching AMS_TABLE_COUNT),
      ("ShortRetryLimit", .uint16_t),
      ("LongRetryLimit", .uint16_t),
      ("RTSCTSThreshold", .uint16_t) ]

/-- Structure `tMKxChanConfigLLC` of r16 (lines 880-887). -/
def tMKxChanConfigLLC : CType :=
  .struct
    [ ("IntervalDuration", .uint32_t),
      ("GuardDuration", .uint32_t) ]

/-- Structure `tMKxChanConfig` of r16 (lines 892-900). -/
def tMKxChanConfig : CType :=
  .struct
    [ ("PHY", tMKxChanConfigPHY),
      ("MAC", tMKxChanConfigMAC),
      ("LLC", tMKxChanConfigLLC) ]

/-- Structure `tMKxRadioConfigData` of r16 (lines 917-925). -/
def tMKxRadioConfigData : CType :=
  .struct
    [ ("Mode", tMKxRadioMode),
      ("SystemTickRateMHz", .uint16_t),
      ("ChanConfig", .array tMKxChanConfig MKX_CHANNEL_COUNT) ]

/-- Structure `tMKxRadioConfig` of r16 (lines 930-936). -/
def tMKxRadioConfig : CType :=
  .struct
    [ ("Hdr", tMKxIFMsg),
      ("RadioConfigData", tMKxRadioConfigData) ]

/-- Structure `tMKxTxQueueStats` of r16 (lines 939-953). -/
def tMKxTxQueueStats : CType :=
  .struct
    [ ("TxReqCount", .uint32_t),
      ("TxCnfCount", .uint32_t),
      ("TxErrCount", .uint32_t),
      ("TxValid", .uint32_t),
      ("InternalCollisions", .uint32_t),
      ("TxPending", .uint32_t) ]

/-- Structure `tMKxChannelStats` of r16 (lines 956-985). -/
def tMKxChannelStats : CType :=
  .struct
    [ ("TxReq", .uint32_t),
      ("TxFail", .uint32_t),
      ("TxCnf", .uint32_t),
      ("TxErr", .uint32_t),
      ("TxValid", .uint32_t),
      ("RxInd", .uint32_t),
      ("RxFail", .uint32_t),
      ("RxDup", .uint32_t),
      ("TxQueue", .array tMKxTxQueueStats MKX_TXQ_COUNT),
      ("MediumBusyTime", .uint32_t),
      ("ChannelBusyRatio", .uint8_t),
      ("AverageIdlePower", .int8_t) ]

/-- Structure `tMKxRadioStatsData` of r16 (lines 988-994). -/
def tMKxRadioStatsData : CType :=
  .struct
    [ ("Chan", .array tMKxChannelStats MKX_CHANNEL_COUNT),
      ("TSF", tMKxTSF) ]

/-- Structure `tMKxRadioStats` of r16 (lines 999-1005). -/
def tMKxRadioStats : CType :=
  .struct
    [ ("Hdr", tMKxIFMsg),
      ("RadioStatsData", tMKxRadioStatsData) ]

/-- Structure `tMKxTemperatureComp` of r16 (lines 1415-1421). -/
def tMKxTemperatureComp : CType :=
  .struct
    [ ("Slope", .int32_t),
      ("ZeroIntercept", .array .int32_t CAL_CHANNEL_COUNT) ]

/-- Structure `tMKxPowerDetCalPoint` of r16 (lines 1428-1436). -/
def tMKxPowerDetCalPoint : CType :=
  .struct
    [ ("PowerDet", .int32_t),
      ("PowerConstant", .int32_t),
      ("PowerRate", .int32_t) ]

/-- Structure `tMKxPowerDetTempCalPoint` of r16 (lines 1443-1450). -/
def tMKxPowerDetTempCalPoint : CType :=
  .struct
    [ ("CalTemp", .int32_t),
      ("TempOffsetRate", .int32_t) ]

/-- Structure `tMKxPowerDetCal` of r16 (lines 1459-1465). -/
def tMKxPowerDetCal : CType :=
  .struct
    [ ("CalPoint", .array tMKxPowerDetCalPoint CAL_POINT_COUNT),
      ("TempCalPoint", tMKxPowerDetTempCalPoint) ]

/-- Structure `tMKxAutoReg` of r16 (lines 1474-1480). -/
def tMKxAutoReg : CType :=
  .struct
    [ ("Alpha", .uint16_t),
      ("Beta", .uint16_t) ]

/-- Structure `tMKxCompensatorConfig` of r16 (lines 1496-1519). -/
def tMKxCompensatorConfig : CType :=
  .struct
    [ ("TxPAOnDelay", .uint32_t),
      ("DebugEnable", .uint32_t),
      ("CompensatorReturn", tMKxCompensatorReturn),
      ("TxPowerThresh", .int32_t),
      ("AutoReg", tMKxAutoReg),
      ("TxRFGain", .int32_t),
      ("CableLoss", .int32_t),
      ("RxRFGain", .int32_t),
      ("RSSICal", tMKxTemperatureComp) ]

/-- Structure `tMKxLocalPALNAConfig` of r16 (lines 1533-1559). -/
def tMKxLocalPALNAConfig : CType :=
  .struct
    [ ("TxPAOnDelay", .uint32_t),
      ("TxPowerDetInput", tMKxAuxADCIndex),
      ("DebugEnable", .uint8_t),
      ("Reserved", .array .uint8_t 2),
      ("TxPowerDetCal", tMKxPowerDetCal),
      ("TxPowerTempCal", tMKxTemperatureComp),
      ("AutoReg", tMKxAutoReg),
      ("TxRFGain", .int32_t),
      ("RSSICal", tMKxTemperatureComp) ]

/-- Structure `tMKxAntCalibration` of r16 (lines 1573-1599). -/
def tMKxAntCalibration : CType :=
  .struct
    [ ("CompensatorSel", tMKxCompensatorSel),
      ("TxPowerCalMode", tMKxPowerCalMode),
      ("RSSICalMode", tMKxRSSICalMode),
      ("Reserved", .uint8_t),
      ("CompensatorConfig", tMKxCompensatorConfig),
      ("LocalPALNAConfig", tMKxLocalPALNAConfig),
      ("TxPowerExtraDrive", .array .int32_t CAL_CHANNEL_COUNT),
      ("TxPowerLimitMaxTemp", .int16_t),
      ("TxPowerLimitMaxPower", tMKxPower),
      ("TxLOSearchFreq", .int32_t) ]

/-- Structure `tMKxAcquisitionConfig` of r16 (lines 1605-1613). -/
def tMKxAcquisitionConfig : CType :=
  .struct
    [ ("RxAcqDetectThreshSingAnt1", .uint32_t),
      ("RxAcqDetectThreshSingAnt2", .uint32_t),
      ("RxAcqDetectThreshDualAnt", .uint32_t) ]

/-- Structure `tMKxTempConfig` of r16 (lines 1640-1651). -/
def tMKxTempConfig : CType :=
  .struct
    [ ("SensorSource", tMKxTempSource),
      ("I2CAddrPAAnt1", .uint8_t),
      ("I2CAddrPAAnt2", .uint8_t),
      ("SensorPeriod", .uint32_t) ]

/-- Structure `tMKxCalibrationData` of r16 (lines 1658-1668). -/
def tMKxCalibrationData : CType :=
  .struct
    [ ("Version", .uint32_t),
      ("AntCalibration", .array tMKxAntCalibration MKX_ANT_COUNT),
      ("AcquisitionConfig", tMKxAcquisitionConfig),
      ("TempConfig", tMKxTempConfig) ]

/-- Structure `tMKxCalibration` of r16 (lines 1673-1679). -/
def tMKxCalibration : CType :=
  .struct
    [ ("Hdr", tMKxIFMsg),
      ("CalibrationData", tMKxCalibrationData) ]

/-- Structure `tMKxAuxADCConfigData` of r16 (lines 1753-1757). -/
def tMKxAuxADCConfigData : CType :=
  .struct [ ("ConfigRegister", .uint32_t) ]

/-- Structure `tMKxAuxADCConfig` of r16 (lines 1762-1768). -/
def tMKxAuxADCConfig : CType :=
  .struct
    [ ("Hdr", tMKxIFMsg),
      ("AuxADCConfigData", tMKxAuxADCConfigData) ]

/-- Type `tMKxTxQueue` is `typedef uint8_t tMKxTxQueue`. -/
def tMKxTxQueue : CType := .uint8_t

/-- Structure `tMKxGetTSF` of r16 (lines 701-707). -/
def tMKxGetTSF : CType :=
  .struct
    [ ("Hdr", tMKxIFMsg),
      ("TSF", tMKxTSF) ]

/-- Structure `tMKxFlushQueue` of r16 (lines 728-738). -/
def tMKxFlushQueue : CType :=
  .struct
    [ ("Hdr", tMKxIFMsg),
      ("RadioID", tMKxRadio),
      ("ChannelID", tMKxChannel),
      ("TxQueue", tMKxTxQueue) ]

/-- Structure `tMKxTempData` of r16 (lines 1684-1690). -/
def tMKxTempData : CType :=
  .struct
    [ ("TempPAAnt1", .int8_t),
      ("TempPAAnt2", .int8_t) ]

/-- Structure `tMKxTemp` of r16 (lines 1699-1705). -/
def tMKxTemp : CType :=
  .struct
    [ ("Hdr", tMKxIFMsg),
      ("TempData", tMKxTempData) ]

/-- Structure `tMKxAuxADCData` of r16 (lines 1731-1737). -/
def tMKxAuxADCData : CType :=
  .struct
    [ ("Values", .array .uint32_t AUXADC_INDEX_COUNT),
      ("Timestamps", .array tMKxTSF AUXADC_INDEX_COUNT) ]

/-- Structure `tMKxAuxADC` of r16 (lines 1742-1748). -/
def tMKxAuxADC : CType :=
  .struct
    [ ("Hdr", tMKxIFMsg),
      ("AuxADCData", tMKxAuxADCData) ]

/-- Structure `tMKxAPIVersionData` of r16 (lines 1773-1779). -/
def tMKxAPIVersionData : CType :=
  .struct
    [ ("Major", .uint16_t),
      ("Minor", .uint16_t) ]

/-- Structure `tMKxAPIVersion` of r16 (lines 1784-1790). -/
def tMKxAPIVersion : CType :=
  .struct
    [ ("Hdr", tMKxIFMsg),
      ("VersionData", tMKxAPIVersionData) ]

/-- Macro `MKXC2XSEC_CMD_MAX_SIZE` is `(sizeof(tMKxC2XSecCmd) + sizeof(tMKxC2XSecCmdPL))`. -/
def MKXC2XSEC_CMD_MAX_SIZE : Nat := tMKxC2XSecCmd.sizeof + tMKxC2XSecCmdPL.sizeof

/-- Macro `MKXC2XSEC_CMD_PA_MAX_SIZE` is
`(sizeof(tMKxC2XSecCmdPA) + sizeof(tMKxC2XSecCmdPL))`. -/
def MKXC2XSEC_CMD_PA_MAX_SIZE : Nat := tMKxC2XSecCmdPA.sizeof + tMKxC2XSecCmdPL.sizeof

/-- Macro `MKXC2XSEC_RSP_MAX_SIZE` is `(sizeof(tMKxC2XSecRsp) + sizeof(tMKxC2XSecRspPL))`. -/
def MKXC2XSEC_RSP_MAX_SIZE : Nat := tMKxC2XSecRsp.sizeof + tMKxC2XSecRspPL.sizeof

/-- Macro `MKXC2XSEC_RSP_PA_MAX_SIZE` is
`(sizeof(tMKxC2XSecRspPA) + sizeof(tMKxC2XSecRspPL))`. -/
def MKXC2XSEC_RSP_PA_MAX_SIZE : Nat := tMKxC2XSecRspPA.sizeof + tMKxC2XSecRspPL.sizeof

/-- Macro `MKXC2XSEC_MAX_SIZE` is `(sizeof(tMKxIFMsg) + ((MKXC2XSEC_CMD_PA_MAX_SIZE >
MKXC2XSEC_RSP_PA_MAX_SIZE) ? MKXC2XSEC_CMD_PA_MAX_SIZE : MKXC2XSEC_RSP_PA_MAX_SIZE))`. -/
def MKXC2XSEC_MAX_SIZE : Nat :=
  tMKxIFMsg.sizeof
    + (if MKXC2XSEC_CMD_PA_MAX_SIZE > MKXC2XSEC_RSP_PA_MAX_SIZE then MKXC2XSEC_CMD_PA_MAX_SIZE
       else MKXC2XSEC_RSP_PA_MAX_SIZE)

end R16

/-! ## Revision r17.1 -/

namespace R17

/-- Enumeration `eMKxIFMsgType` (r17.1, lines 124-178): enumerator `MKXIF_COUNT`. -/
def MKXIF_COUNT : Nat := 24

/-- Enumeration `eMKxIFMsgType` (r17.1): `MKXIF_MAX = MKXIF_COUNT - 1`. -/
def MKXIF_MAX : Nat := MKXIF_COUNT - 1

/-- Enumeration `eMKxIFMsgType` of r17.1: every enumerator with its value, in declaration
order. -/
def eMKxIFMsgType : List (String × Nat) :=
  [ ("MKXIF_APIVERSION", 0),
    ("MKXIF_TXPACKET", 1),
    ("MKXIF_RXPACKET", 2),
    ("MKXIF_SET_TSF", 3),
    ("MKXIF_TXEVENT", 4),
    ("MKXIF_RADIOACFG", 5),
    ("MKXIF_RADIOBCFG", 6),
    ("MKXIF_RADIOASTATS", 7),
    ("MKXIF_RADIOBSTATS", 8),
    ("MKXIF_FLUSHQ", 9),
    ("MKXIF_DEBUG", 10),
    ("MKXIF_C2XSEC", 11),
    ("MKXIF_CALIBRATION", 12),
    ("MKXIF_TEMP", 13),
    ("MKXIF_GET_TSF", 14),
    ("MKXIF_AUXADC", 15),
    ("MKXIF_AUXADCCFG", 16),
    ("MKXIF_ERROR", 17),
    ("MKXIF_WARNING", 18),
    ("MKXIF_LOG", 19),
    ("MKXIF_GPIO", 20),
    ("MKXIF_RESET", 21),
    ("MKXIF_LOOPBACK", 22),
    ("MKXIF_FAULT", 23),
    ("MKXIF_COUNT", MKXIF_COUNT),
    ("MKXIF_MAX", MKXIF_MAX) ]

/-- Type `tMKxIFMsgType` is `typedef uint16_t tMKxIFMsgType`. -/
def tMKxIFMsgType : CType := .uint16_t

/-- Structure `tMKxIFMsg` of r17.1 (lines 186-200), the LLC managed message header. -/
def tMKxIFMsg : CType :=
  .struct
    [ ("Type", tMKxIFMsgType),
      ("Len", .uint16_t),
      ("Seq", .uint16_t),
      ("Ref", .uint16_t),
      ("Reserved", .uint16_t),
      ("Ret", .int16_t) ]

/-- Type `tMKxRadio` is `typedef uint8_t tMKxRadio` in r17.1. -/
def tMKxRadio : CType := .uint8_t

/-- Type `tMKxChannel` is `typedef uint8_t tMKxChannel` in r17.1. -/
def tMKxChannel : CType := .uint8_t

/-- Type `tMKxChannelFreq` is `typedef uint16_t tMKxChannelFreq`. -/
def tMKxChannelFreq : CType := .uint16_t

/-- Type `tMKxMCS` is `typedef uint8_t tMKxMCS`. -/
def tMKxMCS : CType := .uint8_t

/-- Type `tMKxPower` is `typedef int16_t tMKxPower`. -/
def tMKxPower : CType := .int16_t

/-- Type `tMKxAntenna` is `typedef uint8_t tMKxAntenna`. -/
def tMKxAntenna : CType := .uint8_t

/-- Type `tMKxTSF` is `typedef uint64_t tMKxTSF`. -/
def tMKxTSF : CType := .uint64_t

/-- Type `tMKxTxCtrlFlags` is `typedef uint8_t tMKxTxCtrlFlags`. -/
def tMKxTxCtrlFlags : CType := .uint8_t

/-- Structure `tMKxTxPacketData` of r17.1 (lines 1730-1757), the transmit descriptor. -/
def tMKxTxPacketData : CType :=
  .struct
    [ ("RadioID", tMKxRadio),
      ("ChannelID", tMKxChannel),
      ("TxAntenna", tMKxAntenna),
      ("MCS", tMKxMCS),
      ("TxPower", tMKxPower),
      ("TxCtrlFlags", tMKxTxCtrlFlags),
      ("Reserved0", .uint8_t),
      ("Expiry", tMKxTSF),
      ("TxFrameLength", .uint16_t),
      ("Reserved1", .uint16_t),
      ("TxFrame", .array .uint8_t 0) ]

/-- Structure `tMKxTxPacket` of r17.1 (lines 1762-1768). -/
def tMKxTxPacket : CType :=
  .struct
    [ ("Hdr", tMKxIFMsg),
      ("TxPacketData", tMKxTxPacketData) ]

/-- Structure `tMKxTxEventData` of r17.1 (lines 1774-1799). -/
def tMKxTxEventData : CType :=
  .struct
    [ ("TxStatus", .int16_t),
      ("MACSequenceNumber", .uint16_t),
      ("TxTime", tMKxTSF),
      ("AckResponseDelay_ps", .uint32_t),
      ("CTSResponseDelay_ps", .uint32_t),
      ("MACDwellTime", .uint32_t),
      ("NumShortRetries", .uint8_t),
      ("NumLongRetries", .uint8_t),
      ("DestAddress", .array .uint8_t 6),
      ("Reserved0", .uint32_t),
      ("Reserved1", .uint32_t) ]

/-- Structure `tMKxTxEvent` of r17.1 (lines 1804-1810). -/
def tMKxTxEvent : CType :=
  .struct
    [ ("Hdr", tMKxIFMsg),
      ("TxEventData", tMKxTxEventData) ]

/-- Structure `tMKxRxPacketData` of r17.1 (lines 1819-1857), the receive descriptor. -/
def tMKxRxPacketData : CType :=
  .struct
    [ ("RadioID", tMKxRadio),
      ("ChannelID", tMKxChannel),
      ("MCS", tMKxMCS),
      ("FCSPass", .uint8_t),
      ("RxPowerAnt1", tMKxPower),
      ("RxPowerAnt2", tMKxPower),
      ("RxNoiseAnt1", tMKxPower),
      ("RxNoiseAnt2", tMKxPower),
      ("RxFreqOffset", .int32_t),
      ("RxTSF", tMKxTSF),
      ("RxFrameLength", .uint16_t),
      ("ChannelFreq", tMKxChannelFreq),
      ("Reserved1", .uint32_t),
      ("Reserved2", .uint32_t),
      ("Reserved3", .uint32_t),
      ("Reserved4", .uint32_t),
      ("RxFrame", .array .uint8_t 0) ]

/-- Structure `tMKxRxPacket` of r17.1 (lines 1862-1868). -/
def tMKxRxPacket : CType :=
  .struct
    [ ("Hdr", tMKxIFMsg),
      ("RxPacketData", tMKxRxPacketData) ]

/-- Bit-field form of `tMKxAddressMatching` (r17.1 lines 2014-2032, compiled when
`LLC_NO_BITFIELDS` is not defined): the bit-field members with their widths in bits, in
declaration order; every member has the storage type `uint64_t`. -/
def tMKxAddressMatching_bitfields : List (String × Nat) :=
  [ ("Mask", 48),
    ("Pad0", 16),
    ("Addr", 48),
    ("MatchCtrl", 8),
    ("Pad1", 8) ]

/-- Type `tMKxC2XSecUSN` is `typedef uint16_t tMKxC2XSecUSN`. -/
def tMKxC2XSecUSN : CType := .uint16_t

/-- Type `tMKxC2XSecInst` is `typedef uint16_t tMKxC2XSecInst`. -/
def tMKxC2XSecInst : CType := .uint16_t

/-- Type `tMKxC2XSecErrorCode` is `typedef uint16_t tMKxC2XSecErrorCode`. -/
def tMKxC2XSecErrorCode : CType := .uint16_t

/-- Type `tMKxC2XSecVerRes` is `typedef uint32_t tMKxC2XSecVerRes` in r17.1. -/
def tMKxC2XSecVerRes : CType := .uint32_t

/-- Type `tMKxC2XSecCID` is `typedef uint16_t tMKxC2XSecCID`. -/
def tMKxC2XSecCID : CType := .uint16_t

/-- Type `tMKxC2XSecSig256` is `typedef uint8_t tMKxC2XSecSig256[32]`. -/
def tMKxC2XSecSig256 : CType := .array .uint8_t 32

/-- Type `tMKxC2XSecSig384` is `typedef uint8_t tMKxC2XSecSig384[48]`. -/
def tMKxC2XSecSig384 : CType := .array .uint8_t 48

/-- Type `tMKxC2XSecHash256` is `typedef uint8_t tMKxC2XSecHash256[32]`. -/
def tMKxC2XSecHash256 : CType := .array .uint8_t 32

/-- Type `tMKxC2XSecHash384` is `typedef uint8_t tMKxC2XSecHash384[48]`. -/
def tMKxC2XSecHash384 : CType := .array .uint8_t 48

/-- Type `tMKxC2XSecCoord256` is `typedef uint8_t tMKxC2XSecCoord256[32]`. -/
def tMKxC2XSecCoord256 : CType := .array .uint8_t 32

/-- Type `tMKxC2XSecCoord384` is `typedef uint8_t tMKxC2XSecCoord384[48]`. -/
def tMKxC2XSecCoord384 : CType := .array .uint8_t 48

/-- Structure `tMKxC2XSecPair256` (r17.1 lines 2318-2324). -/
def tMKxC2XSecPair256 : CType :=
  .struct [ ("X", tMKxC2XSecCoord256), ("Y", tMKxC2XSecCoord256) ]

/-- Structure `tMKxC2XSecPair384` (r17.1 lines 2327-2333). -/
def tMKxC2XSecPair384 : CType :=
  .struct [ ("X", tMKxC2XSecCoord384), ("Y", tMKxC2XSecCoord384) ]

/-- Structure `tMKxC2XSecCompPubKey256` (r17.1 lines 2336-2342). -/
def tMKxC2XSecCompPubKey256 : CType :=
  .struct [ ("X", tMKxC2XSecCoord256), ("Ybit", .uint8_t) ]

/-- Structure `tMKxC2XSecCompPubKey384` (r17.1 lines 2345-2351). -/
def tMKxC2XSecCompPubKey384 : CType :=
  .struct [ ("X", tMKxC2XSecCoord384), ("Ybit", .uint8_t) ]

/-- Structure `tMKxC2XSecCmdHdr` (r17.1 lines 2362-2374), the command header. -/
def tMKxC2XSecCmdHdr : CType :=
  .struct
    [ ("USN", tMKxC2XSecUSN),
      ("INS", tMKxC2XSecInst),
      ("CurveID", tMKxC2XSecCID),
      ("LC", .uint16_t),
      ("Data", .array .uint8_t 0) ]

/-- Structure `tMKxC2XSecVSOH256` (r17.1 lines 2377-2387). -/
def tMKxC2XSecVSOH256 : CType :=
  .struct
    [ ("PubKey", tMKxC2XSecPair256),
      ("E", tMKxC2XSecHash256),
      ("R", tMKxC2XSecSig256),
      ("S", tMKxC2XSecSig256) ]

/-- Structure `tMKxC2XSecVSOH384` (r17.1 lines 2390-2399). -/
def tMKxC2XSecVSOH384 : CType :=
  .struct
    [ ("PubKey", tMKxC2XSecPair384),
      ("E", tMKxC2XSecHash384),
      ("R", tMKxC2XSecSig384),
      ("S", tMKxC2XSecSig384) ]

/-- Structure `tMKxC2XSecDPKVSOH256` (r17.1 lines 2402-2414). -/
def tMKxC2XSecDPKVSOH256 : CType :=
  .struct
    [ ("CompPubKey", tMKxC2XSecCompPubKey256),
      ("Padding", .array .uint8_t 3),
      ("E", tMKxC2XSecHash256),
      ("R", tMKxC2XSecSig256),
      ("S", tMKxC2XSecSig256) ]

/-- Structure `tMKxC2XSecDPKVSOH384` (r17.1 lines 2417-2429). -/
def tMKxC2XSecDPKVSOH384 : CType :=
  .struct
    [ ("CompPubKey", tMKxC2XSecCompPubKey384),
      ("Padding", .array .uint8_t 3),
      ("E", tMKxC2XSecHash384),
      ("R", tMKxC2XSecSig384),
      ("S", tMKxC2XSecSig384) ]

/-- Structure `tMKxC2XSecDPK256` (r17.1 lines 2432-2438). -/
def tMKxC2XSecDPK256 : CType :=
  .struct
    [ ("CompPubKey", tMKxC2XSecCompPubKey256),
      ("Padding", .array .uint8_t 3) ]

/-- Structure `tMKxC2XSecDPK384` (r17.1 lines 2441-2447). -/
def tMKxC2XSecDPK384 : CType :=
  .struct
    [ ("CompPubKey", tMKxC2XSecCompPubKey384),
      ("Padding", .array .uint8_t 3) ]

/-- Structure `tMKxC2XSecREPK256` (r17.1 lines 2450-2458). -/
def tMKxC2XSecREPK256 : CType :=
  .struct
    [ ("hvij", tMKxC2XSecHash256),
      ("RVij", tMKxC2XSecPair256),
      ("Spca", tMKxC2XSecPair256) ]

/-- Structure `tMKxC2XSecREPK384` (r17.1 lines 2461-2469). -/
def tMKxC2XSecREPK384 : CType :=
  .struct
    [ ("hvij", tMKxC2XSecHash384),
      ("RVij", tMKxC2XSecPair384),
      ("Spca", tMKxC2XSecPair384) ]

/-- Structure `tMKxC2XSecRspHdr` (r17.1 lines 2484-2496), the response header. -/
def tMKxC2XSecRspHdr : CType :=
  .struct
    [ ("USN", tMKxC2XSecUSN),
      ("INS", tMKxC2XSecInst),
      ("ErrorCode", tMKxC2XSecErrorCode),
      ("LenRsp", .uint16_t),
      ("Data", .array .uint8_t 0) ]

/-- Structure `tMKxC2XSecVerifyRsp` (r17.1 lines 2499-2503). -/
def tMKxC2XSecVerifyRsp : CType :=
  .struct [ ("VerResult", tMKxC2XSecVerRes) ]

/-- Structure `tMKxC2XSecVerifyPK256Rsp` (r17.1 lines 2506-2512). -/
def tMKxC2XSecVerifyPK256Rsp : CType :=
  .struct [ ("VerResult", tMKxC2XSecVerRes), ("PubKey", tMKxC2XSecPair256) ]

/-- Structure `tMKxC2XSecVerifyPK384Rsp` (r17.1 lines 2515-2521). -/
def tMKxC2XSecVerifyPK384Rsp : CType :=
  .struct [ ("VerResult", tMKxC2XSecVerRes), ("PubKey", tMKxC2XSecPair384) ]

/-- Structure `tMKxC2XSecPubKey256Rsp` (r17.1 lines 2524-2528). -/
def tMKxC2XSecPubKey256Rsp : CType :=
  .struct [ ("PubKey", tMKxC2XSecPair256) ]

/-- Structure `tMKxC2XSecPubKey384Rsp` (r17.1 lines 2531-2535). -/
def tMKxC2XSecPubKey384Rsp : CType :=
  .struct [ ("PubKey", tMKxC2XSecPair384) ]

/-- Constant `MKXC2XSEC_CMD_VSOH256_LC` is `(168U)`. -/
def MKXC2XSEC_CMD_VSOH256_LC : Nat := 168

/-- Constant `MKXC2XSEC_CMD_VSOH384_LC` is `(248U)`. -/
def MKXC2XSEC_CMD_VSOH384_LC : Nat := 248

/-- Constant `MKXC2XSEC_CMD_DPKVSOH256_LC` is `(140U)`. -/
def MKXC2XSEC_CMD_DPKVSOH256_LC : Nat := 140

/-- Constant `MKXC2XSEC_CMD_DPKVSOH384_LC` is `(204U)`. -/
def MKXC2XSEC_CMD_DPKVSOH384_LC : Nat := 204

/-- Constant `MKXC2XSEC_CMD_DPK256_LC` is `(44U)`. -/
def MKXC2XSEC_CMD_DPK256_LC : Nat := 44

/-- Constant `MKXC2XSEC_CMD_DPK384_LC` is `(60U)`. -/
def MKXC2XSEC_CMD_DPK384_LC : Nat := 60

/-- Constant `MKXC2XSEC_CMD_REPK256_LC` is `(168U)`. -/
def MKXC2XSEC_CMD_REPK256_LC : Nat := 168

/-- Constant `MKXC2XSEC_CMD_REPK384_LC` is `(248U)`. -/
def MKXC2XSEC_CMD_REPK384_LC : Nat := 248

/-- Constant `MKXC2XSEC_RSP_VER_LR` is `(12U)`. -/
def MKXC2XSEC_RSP_VER_LR : Nat := 12

/-- Constant `MKXC2XSEC_RSP_PK256_LR` is `(72U)`. -/
def MKXC2XSEC_RSP_PK256_LR : Nat := 72

/-- Constant `MKXC2XSEC_RSP_PK384_LR` is `(104U)`. -/
def MKXC2XSEC_RSP_PK384_LR : Nat := 104

/-- Constant `MKXC2XSEC_RSP_VERPK256_LR` is `(76U)`. -/
def MKXC2XSEC_RSP_VERPK256_LR : Nat := 76

/-- Constant `MKXC2XSEC_RSP_VERPK384_LR` is `(108U)`. -/
def MKXC2XSEC_RSP_VERPK384_LR : Nat := 108

/-- Constant `LLC_API_VERSION_MAJOR` is `6U` in r17.1. -/
def LLC_API_VERSION_MAJOR : Nat := 6

/-- Constant `CALIBRATION_VERSION` is `3U` in r17.1. -/
def CALIBRATION_VERSION : Nat := 3

/-- Constant `MKX_API_MAGIC` is `(0xC0DAU)`. -/
def MKX_API_MAGIC : Nat := 0xC0DA

/-- Constant `AMS_TABLE_COUNT` is `8U`. -/
def AMS_TABLE_COUNT : Nat := 8

/-- Constant `CAL_CHANNEL_COUNT` is `(((184U - 168U)/2U) + 1U + 1U)`. -/
def CAL_CHANNEL_COUNT : Nat := ((184 - 168) / 2) + 1 + 1

/-- Constant `CAL_POINT_COUNT` is `2U`. -/
def CAL_POINT_COUNT : Nat := 2

/-- Constant `MKX_ANT_COUNT` is `2U`. -/
def MKX_ANT_COUNT : Nat := 2

/-- Enumeration `eMKxRadio`: `MKX_RADIO_COUNT = 2U`. -/
def MKX_RADIO_COUNT : Nat := 2

/-- Enumeration `eMKxRadio`: `MKX_RADIO_MAX = MKX_RADIO_COUNT - 1U`. -/
def MKX_RADIO_MAX : Nat := MKX_RADIO_COUNT - 1

/-- Enumeration `eMKxChannel`: `MKX_CHANNEL_COUNT = 2U`. -/
def MKX_CHANNEL_COUNT : Nat := 2

/-- Enumeration `eMKxTxQueue` of r17.1: `MKX_TXQ_COUNT = 5`. -/
def MKX_TXQ_COUNT : Nat := 5

/-- Enumeration `eMKxAuxADCIndex`: `AUXADC_INDEX_COUNT = 7U`. -/
def AUXADC_INDEX_COUNT : Nat := 7

/-- Enumeration `eMKxStatus` of r17.1 (lines 271-361): every enumerator with its value. -/
def eMKxStatus : List (String × Int) :=
  [
    ("MKXSTATUS_SUCCESS", 0),
    ("MKXSTATUS_INVALID_MKXIF_TYPE", -256),
    ("MKXSTATUS_FAILURE_INTERNAL_ERROR", -257),
    ("MKXSTATUS_FAILURE_INVALID_HANDLE", -258),
    ("MKXSTATUS_FAILURE_INVALID_LENGTH", -260),
    ("MKXSTATUS_FAILURE_INVALID_PARAM", -261),
    ("MKXSTATUS_FAILURE_AUTOCAL_REJECT_SIMULTANEOUS", -262),
    ("MKXSTATUS_FAILURE_AUTOCAL_REJECT_UNCONFIGURED", -263),
    ("MKXSTATUS_FAILURE_INVALID_CALIBRATION", -264),
    ("MKXSTATUS_FAILURE_INVALID_CALIBRATION_VERSION", -265),
    ("MKXSTATUS_FAILURE_INVALID_RADIO", -266),
    ("MKXSTATUS_REJECTED_FAIL_SAFE_STATE", -267),
    ("MKXSTATUS_FAILURE_RADIOCONFIG_MAX", -513),
    ("MKXSTATUS_FAILURE_RADIOCONFIG_GENERIC", -766),
    ("MKXSTATUS_FAILURE_RADIOCONFIG_MIN", -768),
    ("MKXSTATUS_TX_FAIL_TTL", -769),
    ("MKXSTATUS_TX_FAIL_RETRIES", -770),
    ("MKXSTATUS_TX_FAIL_QUEUEFULL", -771),
    ("MKXSTATUS_TX_FAIL_RADIO_NOT_PRESENT", -772),
    ("MKXSTATUS_TX_FAIL_MALFORMED", -773),
    ("MKXSTATUS_TX_FAIL_MALFORMED_AT_PHY", -774),
    ("MKXSTATUS_TX_FAIL_RADIO_UNCONFIGURED", -775),
    ("MKXSTATUS_TX_FAIL_PACKET_TOO_LONG", -776),
    ("MKXSTATUS_TX_FAIL_DMA", -777),
    ("MKXSTATUS_TX_FAIL_INVALID_ANTENNA", -778),
    ("MKXSTATUS_TX_FAIL_FAIL_SAFE_STATE", -779),
    ("MKXSTATUS_TX_FAIL_HOST_RADIO_INTERFACE_PROBLEM", -780),
    ("MKXSTATUS_TX_EVENT_UPLOAD_FAIL_DSP", -800),
    ("MKXSTATUS_I2C_TEMP_ANT1_FAILURE", -810),
    ("MKXSTATUS_I2C_TEMP_ANT2_FAILURE", -811),
    ("MKXSTATUS_ANALOG_TEMP_ANT1_FAILURE", -812),
    ("MKXSTATUS_ANALOG_TEMP_ANT2_FAILURE", -813),
    ("MKXSTATUS_INTERNAL_TEMP_FAILURE", -814),
    ("MKXSTATUS_RX_MAC_BUFFER_OVERFLOW_DSP", -832),
    ("MKXSTATUS_SECURITY_ACCELERATOR_NOT_PRESENT", -1024),
    ("MKXSTATUS_SECURITY_FIFO_FULL", -1025),
    ("MKXSTATUS_SECURITY_INTERNAL_ERROR", -1026),
    ("MKXSTATUS_SECURITY_MSG_TOO_SHORT", -1027),
    ("MKXSTATUS_GPIO_INVALID_CMD", -1100),
    ("MKXSTATUS_GPIO_FIFO_FULL", -1101),
    ("MKXSTATUS_INVALID_DEBUGMSG_TYPE", -1102),
    ("MKXSTATUS_RESERVED", 0xC0DA) ]

/-- Enumerator `MKXSTATUS_SUCCESS = 0`. -/
def MKXSTATUS_SUCCESS : Int := 0

/-- Enumerator `MKXSTATUS_FAILURE_INVALID_HANDLE = -258` (r17.1). -/
def MKXSTATUS_FAILURE_INVALID_HANDLE : Int := -258

/-- Enumerator `MKXSTATUS_FAILURE_INVALID_PARAM = -261` (r17.1). -/
def MKXSTATUS_FAILURE_INVALID_PARAM : Int := -261

/-- Type `tMKxBandwidth` is `typedef uint8_t tMKxBandwidth` in r17.1. -/
def tMKxBandwidth : CType := .uint8_t

/-- Type `tMKxDualTxControl` is `typedef uint8_t tMKxDualTxControl`. -/
def tMKxDualTxControl : CType := .uint8_t

/-- Type `tMKxSetTSFCmd` is `typedef uint8_t tMKxSetTSFCmd`. -/
def tMKxSetTSFCmd : CType := .uint8_t

/-- Type `tMKxRadioMode` is `typedef uint16_t tMKxRadioMode`. -/
def tMKxRadioMode : CType := .uint16_t

/-- Type `tMKxAuxADCIndex` is `typedef uint8_t tMKxAuxADCIndex`. -/
def tMKxAuxADCIndex : CType := .uint8_t

/-- Type `tMKxCompensatorSel` is `typedef uint8_t tMKxCompensatorSel`. -/
def tMKxCompensatorSel : CType := .uint8_t

/-- Type `tMKxPowerCalMode` is `typedef uint8_t tMKxPowerCalMode`. -/
def tMKxPowerCalMode : CType := .uint8_t

/-- Type `tMKxCompensatorReturn` is `typedef uint32_t tMKxCompensatorReturn`. -/
def tMKxCompensatorReturn : CType := .uint32_t

/-- Type `tMKxRSSICalMode` is `typedef uint8_t tMKxRSSICalMode`. -/
def tMKxRSSICalMode : CType := .uint8_t

/-- Type `tMKxTempSource` is `typedef uint16_t tMKxTempSource`. -/
def tMKxTempSource : CType := .uint16_t

/-- Structure `tMKxSetTSFData` of r17.1 (lines 1887-1899). -/
def tMKxSetTSFData : CType :=
  .struct
    [ ("Cmd", tMKxSetTSFCmd),
      ("Reserved0", .uint8_t),
      ("Reserved1", .uint8_t),
      ("Reserved2", .uint8_t),
      ("UTC", tMKxTSF),
      ("TSF", tMKxTSF) ]

/-- Structure `tMKxSetTSF` of r17.1 (lines 1904-1910). -/
def tMKxSetTSF : CType :=
  .struct
    [ ("Hdr", tMKxIFMsg),
      ("SetTSFData", tMKxSetTSFData) ]

/-- Structure `tMKxAddressMatching` of r17.1 (lines 2014-2032) in the byte-array form that
`wrapper.h` selects by defining `LLC_NO_BITFIELDS`. -/
def tMKxAddressMatching : CType :=
  .struct
    [ ("Mask", .array .uint8_t 6),
      ("Reserved0", .uint16_t),
      ("Addr", .array .uint8_t 6),
      ("MatchCtrl", .uint16_t) ]

/-- Structure `tMKxTxQConfig` of r17.1 (lines 2035-2047). -/
def tMKxTxQConfig : CType :=
  .struct
    [ ("AIFS", .uint8_t),
      ("Pad", .uint8_t),
      ("CWMIN", .uint16_t),
      ("CWMAX", .uint16_t),
      ("TXOP", .uint16_t) ]

/-- Structure `tMKxChanConfigPHY` of r17.1 (lines 2050-2067). -/
def tMKxChanConfigPHY : CType :=
  .struct
    [ ("ChannelFreq", tMKxChannelFreq),
      ("Bandwidth", tMKxBandwidth),
      ("TxAntenna", tMKxAntenna),
      ("RxAntenna", tMKxAntenna),
      ("DefaultMCS", tMKxMCS),
      ("DefaultTxPower", tMKxPower) ]

/-- Structure `tMKxChanConfigMAC` of r17.1 (lines 2070-2100). -/
def tMKxChanConfigMAC : CType :=
  .struct
    [ ("DualTxControl", tMKxDualTxControl),
      ("CSThreshold", .int8_t),
      ("CBRThreshold", .int8_t),
      ("Padding", .array .uint8_t 3),
      ("SlotTime", .uint16_t),
      ("DIFSTime", .uint16_t),
      ("SIFSTime", .uint16_t),
      ("EIFSTime", .uint16_t),
      ("RTSCTSThreshold", .uint16_t),
      ("ShortRetryLimit", .uint16_t),
      ("LongRetryLimit", .uint16_t),
      ("TxQueue", .array tMKxTxQConfig MKX_TXQ_COUNT),
      ("AMSTable", .array tMKxAddressMatching AMS_TABLE_COUNT) ]

/-- Structure `tMKxChanConfigLLC` of r17.1 (lines 2103-2110). -/
def tMKxChanConfigLLC : CType :=
  .struct
    [ ("IntervalDuration", .uint32_t),
      ("GuardDuration", .uint32_t) ]

/-- Structure `tMKxChanConfig` of r17.1 (lines 2115-2123). -/
def tMKxChanConfig : CType :=
  .struct
    [ ("PHY", tMKxChanConfigPHY),
      ("MAC", tMKxChanConfigMAC),
      ("LLC", tMKxChanConfigLLC) ]

/-- Structure `tMKxRadioConfigData` of r17.1 (lines 2145-2153). -/
def tMKxRadioConfigData : CType :=
  .struct
    [ ("Mode", tMKxRadioMode),
      ("SystemTickRateMHz", .uint16_t),
      ("ChanConfig", .array tMKxChanConfig MKX_CHANNEL_COUNT) ]

/-- Structure `tMKxRadioConfig` of r17.1 (lines 2158-2164). -/
def tMKxRadioConfig : CType :=
  .struct
    [ ("Hdr", tMKxIFMsg),
      ("RadioConfigData", tMKxRadioConfigData) ]

/-- Structure `tMKxTxQueueStats` of r17.1 (lines 2167-2181). -/
def tMKxTxQueueStats : CType :=
  .struct
    [ ("TxReqCount", .uint32_t),
      ("TxCnfCount", .uint32_t),
      ("TxErrCount", .uint32_t),
      ("TxValid", .uint32_t),
      ("InternalCollisions", .uint32_t),
      ("TxPending", .uint32_t) ]

/-- Structure `tMKxChannelStats` of r17.1 (lines 2184-2215). -/
def tMKxChannelStats : CType :=
  .struct
    [ ("TxReq", .uint32_t),
      ("TxFail", .uint32_t),
      ("TxCnf", .uint32_t),
      ("TxErr", .uint32_t),
      ("TxValid", .uint32_t),
      ("RxInd", .uint32_t),
      ("RxFail", .uint32_t),
      ("RxDup", .uint32_t),
      ("TxQueue", .array tMKxTxQueueStats MKX_TXQ_COUNT),
      ("MediumBusyTime", .uint32_t),
      ("ChannelBusyRatio", .uint8_t),
      ("AverageIdlePower", .int8_t),
      ("Pad", .uint16_t) ]

/-- Structure `tMKxRadioStatsData` of r17.1 (lines 2218-2224). -/
def tMKxRadioStatsData : CType :=
  .struct
    [ ("Chan", .array tMKxChannelStats MKX_CHANNEL_COUNT),
      ("TSF", tMKxTSF) ]

/-- Structure `tMKxRadioStats` of r17.1 (lines 2229-2235). -/
def tMKxRadioStats : CType :=
  .struct
    [ ("Hdr", tMKxIFMsg),
      ("RadioStatsData", tMKxRadioStatsData) ]

/-- Structure `tMKxTemperatureComp` of r17.1 (lines 2720-2726). -/
def tMKxTemperatureComp : CType :=
  .struct
    [ ("Slope", .int32_t),
      ("ZeroIntercept", .array .int32_t CAL_CHANNEL_COUNT) ]

/-- Structure `tMKxPowerDetCalPoint` of r17.1 (lines 2733-2741). -/
def tMKxPowerDetCalPoint : CType :=
  .struct
    [ ("PowerDet", .int32_t),
      ("PowerConstant", .int32_t),
      ("PowerRate", .int32_t) ]

/-- Structure `tMKxPowerDetTempCalPoint` of r17.1 (lines 2748-2755). -/
def tMKxPowerDetTempCalPoint : CType :=
  .struct
    [ ("CalTemp", .int32_t),
      ("TempOffsetRate", .int32_t) ]

/-- Structure `tMKxPowerDetCal` of r17.1 (lines 2764-2770). -/
def tMKxPowerDetCal : CType :=
  .struct
    [ ("CalPoint", .array tMKxPowerDetCalPoint CAL_POINT_COUNT),
      ("TempCalPoint", tMKxPowerDetTempCalPoint) ]

/-- Structure `tMKxAutoReg` of r17.1 (lines 2779-2785). -/
def tMKxAutoReg : CType :=
  .struct
    [ ("Alpha", .uint16_t),
      ("Beta", .uint16_t) ]

/-- Structure `tMKxCompensatorConfig` of r17.1 (lines 2801-2824). -/
def tMKxCompensatorConfig : CType :=
  .struct
    [ ("TxPAOnDelay", .uint32_t),
      ("DebugEnable", .uint32_t),
      ("CompensatorReturn", tMKxCompensatorReturn),
      ("TxPowerThresh", .int32_t),
      ("AutoReg", tMKxAutoReg),
      ("TxRFGain", .int32_t),
      ("CableLoss", .int32_t),
      ("RxRFGain", .int32_t),
      ("RSSICal", tMKxTemperatureComp) ]

/-- Structure `tMKxLocalPALNAConfig` of r17.1 (lines 2838-2864). -/
def tMKxLocalPALNAConfig : CType :=
  .struct
    [ ("TxPAOnDelay", .uint32_t),
      ("TxPowerDetInput", tMKxAuxADCIndex),
      ("DebugEnable", .uint8_t),
      ("Reserved", .array .uint8_t 2),
      ("TxPowerDetCal", tMKxPowerDetCal),
      ("TxPowerTempCal", tMKxTemperatureComp),
      ("AutoReg", tMKxAutoReg),
      ("TxRFGain", .int32_t),
      ("RSSICal", tMKxTemperatureComp) ]

/-- Structure `tMKxAntCalibration` of r17.1 (lines 2878-2904). -/
def tMKxAntCalibration : CType :=
  .struct
    [ ("CompensatorSel", tMKxCompensatorSel),
      ("TxPowerCalMode", tMKxPowerCalMode),
      ("RSSICalMode", tMKxRSSICalMode),
      ("Reserved", .uint8_t),
      ("CompensatorConfig", tMKxCompensatorConfig),
      ("LocalPALNAConfig", tMKxLocalPALNAConfig),
      ("TxPowerExtraDrive", .array .int32_t CAL_CHANNEL_COUNT),
      ("TxPowerLimitMaxTemp", .int16_t),
      ("TxPowerLimitMaxPower", tMKxPower),
      ("TxLOSearchFreq", .int32_t) ]

/-- Structure `tMKxAcquisitionConfig` of r17.1 (lines 2913-2922). -/
def tMKxAcquisitionConfig : CType :=
  .struct
    [ ("RxAcqDetectThreshSingAnt1", .uint32_t),
      ("RxAcqDetectThreshSingAnt2", .uint32_t),
      ("RxAcqDetectThreshDualAnt", .uint32_t) ]

/-- Structure `tMKxTempConfig` of r17.1 (lines 2953-2965). -/
def tMKxTempConfig : CType :=
  .struct
    [ ("SensorSource", tMKxTempSource),
      ("I2CAddrSensor1", .uint8_t),
      ("I2CAddrSensor2", .uint8_t),
      ("SensorPeriod", .uint32_t) ]

/-- Structure `tMKxRFPinConfig` of r17.1 (lines 2973-2987). -/
def tMKxRFPinConfig : CType :=
  .struct
    [ ("PAEnableGPIO", .uint16_t),
      ("LNAEnableGPIO", .uint16_t),
      ("RemotePAEnableGPIO", .uint16_t),
      ("C1GPIO", .uint16_t),
      ("TxClaimGPIO", .uint16_t),
      ("CompensatorEnableGPIO", .uint16_t) ]

/-- Structure `tMKxRFTimingConfig` of r17.1 (lines 2995-3009). -/
def tMKxRFTimingConfig : CType :=
  .struct
    [ ("PAEnableLNADisable", .uint16_t),
      ("BasebandStart", .uint16_t),
      ("AuxillaryADC", .uint16_t),
      ("RemotePADisable", .uint16_t),
      ("PADisable", .uint16_t),
      ("LNAEnable", .uint16_t) ]

/-- Structure `tMKxCoexistPinConfig` of r17.1 (lines 3017-3027). -/
def tMKxCoexistPinConfig : CType :=
  .struct
    [ ("TxActiveGPIO", .uint16_t),
      ("RxActiveGPIO", .uint16_t),
      ("OtherRadioTxActiveGPIO", .uint16_t),
      ("OtherRadioRxActiveGPIO", .uint16_t) ]

/-- Structure `tMKxPinConfig` of r17.1 (lines 3034-3046). -/
def tMKxPinConfig : CType :=
  .struct
    [ ("RF", .array tMKxRFPinConfig MKX_ANT_COUNT),
      ("Timing", tMKxRFTimingConfig),
      ("OnePPSGPIO", .uint16_t),
      ("CCAGPIO", .uint16_t),
      ("Coexistence", tMKxCoexistPinConfig) ]

/-- Structure `tMKxAuxADCCalPoint` of r17.1 (lines 3055-3063). -/
def tMKxAuxADCCalPoint : CType :=
  .struct
    [ ("AuxADCVal", .int32_t),
      ("TempRate", .int32_t),
      ("TempOffset", .int32_t) ]

/-- Structure `tMKxAnalogTempCalib` of r17.1 (lines 3073-3081). -/
def tMKxAnalogTempCalib : CType :=
  .struct
    [ ("AuxADCInput", tMKxAuxADCIndex),
      ("Pad", .array .uint8_t 3),
      ("CalPoint", .array tMKxAuxADCCalPoint CAL_POINT_COUNT) ]

/-- Structure `tMKxAnalogTempConfig` of r17.1 (lines 3090-3094). -/
def tMKxAnalogTempConfig : CType :=
  .struct [ ("Sensor", .array tMKxAnalogTempCalib MKX_ANT_COUNT) ]

/-- Structure `tMKxCalibrationData` of r17.1 (lines 3104-3121). -/
def tMKxCalibrationData : CType :=
  .struct
    [ ("Version", .uint32_t),
      ("AntCalibration", .array tMKxAntCalibration MKX_ANT_COUNT),
      ("AcquisitionConfig", tMKxAcquisitionConfig),
      ("TempConfig", tMKxTempConfig),
      ("AcquisitionConfig20MHz", tMKxAcquisitionConfig),
      ("PinConfig", tMKxPinConfig),
      ("AnalogTempConfig", tMKxAnalogTempConfig) ]

/-- Structure `tMKxCalibration` of r17.1 (lines 3126-3132). -/
def tMKxCalibration : CType :=
  .struct
    [ ("Hdr", tMKxIFMsg),
      ("CalibrationData", tMKxCalibrationData) ]

/-- Structure `tMKxAuxADCConfigData` of r17.1 (lines 3205-3209). -/
def tMKxAuxADCConfigData : CType :=
  .struct [ ("ConfigRegister", .uint32_t) ]

/-- Structure `tMKxAuxADCConfig` of r17.1 (lines 3214-3220). -/
def tMKxAuxADCConfig : CType :=
  .struct
    [ ("Hdr", tMKxIFMsg),
      ("AuxADCConfigData", tMKxAuxADCConfigData) ]

/-- Constant `INT16_MIN` is `(-32767-1)`. -/
def INT16_MIN : Int := -32767 - 1

/-- Enumeration `eSAFErrorCode` of r17.1 (lines 371-1518): every enumerator with its value,
in declaration order. -/
def eSAFErrorCode : List (String × Int) :=
  [
    ("SAF_SUCCESS", 0),
    ("SAF_ERROR_INVALID_MKXIF_TYPE", -10000),
    ("SAF_ERROR_HOST_UPLOAD_MSG_CORRUPTED", -10001),
    ("SAF_ERROR_DSP_UNKNOWN", -10002),
    ("SAF_ERROR_DSP_FAULT_TEST", -10003),
    ("SAF_ERROR_ARM_FAULT_TEST", -10004),
    ("SAF_ERROR_RADIOB_UNSUPPORTED", -10005),
    ("SAF_ERROR_DSP_TESTFAULT_FAILED", -10006),
    ("SAF_ERROR_ARM_TESTFAULT_FAILED", -10007),
    ("SAF_ERROR_DSP_EXCEPTION", -10008),
    ("SAF_ERROR_RADIOCONFIG_TIMEOUT", -10009),
    ("SAF_ERROR_OTP_FAILURE", -10010),
    ("SAF_ERROR_TXQUEUE_INDEX_OUT_OF_BOUNDS", -10100),
    ("SAF_ERROR_TXQUEUE_NULL_QED", -10101),
    ("SAF_ERROR_TXQUEUE_NULL_QUEUEPTR", -10102),
    ("SAF_ERROR_TXQUEUE_NULL_TXPKT", -10103),
    ("SAF_ERROR_TXQUEUE_FLUSH_WATCHDOG", -10104),
    ("SAF_ERROR_TXQUEUE_INACTIVE_QUEUENUM_FAILFEX", -10105),
    ("SAF_ERROR_TX_UPL_DMA_WRPTR_LOCKUP", -10200),
    ("SAF_ERROR_INVALID_ARM_CMD", -10300),
    ("SAF_ERROR_INVALID_DSP_CMD", -10301),
    ("SAF_ERROR_EEPROM_NOT_PRESENT", -10400),
    ("SAF_ERROR_EEPROM_NOT_PROGRAMMED", -10401),
    ("SAF_ERROR_EEPROM_SLEEP_TIMEOUT", -10402),
    ("SAF_ERROR_EEPROM_READ_TIMEOUT", -10403),
    ("SAF_ERROR_EEPROM_READ_FAILED", -10404),
    ("SAF_ERROR_EEPROM_READ_INCOMPLETE", -10405),
    ("SAF_ERROR_EEPROM_OVERREAD", -10406),
    ("SAF_ERROR_EEPROM_READ_SET_DEVICE_ADDR_FAILED", -10407),
    ("SAF_ERROR_EEPROM_READ_SET_ADDR_FAILED", -10408),
    ("SAF_ERROR_EEPROM_WRITE_TIMEOUT", -10409),
    ("SAF_ERROR_EEPROM_WRITE_FAILED", -10410),
    ("SAF_ERROR_EEPROM_WRITE_INCOMPLETE", -10411),
    ("SAF_ERROR_EEPROM_OVERWRITE", -10412),
    ("SAF_ERROR_EEPROM_WRITE_SET_DEVICE_ADDR_FAILED", -10413),
    ("SAF_ERROR_EEPROM_INVALID_BANK", -10414),
    ("SAF_ERROR_EEPROM_INVALID_MAGIC", -10415),
    ("SAF_ERROR_EEPROM_INVALID_VERSION", -10416),
    ("SAF_ERROR_EEPROM_INVALID_CRC", -10417),
    ("SAF_ERROR_EEPROM_BANK_LOCKED", -10418),
    ("SAF_ERROR_INVALID_MEMORY_RANGE", -10500),
    ("SAF_ERROR_CAPTURE_TIMEOUT", -10600),
    ("SAF_ERROR_INVALID_TXPHY_REGISTER", -10700),
    ("SAF_ERROR_INVALID_RXPHY_REGISTER", -10701),
    ("SAF_ERROR_INVALID_CALIB_REGISTER", -10702),
    ("SAF_ERROR_INVALID_ARM_REGISTER", -10703),
    ("SAF_ERROR_INVALID_RFE_REGISTER", -10704),
    ("SAF_ERROR_INVALID_EEPROM0_REGISTER", -10705),
    ("SAF_ERROR_INVALID_EEPROM1_REGISTER", -10706),
    ("SAF_ERROR_INVALID_EEPROM2_REGISTER", -10707),
    ("SAF_ERROR_INVALID_BANK_READ", -10708),
    ("SAF_ERROR_INVALID_BANK_WRITE", -10709),
    ("SAF_ERROR_GPIO_INVALID_CMD", -10800),
    ("SAF_ERROR_GPIO_INTERNAL_ERROR", -10801),
    ("SAF_ERROR_INVALID_ARMLOG_TYPE", -10900),
    ("SAF_ERROR_INVALID_DSPLOG_TYPE", -10901),
    ("SAF_ERROR_ARMLOG_INTERNAL_ERROR", -10902),
    ("SAF_ERROR_C2XSEC_MSG_TOO_SHORT_NO_USN", -11000),
    ("SAF_ERROR_C2XSEC_CMD_TOO_SHORT", -11001),
    ("SAF_ERROR_C2XSEC_INS_NOT_SUPPORTED", -11002),
    ("SAF_ERROR_C2XSEC_CURVEID_INVALID", -11003),
    ("SAF_ERROR_C2XSEC_SIZE_MISMATCH_FOR_CURVEID", -11004),
    ("SAF_ERROR_C2XSEC_REPK_WRONG_LC", -11005),
    ("SAF_ERROR_C2XSEC_REPK_WRONG_LENGTH", -11006),
    ("SAF_ERROR_C2XSEC_DPK_WRONG_LC", -11007),
    ("SAF_ERROR_C2XSEC_DPK_WRONG_LENGTH", -11008),
    ("SAF_ERROR_C2XSEC_VSOH_WRONG_LC", -11009),
    ("SAF_ERROR_C2XSEC_VSOH_WRONG_LENGTH", -11010),
    ("SAF_ERROR_C2XSEC_DPK_VSOH_WRONG_LC", -11011),
    ("SAF_ERROR_C2XSEC_DPK_VSOH_WRONG_LENGTH", -11012),
    ("SAF_ERROR_C2XSEC_NIST256_VSOH_TIMEOUT", -11013),
    ("SAF_ERROR_C2XSEC_NIST256_DPK_VSOH_TIMEOUT", -11014),
    ("SAF_ERROR_C2XSEC_NIST256_DPK_TIMEOUT", -11015),
    ("SAF_ERROR_C2XSEC_NIST256_REPK_TIMEOUT", -11016),
    ("SAF_ERROR_C2XSEC_BP256R1_VSOH_TIMEOUT", -11017),
    ("SAF_ERROR_C2XSEC_BP256R1_DPK_VSOH_TIMEOUT", -11018),
    ("SAF_ERROR_C2XSEC_BP256R1_DPK_TIMEOUT", -11019),
    ("SAF_ERROR_C2XSEC_BP256R1_REPK_TIMEOUT", -11020),
    ("SAF_ERROR_C2XSEC_BP384R1_VSOH_TIMEOUT", -11021),
    ("SAF_ERROR_C2XSEC_BP384R1_DPK_VSOH_TIMEOUT", -11022),
    ("SAF_ERROR_C2XSEC_BP384R1_DPK_TIMEOUT", -11023),
    ("SAF_ERROR_C2XSEC_BP384R1_REPK_TIMEOUT", -11024),
    ("SAF_ERROR_C2XSEC_NIST256_SELFTEST_VSOHF_TIMEOUT", -11025),
    ("SAF_ERROR_C2XSEC_NIST256_SELFTEST_VSOHF_MISMATCH", -11026),
    ("SAF_ERROR_C2XSEC_NIST256_SELFTEST_VSOHP_TIMEOUT", -11027),
    ("SAF_ERROR_C2XSEC_NIST256_SELFTEST_VSOHP_MISMATCH", -11028),
    ("SAF_ERROR_C2XSEC_NIST256_SELFTEST_DPK_TIMEOUT", -11029),
    ("SAF_ERROR_C2XSEC_NIST256_SELFTEST_DPK_MISMATCH", -11030),
    ("SAF_ERROR_C2XSEC_NIST256_SELFTEST_REPK_TIMEOUT", -11031),
    ("SAF_ERROR_C2XSEC_NIST256_SELFTEST_REPK_MISMATCH", -11032),
    ("SAF_ERROR_C2XSEC_MEMORY_CORRUPTION_1", -11033),
    ("SAF_ERROR_C2XSEC_MEMORY_CORRUPTION_2", -11034),
    ("SAF_ERROR_C2XSEC_MEMORY_CORRUPTION_3", -11035),
    ("SAF_ERROR_C2XSEC_MEMORY_CORRUPTION_4", -11036),
    ("SAF_ERROR_INVALID_1PPS_EVENT", -11100),
    ("SAF_ERROR_INVALID_APIVERSION_LENGTH", -11200),
    ("SAF_ERROR_INVALID_TXPACKET_LENGTH", -11201),
    ("SAF_ERROR_INVALID_RADIOCONFIG_LENGTH", -11202),
    ("SAF_ERROR_INVALID_FLUSHQ_LENGTH", -11203),
    ("SAF_ERROR_INVALID_SET_TSF_LENGTH", -11204),
    ("SAF_ERROR_INVALID_GET_TSF_LENGTH", -11205),
    ("SAF_ERROR_INVALID_DEBUGMSG_LENGTH", -11206),
    ("SAF_ERROR_INVALID_CALIBRATION_LENGTH", -11207),
    ("SAF_ERROR_INVALID_TEMP_LENGTH", -11208),
    ("SAF_ERROR_INVALID_AUXADCCFG_LENGTH", -11209),
    ("SAF_ERROR_INVALID_LOG_LENGTH", -11210),
    ("SAF_ERROR_INVALID_GPIO_LENGTH", -11211),
    ("SAF_ERROR_INVALID_RESET_LENGTH", -11212),
    ("SAF_ERROR_INVALID_FAULT_LENGTH", -11213),
    ("SAF_ERROR_SDIO_ERROR_CALLBACK", -11300),
    ("SAF_ERROR_SDIO_WRITE_FAILED", -11301),
    ("SAF_ERROR_SDIO_UPLOAD_TIMEOUT", -11302),
    ("SAF_ERROR_SDIO_QUEUE_SYNC_FAILURE", -11303),
    ("SAF_ERROR_DSP_INVALID_RADIO_MODE", -11400),
    ("SAF_ERROR_DSP_SET_TSF_CMD_INVALID", -11401),
    ("SAF_ERROR_DSP_INIT_WATCHDOG", -11402),
    ("SAF_ERROR_DSP_RXMAC_INIT_WATCHDOG", -11403),
    ("SAF_ERROR_ETH_CONFIG_FAILED", -11500),
    ("SAF_ERROR_ETH_DRV_INIT_FAILED", -11501),
    ("SAF_ERROR_ETH_DRV_CONFIG_FAILED", -11502),
    ("SAF_ERROR_ETH_ARP_INIT_FAILED", -11503),
    ("SAF_ERROR_ETH_ARP_RESOLVE_FAILED", -11504),
    ("SAF_ERROR_ETH_SOCKET_INIT_FAILED", -11505),
    ("SAF_ERROR_ETH_INVALID_TX_SOCKET", -11506),
    ("SAF_ERROR_ETH_INVALID_RX_SOCKET", -11507),
    ("SAF_ERROR_ETH_INITIAL_SEND_FAILED", -11508),
    ("SAF_ERROR_ETH_UDP_SEND_FAILED", -11509),
    ("SAF_ERROR_ETH_UPLOAD_TIMEOUT", -11510),
    ("SAF_ERROR_CST_RANGE_INVALID", -11600),
    ("SAF_ERROR_CST_TEST_FAILED", -11601),
    ("SAF_ERROR_SPI_DMA_ACQ_FAILED", -11700),
    ("SAF_ERROR_SPI_CONFIG_FAILED", -11701),
    ("SAF_ERROR_SPI_INIT_RW_FAILED", -11702),
    ("SAF_ERROR_SPI_DAV_TIMEOUT", -11703),
    ("SAF_ERROR_SPI_ERROR_CALLBACK", -11704),
    ("SAF_ERROR_TXWMAC_DMA_ACQ_FAILED", -11800),
    ("SAF_ERROR_TXWMAC_DMA_SET_CHAN_CONFIG_FAILED", -11801),
    ("SAF_ERROR_TXWMAC_DMA_SET_LISTENER_FAILED", -11802),
    ("SAF_ERROR_TXWMAC_DMA_CHAN_ENABLED_FAILED", -11803),
    ("SAF_ERROR_TXWMAC_DMA1_TIMEOUT", -11804),
    ("SAF_ERROR_TXWMAC_DMA2_TIMEOUT", -11805),
    ("SAF_ERROR_TXWMAC_DMA1_INVALID_EVENT", -11806),
    ("SAF_ERROR_TXWMAC_DMA2_INVALID_EVENT", -11807),
    ("SAF_ERROR_DSP_MSG_SEND_BLOCKED", -11900),
    ("SAF_ERROR_DSP_CMD_SEND_BLOCKED", -11901),
    ("SAF_ERROR_TXMAC_TXPACKET_MALFORMED", -12000),
    ("SAF_ERROR_TXMAC_TXPACKET_LENGTH_TOO_LONG", -12001),
    ("SAF_ERROR_TXMAC_TXPACKET_MGMT_LENGTH_TOO_LONG", -12002),
    ("SAF_ERROR_TXPHY_TXPACKET_PTR_INVALID", -12003),
    ("SAF_ERROR_TXPHY_TXPACKET_MALFORMED", -12004),
    ("SAF_ERROR_TEMP_I2C_ANT1_FAILED", -12100),
    ("SAF_ERROR_TEMP_I2C_ANT2_FAILED", -12101),
    ("SAF_ERROR_TEMP_ANALOG_ANT1_FAILED", -12102),
    ("SAF_ERROR_TEMP_ANALOG_ANT2_FAILED", -12103),
    ("SAF_ERROR_TEMP_POWERCAL_ANT1_INVALID", -12104),
    ("SAF_ERROR_TEMP_POWERCAL_ANT2_INVALID", -12105),
    ("SAF_ERROR_TX_SFENC_FAILED", -12200),
    ("SAF_ERROR_TX_PAYLOADENC_FAILED", -12201),
    ("SAF_ERROR_TX_POWERCAL_ANT1_INVALID", -12202),
    ("SAF_ERROR_TX_POWERCAL_ANT2_INVALID", -12203),
    ("SAF_ERROR_TX_CYCLICSHIFT_INVALID", -12204),
    ("SAF_ERROR_RX_RXSF_FAILED", -12300),
    ("SAF_ERROR_RX_RXREDECODE_FAILED", -12301),
    ("SAF_ERROR_RX_AGCUNFREEZE_TIMEOUT", -12302),
    ("SAF_ERROR_RX_COARSETIMING_FAILURE", -12303),
    ("SAF_ERROR_RX_START_INVALID_ANT", -12304),
    ("SAF_ERROR_TXRXLOOPBACK_DECODE_FAILED", -12400),
    ("SAF_ERROR_TXRXLOOPBACK_RXREDECODE_FAILED", -12401),
    ("SAF_ERROR_TXRXLOOPBACK_RXSF_FAILED", -12402),
    ("SAF_ERROR_TXRXLOOPBACK_COARSETIME_FAILED", -12403),
    ("SAF_ERROR_RFE_TIMEOUT_CALTRX", -12500),
    ("SAF_ERROR_RFE_TIMEOUT_NEWRADIOCONFIG", -12501),
    ("SAF_ERROR_RFE_TIMEOUT_CONFIGINIT", -12502),
    ("SAF_ERROR_RFE_TIMEOUT_GPIOPINUPDATE", -12503),
    ("SAF_ERROR_RFE_TIMEOUT_REGISTERWRITE", -12504),
    ("SAF_ERROR_LLC_UPLOAD_OVERFLOW_APIVERSION", -12600),
    ("SAF_ERROR_LLC_UPLOAD_OVERFLOW_TXPACKET", -12601),
    ("SAF_ERROR_LLC_UPLOAD_OVERFLOW_GPIO", -12602),
    ("SAF_ERROR_LLC_UPLOAD_OVERFLOW_LOOPBACK", -12603),
    ("SAF_ERROR_LLC_UPLOAD_OVERFLOW_FAULT", -12604),
    ("SAF_ERROR_LLC_UPLOAD_OVERFLOW_COMPENSATOR", -12605),
    ("SAF_ERROR_LLC_UPLOAD_OVERFLOW_CALIBRATION", -12606),
    ("SAF_ERROR_COMPENSATOR_TIMEOUT", -12700),
    ("SAF_ERROR_COMPENSATOR_CRC_FAILURE", -12701),
    ("SAF_ERROR_COMPENSATOR_POWERCAL_ANT1_INVALID", -12702),
    ("SAF_ERROR_COMPENSATOR_POWERCAL_ANT2_INVALID", -12703),
    ("SAF_ERROR_COMPENSATOR_NO_DATA_RECEIVED", -12704),
    ("SAF_ERROR_TIMESYNC_INTERNAL_FAILURE", -12800),
    ("SAF_ERROR_RXWMAC_CORRUPT_PACKET", -12900),
    ("SAF_ERROR_FSM_MEM_ECC_DOUBLE_OVERFLOW_ARMIMEM", -13000),
    ("SAF_ERROR_FSM_MEM_ECC_DOUBLE_ARMIMEM", -13001),
    ("SAF_ERROR_FSM_MEM_ECC_DOUBLE_OVERFLOW_ARMDMEM", -13002),
    ("SAF_ERROR_FSM_MEM_ECC_DOUBLE_ARMDMEM", -13003),
    ("SAF_ERROR_FSM_MEM_ECC_DOUBLE_OVERFLOW_ECDSA", -13004),
    ("SAF_ERROR_FSM_MEM_ECC_DOUBLE_ECDSA", -13005),
    ("SAF_ERROR_FSM_MEM_PARITY_OVERFLOW_SYSMEM", -13006),
    ("SAF_ERROR_FSM_MEM_PARITY_SYSMEM", -13007),
    ("SAF_ERROR_FSM_MEM_PARITY_OVERFLOW_EMACTX", -13008),
    ("SAF_ERROR_FSM_MEM_PARITY_EMACTX", -13009),
    ("SAF_ERROR_FSM_MEM_PARITY_OVERFLOW_EMACRX", -13010),
    ("SAF_ERROR_FSM_MEM_PARITY_EMACRX", -13011),
    ("SAF_ERROR_FSM_MEM_PARITY_OVERFLOW_SDIOSRAM", -13012),
    ("SAF_ERROR_FSM_MEM_PARITY_SDIOSRAM", -13013),
    ("SAF_ERROR_FSM_MEM_PARITY_OVERFLOW_SDIOCISSRAM", -13014),
    ("SAF_ERROR_FSM_MEM_PARITY_SDIOCISSRAM", -13015),
    ("SAF_ERROR_FSM_MEM_PARITY_OVERFLOW_CRYPTO0", -13016),
    ("SAF_ERROR_FSM_MEM_PARITY_CRYPTO0", -13017),
    ("SAF_ERROR_FSM_MEM_PARITY_OVERFLOW_CRYPTO1", -13018),
    ("SAF_ERROR_FSM_MEM_PARITY_CRYPTO1", -13019),
    ("SAF_ERROR_FSM_MEM_ECC_DOUBLE_OVERFLOW_BBEIRAM0", -13020),
    ("SAF_ERROR_FSM_MEM_ECC_DOUBLE_BBEIRAM0", -13021),
    ("SAF_ERROR_FSM_MEM_ECC_DOUBLE_OVERFLOW_BBEIRAM1", -13022),
    ("SAF_ERROR_FSM_MEM_ECC_DOUBLE_BBEIRAM1", -13023),
    ("SAF_ERROR_FSM_MEM_PARITY_OVERFLOW_BBEDRAM00", -13024),
    ("SAF_ERROR_FSM_MEM_PARITY_BBEDRAM00", -13025),
    ("SAF_ERROR_FSM_MEM_PARITY_OVERFLOW_BBEDRAM01", -13026),
    ("SAF_ERROR_FSM_MEM_PARITY_BBEDRAM01", -13027),
    ("SAF_ERROR_FSM_MEM_PARITY_OVERFLOW_BBEDRAM02", -13028),
    ("SAF_ERROR_FSM_MEM_PARITY_BBEDRAM02", -13029),
    ("SAF_ERROR_FSM_MEM_PARITY_OVERFLOW_BBEDRAM03", -13030),
    ("SAF_ERROR_FSM_MEM_PARITY_BBEDRAM03", -13031),
    ("SAF_ERROR_FSM_MEM_PARITY_OVERFLOW_BBEDRAM10", -13032),
    ("SAF_ERROR_FSM_MEM_PARITY_BBEDRAM10", -13033),
    ("SAF_ERROR_FSM_MEM_PARITY_OVERFLOW_BBEDRAM11", -13034),
    ("SAF_ERROR_FSM_MEM_PARITY_BBEDRAM11", -13035),
    ("SAF_ERROR_FSM_MEM_PARITY_OVERFLOW_ORBITSP0", -13036),
    ("SAF_ERROR_FSM_MEM_PARITY_ORBITSP0", -13037),
    ("SAF_ERROR_FSM_MEM_PARITY_OVERFLOW_ORBITSP1", -13038),
    ("SAF_ERROR_FSM_MEM_PARITY_ORBITSP1", -13039),
    ("SAF_ERROR_FSM_MEM_PARITY_OVERFLOW_ORBITSP2", -13040),
    ("SAF_ERROR_FSM_MEM_PARITY_ORBITSP2", -13041),
    ("SAF_ERROR_FSM_MEM_PARITY_OVERFLOW_ORBITSP3", -13042),
    ("SAF_ERROR_FSM_MEM_PARITY_ORBITSP3", -13043),
    ("SAF_ERROR_FSM_MEM_PARITY_OVERFLOW_ORBITDP0", -13044),
    ("SAF_ERROR_FSM_MEM_PARITY_ORBITDP0", -13045),
    ("SAF_ERROR_FSM_MEM_PARITY_OVERFLOW_ORBITDP1", -13046),
    ("SAF_ERROR_FSM_MEM_PARITY_ORBITDP1", -13047),
    ("SAF_ERROR_FSM_MEM_ECC_DOUBLE_OVERFLOW_X2", -13048),
    ("SAF_ERROR_FSM_MEM_ECC_DOUBLE_X2", -13049),
    ("SAF_ERROR_FSM_MEM_PARITY_OVERFLOW_X2DMEM0", -13050),
    ("SAF_ERROR_FSM_MEM_PARITY_X2DMEM0", -13051),
    ("SAF_ERROR_FSM_MEM_PARITY_OVERFLOW_X2DMEM1", -13052),
    ("SAF_ERROR_FSM_MEM_PARITY_X2DMEM1", -13053),
    ("SAF_ERROR_FSM_MEM_ECC_SINGLE_OVERFLOW_ARMIMEM", -13070),
    ("SAF_ERROR_FSM_MEM_ECC_SINGLE_ARMIMEM", -13071),
    ("SAF_ERROR_FSM_MEM_ECC_SINGLE_OVERFLOW_ARMDMEM", -13072),
    ("SAF_ERROR_FSM_MEM_ECC_SINGLE_ARMDMEM", -13073),
    ("SAF_ERROR_FSM_MEM_ECC_SINGLE_OVERFLOW_ECDSA", -13074),
    ("SAF_ERROR_FSM_MEM_ECC_SINGLE_ECDSA", -13075),
    ("SAF_ERROR_FSM_MEM_ECC_SINGLE_OVERFLOW_BBEIRAM0", -13076),
    ("SAF_ERROR_FSM_MEM_ECC_SINGLE_BBEIRAM0", -13077),
    ("SAF_ERROR_FSM_MEM_ECC_SINGLE_OVERFLOW_BBEIRAM1", -13078),
    ("SAF_ERROR_FSM_MEM_ECC_SINGLE_BBEIRAM1", -13079),
    ("SAF_ERROR_FSM_MEM_ECC_SINGLE_OVERFLOW_X2", -13080),
    ("SAF_ERROR_FSM_MEM_ECC_SINGLE_X2", -13081),
    ("SAF_ERROR_FSM_MEM_DSP_ILLEGAL_WRITE", -13088),
    ("SAF_ERROR_FSM_ARM_WATCHDOG", -13089),
    ("SAF_ERROR_FSM_DSP_WATCHDOG", -13090),
    ("SAF_ERROR_FSM_X2_WATCHDOG", -13091),
    ("SAF_ERROR_FSM_ARM_PLL0_UNLOCK", -13092),
    ("SAF_ERROR_FSM_ARM_PLL1_UNLOCK", -13093),
    ("SAF_ERROR_FSM_X2_PLL_UNLOCK", -13094),
    ("SAF_ERROR_CST_EXCEPTION_TEST_SVC", -14000),
    ("SAF_ERROR_CST_EXCEPTION_TEST_PENDSV", -14001),
    ("SAF_ERROR_CST_EXCEPTION_TEST_SYSTICK", -14002),
    ("SAF_ERROR_CST_EXCEPTION_HARD_FAULT1", -14003),
    ("SAF_ERROR_CST_EXCEPTION_HARD_FAULT2", -14004),
    ("SAF_ERROR_CST_EXCEPTION_USAGE_FAULT", -14005),
    ("SAF_ERROR_CST_EXCEPTION_MEM_FAULT", -14006),
    ("SAF_ERROR_CST_EXCEPTION_BUS_FAULT", -14007),
    ("SAF_ERROR_CST_EXCEPTION_TEST_NMIHF", -14008),
    ("SAF_ERROR_CST_EXCEPTION_TEST_TAILCHAIN", -14009),
    ("SAF_ERROR_CST_EXCEPTION_TEST_MASKING", -14010),
    ("SAF_ERROR_CST_EXCEPTION_TEST_HANDLER", -14011),
    ("SAF_ERROR_CST_REGBANK_TEST4", -14012),
    ("SAF_ERROR_CST_ALU_TEST7", -14013),
    ("SAF_ERROR_CST_BRANCH_TEST3", -14014),
    ("SAF_ERROR_CST_STATUS_TEST3", -14015),
    ("SAF_ERROR_CST_REGBANK_TEST6", -14016),
    ("SAF_ERROR_CST_FETCH_TEST", -14017),
    ("SAF_ERROR_CST_LOADSTORE_TEST6", -14018),
    ("SAF_ERROR_CST_LOADSTORE_TEST1", -14019),
    ("SAF_ERROR_CST_LOADSTORE_TEST2", -14020),
    ("SAF_ERROR_CST_LOADSTORE_TEST3", -14021),
    ("SAF_ERROR_CST_LOADSTORE_TEST4", -14022),
    ("SAF_ERROR_CST_LOADSTORE_TEST5", -14023),
    ("SAF_ERROR_CST_REGBANK_TEST1", -14024),
    ("SAF_ERROR_CST_REGBANK_TEST2", -14025),
    ("SAF_ERROR_CST_REGBANK_TEST3", -14026),
    ("SAF_ERROR_CST_REGBANK_TEST5", -14027),
    ("SAF_ERROR_CST_ALU_TEST1", -14028),
    ("SAF_ERROR_CST_ALU_TEST2", -14029),
    ("SAF_ERROR_CST_ALU_TEST3", -14030),
    ("SAF_ERROR_CST_ALU_TEST4", -14031),
    ("SAF_ERROR_CST_ALU_TEST5", -14032),
    ("SAF_ERROR_CST_ALU_TEST6", -14033),
    ("SAF_ERROR_CST_BRANCH_TEST1", -14034),
    ("SAF_ERROR_CST_STATUS_TEST1", -14035),
    ("SAF_ERROR_CST_MAC_TEST1", -14036),
    ("SAF_ERROR_CST_MAC_TEST2", -14037),
    ("SAF_ERROR_CST_STATUS_TEST2", -14038),
    ("SAF_ERROR_CST_BRANCH_TEST2", -14039),
    ("SAF_ERROR_PST_CGU_OUTCLK0_SAFEREF", -14100),
    ("SAF_ERROR_PST_CGU_OUTCLK1_ARM", -14101),
    ("SAF_ERROR_PST_CGU_OUTCLK2_HSPI", -14102),
    ("SAF_ERROR_PST_CGU_OUTCLK3_AES", -14103),
    ("SAF_ERROR_PST_CGU_OUTCLK4_BA414EP", -14104),
    ("SAF_ERROR_PST_CGU_OUTCLK5_SYSAPB", -14105),
    ("SAF_ERROR_PST_CGU_OUTCLK6_WDT", -14106),
    ("SAF_ERROR_PST_CGU_OUTCLK7_PERIAPB", -14107),
    ("SAF_ERROR_PST_CGU_OUTCLK8_I2C", -14108),
    ("SAF_ERROR_PST_CGU_OUTCLK9_UART", -14109),
    ("SAF_ERROR_PST_CGU_OUTCLK10_QSPI", -14110),
    ("SAF_ERROR_PST_CGU_OUTCLK11_BBE16", -14111),
    ("SAF_ERROR_PST_CGU_OUTCLK12_TIMER", -14112),
    ("SAF_ERROR_PST_CGU_OUTCLK13_RMII", -14113),
    ("SAF_ERROR_PST_CGU_OUTCLK14_RMIIRX", -14114),
    ("SAF_ERROR_PST_CGU_OUTCLK15_RGMIITX", -14115),
    ("SAF_ERROR_PST_CGU_OUTCLK16_REFCLK1", -14116),
    ("SAF_ERROR_PST_CGU_OUTCLK17_REFCLK2", -14117),
    ("SAF_ERROR_PST_CGU_OUTCLK18_WRCK", -14118),
    ("SAF_ERROR_PST_BUS_SYS", -14119),
    ("SAF_ERROR_PST_BUS_ARM_TIMERS", -14120),
    ("SAF_ERROR_PST_BUS_RFE_TIMER", -14121),
    ("SAF_ERROR_PST_BUS_ORBIT_STATE_CRC", -14122),
    ("SAF_ERROR_PST_CHIP_INFRA_RGU", -14123),
    ("SAF_ERROR_PST_CHIP_INFRA_CREG", -14124),
    ("SAF_ERROR_PST_CHIP_INFRA_SCU_BANK2", -14125),
    ("SAF_ERROR_PST_CHIP_INFRA_SCU_BANK3", -14126),
    ("SAF_ERROR_PST_CHIP_INFRA_ARM_TIMERS", -14127),
    ("SAF_ERROR_PST_CHIP_INFRA_ARM_WDT", -14128),
    ("SAF_ERROR_PST_CHIP_INFRA_DSP_WDT", -14129),
    ("SAF_ERROR_PST_PERIPH_INFRA_UART1", -14132),
    ("SAF_ERROR_PST_PERIPH_INFRA_UART2", -14133),
    ("SAF_ERROR_PST_PERIPH_INFRA_UART3", -14134),
    ("SAF_ERROR_PST_PERIPH_INFRA_UART4", -14135),
    ("SAF_ERROR_PST_PERIPH_INFRA_QSPI", -14136),
    ("SAF_ERROR_PST_PERIPH_INFRA_I2C", -14137),
    ("SAF_ERROR_PST_PERIPH_INFRA_I2CINT", -14138),
    ("SAF_ERROR_PST_PERIPH_INFRA_GPIO_TOGGLE", -14139),
    ("SAF_ERROR_PST_PERIPH_INFRA_GPIO_LOOPBACK", -14140),
    ("SAF_ERROR_PST_DMA", -14141),
    ("SAF_ERROR_PST_ECDSA", -14142),
    ("SAF_ERROR_PST_VERIFY_OTP", -14143),
    ("SAF_ERROR_PST_OTP_INTEGRITY_NXP", -14144),
    ("SAF_ERROR_PST_OTP_INTEGRITY_CUSTOMER", -14145),
    ("SAF_ERROR_PST_CGU_CLOCKS_OUTOFRANGE", -14200),
    ("SAF_ERROR_PST_CGU_CLOCKS_INVALIDCONFIG", -14201),
    ("SAF_ERROR_PST_ORBIT_FAILURE_MCS0", -14300),
    ("SAF_ERROR_PST_ORBIT_FAILURE_MCS1", -14301),
    ("SAF_ERROR_PST_ORBIT_FAILURE_MCS2", -14302),
    ("SAF_ERROR_PST_ORBIT_FAILURE_MCS3", -14303),
    ("SAF_ERROR_PST_ORBIT_FAILURE_MCS4", -14304),
    ("SAF_ERROR_PST_ORBIT_FAILURE_MCS5", -14305),
    ("SAF_ERROR_PST_ORBIT_FAILURE_MCS6", -14306),
    ("SAF_ERROR_PST_ORBIT_FAILURE_MCS7", -14307),
    ("SAF_ERROR_MBIST_COMPLETED_FAILED", -14400),
    ("SAF_ERROR_MBIST_NOT_COMPLETED_FAILED", -14401),
    ("SAF_ERROR_BOOT_STATUS_BOOT_FAILURE", -14500),
    ("SAF_ERROR_BOOT_STATUS_READ_FAILURE", -14501),
    ("SAF_ERROR_BOOT_STATUS_AUTH_FAILURE", -14502),
    ("SAF_ERROR_BOOT_STATUS_ID_VERF_FAILURE", -14503),
    ("SAF_ERROR_BOOT_STATUS_BSH_NOT_FOUND", -14504),
    ("SAF_ERROR_BOOT_STATUS_BSH_ENDED_FAILURE", -14505),
    ("SAF_ERROR_BOOT_STATUS_INVALID_TARGET_ADDR", -14506),
    ("SAF_ERROR_BOOT_STATUS_INVALID_CMD", -14507),
    ("SAF_ERROR_BOOT_STATUS_INVALID_BOOT_MODE", -14508),
    ("SAF_ERROR_BOOT_STATUS_FLASH_INVALID_ADDR", -14509),
    ("SAF_ERROR_BOOT_STATUS_DECRYPTION_FAILURE", -14510),
    ("SAF_ERROR_BOOT_STATUS_SECURITY_INIT_FAILURE", -14511),
    ("SAF_ERROR_BOOT_STATUS_SECURITY_OTP_READ_FAILURE", -14512),
    ("SAF_ERROR_BOOT_STATUS_SECURITY_CONFIG_MISMATCH", -14513),
    ("SAF_ERROR_BOOT_STATUS_CRC_CHECK_FAILURE", -14514),
    ("SAF_ERROR_BOOT_STATUS_CHUNK_ID_VERF_FAILURE", -14515),
    ("SAF_ERROR_BOOT_STATUS_IMG_FORMAT_MISMATCH", -14516),
    ("SAF_ERROR_BOOT_STATUS_PUB_KEY_VERF_FAILURE", -14517),
    ("SAF_ERROR_BOOT_STATUS_CUSTOMER_OTP_NOT_PROG", -14518),
    ("SAF_ERROR_BOOT_STATUS_FLASH_INIT_FAILURE", -14519),
    ("SAF_ERROR_INVALIDINPUT_TXPKT_RADIOID", -15000),
    ("SAF_ERROR_INVALIDINPUT_TXPKT_CHANNELID", -15001),
    ("SAF_ERROR_INVALIDINPUT_TXPKT_TXANT", -15002),
    ("SAF_ERROR_INVALIDINPUT_TXPKT_MCS", -15003),
    ("SAF_ERROR_INVALIDINPUT_TXPKT_TXPOWER", -15004),
    ("SAF_ERROR_INVALIDINPUT_TXPKT_TXFRAMELENGTH", -15005),
    ("SAF_ERROR_INVALIDINPUT_SETTSF_CMD", -15100),
    ("SAF_ERROR_INVALIDINPUT_SETTSF_UTC", -15101),
    ("SAF_ERROR_INVALIDINPUT_SETTSF_TSF", -15102),
    ("SAF_ERROR_INVALIDINPUT_RADIOCFG_MODE", -15200),
    ("SAF_ERROR_INVALIDINPUT_RADIOCFG_CHANNELFREQ", -15201),
    ("SAF_ERROR_INVALIDINPUT_RADIOCFG_BW", -15202),
    ("SAF_ERROR_INVALIDINPUT_RADIOCFG_TXANT", -15203),
    ("SAF_ERROR_INVALIDINPUT_RADIOCFG_RXANT", -15204),
    ("SAF_ERROR_INVALIDINPUT_RADIOCFG_DEFAULTMCS", -15205),
    ("SAF_ERROR_INVALIDINPUT_RADIOCFG_DEFAULTTXPOWER", -15206),
    ("SAF_ERROR_INVALIDINPUT_RADIOCFG_DUALTXCTRL", -15207),
    ("SAF_ERROR_INVALIDINPUT_RADIOCFG_CSTHRESH", -15208),
    ("SAF_ERROR_INVALIDINPUT_RADIOCFG_CBRTHRESH", -15209),
    ("SAF_ERROR_INVALIDINPUT_RADIOCFG_SLOTTIME", -15210),
    ("SAF_ERROR_INVALIDINPUT_RADIOCFG_DIFSTIME", -15211),
    ("SAF_ERROR_INVALIDINPUT_RADIOCFG_SIFSTIME", -15212),
    ("SAF_ERROR_INVALIDINPUT_RADIOCFG_EIFSTIME", -15213),
    ("SAF_ERROR_INVALIDINPUT_RADIOCFG_SHORTRETRY", -15214),
    ("SAF_ERROR_INVALIDINPUT_RADIOCFG_LONGRETRY", -15215),
    ("SAF_ERROR_INVALIDINPUT_RADIOCFG_AIFS", -15216),
    ("SAF_ERROR_INVALIDINPUT_RADIOCFG_CWMIN", -15217),
    ("SAF_ERROR_INVALIDINPUT_RADIOCFG_CWMAX", -15218),
    ("SAF_ERROR_INVALIDINPUT_RADIOCFG_TXOP", -15219),
    ("SAF_ERROR_INVALIDINPUT_RADIOCFG_INTERVAL", -15220),
    ("SAF_ERROR_INVALIDINPUT_RADIOCFG_GUARD", -15221),
    ("SAF_ERROR_INVALIDINPUT_FLUSHQ_RADIOID", -15300),
    ("SAF_ERROR_INVALIDINPUT_FLUSHQ_CHANNELID", -15301),
    ("SAF_ERROR_INVALIDINPUT_FLUSHQ_TXQUEUE", -15302),
    ("SAF_ERROR_INVALIDINPUT_CALIB_VERSION", -15400),
    ("SAF_ERROR_INVALIDINPUT_CALIB_COMPENSATORSEL", -15401),
    ("SAF_ERROR_INVALIDINPUT_CALIB_TXPOWERCALMODE", -15402),
    ("SAF_ERROR_INVALIDINPUT_CALIB_RSSICALMODE", -15403),
    ("SAF_ERROR_INVALIDINPUT_CALIB_COMPRETURN", -15404),
    ("SAF_ERROR_INVALIDINPUT_CALIB_COMPPOWERTHRESH", -15405),
    ("SAF_ERROR_INVALIDINPUT_CALIB_COMPALPHA", -15406),
    ("SAF_ERROR_INVALIDINPUT_CALIB_COMPBETA", -15407),
    ("SAF_ERROR_INVALIDINPUT_CALIB_COMPALPHABETA", -15408),
    ("SAF_ERROR_INVALIDINPUT_CALIB_PALNAPOWERTHRESH", -15409),
    ("SAF_ERROR_INVALIDINPUT_CALIB_PALNAALPHA", -15410),
    ("SAF_ERROR_INVALIDINPUT_CALIB_PALNABETA", -15411),
    ("SAF_ERROR_INVALIDINPUT_CALIB_PALNAALPHABETA", -15412),
    ("SAF_ERROR_INVALIDINPUT_CALIB_EXTRADRIVE", -15413),
    ("SAF_ERROR_INVALIDINPUT_CALIB_LIMITMAXPOWER", -15414),
    ("SAF_ERROR_INVALIDINPUT_CALIB_TEMPSENSOR", -15415),
    ("SAF_ERROR_INVALIDINPUT_CALIB_TEMPI2CADDRSENSOR1", -15416),
    ("SAF_ERROR_INVALIDINPUT_CALIB_TEMPI2CADDRSENSOR2", -15417),
    ("SAF_ERROR_INVALIDINPUT_CALIB_PAENABLEGPIO", -15418),
    ("SAF_ERROR_INVALIDINPUT_CALIB_LNAENABLEGPIO", -15419),
    ("SAF_ERROR_INVALIDINPUT_CALIB_REMOTEPAGPIO", -15420),
    ("SAF_ERROR_INVALIDINPUT_CALIB_C1GPIO", -15421),
    ("SAF_ERROR_INVALIDINPUT_CALIB_TXCLAIMGPIO", -15422),
    ("SAF_ERROR_INVALIDINPUT_CALIB_COMPENGPIO", -15423),
    ("SAF_ERROR_INVALIDINPUT_CALIB_TIMINGPAEN", -15424),
    ("SAF_ERROR_INVALIDINPUT_CALIB_TIMINGBBSTART", -15425),
    ("SAF_ERROR_INVALIDINPUT_CALIB_TIMINGAUXADC", -15426),
    ("SAF_ERROR_INVALIDINPUT_CALIB_TIMINGREMOTEPA", -15427),
    ("SAF_ERROR_INVALIDINPUT_CALIB_TIMINGPADIS", -15428),
    ("SAF_ERROR_INVALIDINPUT_CALIB_TIMINGLNAEN", -15429),
    ("SAF_ERROR_INVALIDINPUT_CALIB_1PPSGPIO", -15430),
    ("SAF_ERROR_INVALIDINPUT_CALIB_CCAGPIO", -15431),
    ("SAF_ERROR_INVALIDINPUT_CALIB_TXACTIVEGPIO", -15432),
    ("SAF_ERROR_INVALIDINPUT_CALIB_RXACTIVEGPIO", -15433),
    ("SAF_ERROR_INVALIDINPUT_CALIB_OTHERTXGPIO", -15434),
    ("SAF_ERROR_INVALIDINPUT_CALIB_OTHERRXGPIO", -15435),
    ("SAF_ERROR_INVALIDINPUT_CALIB_ATEMPANT1AUXADC", -15436),
    ("SAF_ERROR_INVALIDINPUT_CALIB_ATEMPANT2AUXADC", -15437),
    ("SAF_ERROR_INVALIDINPUT_TEMP_PAANT1", -15500),
    ("SAF_ERROR_INVALIDINPUT_TEMP_PAANT2", -15501),
    ("SAF_ERROR_INVALIDINPUT_GPIO_CMD", -15600),
    ("SAF_ERROR_INVALIDINPUT_GPIO_PIN", -15601),
    ("SAF_ERROR_INVALIDINPUT_GPIO_VALUE", -15602),
    ("SAF_ERROR_INVALIDINPUT_FAULT_CMD", -15700),
    ("SAF_ERROR_INVALIDINPUT_FAULT_CMDERRORCODE", -15701),
    ("SAF_ERROR_USB_DEVICE_NOT_PRESENT", -16100),
    ("SAF_ERROR_SPI_DEVICE_NOT_PRESENT", -16200),
    ("SAF_ERROR_SPI_INTERFACE_TIMEOUT", -16201),
    ("SAF_ERROR_SPI_BUFFER_ALLOCATION_FAILURE", -16202),
    ("SAF_ERROR_SPI_INPUT_QUEUE_EXHAUSTED", -16203),
    ("SAF_ERROR_SPI_OUTPUT_QUEUE_ERROR", -16204),
    ("SAF_ERROR_SPI_INVALID_TRANSFER_STRUCTURE", -16205),
    ("SAF_ERROR_SPI_INVALID_OUTPUT_CONTEXT", -16206),
    ("SAF_ERROR_SPI_BUFFER_OVERRUN", -16207),
    ("SAF_ERROR_SPI_SYSTEM_ERROR", -16208),
    ("SAF_ERROR_SPI_INVALID_CRITICAL_STRUCTURES", -16209),
    ("SAF_ERROR_SPI_INVALID_DEVICE_ID", -16210),
    ("SAF_ERROR_SPI_MEMORY_CORRUPTION", -16211),
    ("SAF_ERROR_SPI_MEMORY_ALLOCATION_FAILURE", -16212),
    ("SAF_ERROR_SPI_INIT_ERROR_DEVICE_NOT_PRESENT", -16213),
    ("SAF_ERROR_SPI_INIT_ERROR_DEVICE_ALREADY_SETUP", -16214),
    ("SAF_ERROR_SPI_SYSTEM_CACHE_ALLOC_FAILURE", -16215),
    ("SAF_ERROR_SPI_SYSTEM_LIST_INIT_ERROR", -16216),
    ("SAF_ERROR_SPI_SYSTEM_LIST_ITEM_ALLOC_ERROR", -16217),
    ("SAF_ERROR_SPI_SYSTEM_LIST_ITEM_ADD_ERROR", -16218),
    ("SAF_ERROR_SPI_SYSTEM_BUS_TO_MASTER_ERROR", -16219),
    ("SAF_ERROR_SPI_SYSTEM_INVALID_CHIPSELECT", -16220),
    ("SAF_ERROR_SPI_SYSTEM_ADD_DEVICE_ERROR", -16221),
    ("SAF_ERROR_SPI_SYSTEM_DAV_PIN_REQUEST_ERROR", -16222),
    ("SAF_ERROR_SPI_SYSTEM_DAV_TO_IRQ_REQUEST_ERROR", -16223),
    ("SAF_ERROR_SPI_INVALID_SPI_MODE", -16224),
    ("SAF_ERROR_SPI_INTERRUPT_BUT_NOT_ENABLED", -16225),
    ("SAF_ERROR_SDIO_DEVICE_NOT_REQUIRED", -16300),
    ("SAF_ERROR_SDIO_INTERFACE_TIMEOUT", -16301),
    ("SAF_ERROR_SDIO_ENABLE_INTERRUPT_FAILURE", -16303),
    ("SAF_ERROR_SDIO_DISABLE_INTERRUPT_FAILURE", -16304),
    ("SAF_ERROR_SDIO_CLEAR_INTERRUPT_FAILURE", -16305),
    ("SAF_ERROR_SDIO_SYSTEM_WRITE_TO_DEVICE_FAILURE", -16306),
    ("SAF_ERROR_SDIO_SYSTEM_READ_FROM_DEVICE_FAILURE", -16308),
    ("SAF_ERROR_SDIO_SYSTEM_REGISTER_DRIVER_FAILURE", -16309),
    ("SAF_ERROR_SDIO_SYSTEM_LIST_INIT_ERROR", -16310),
    ("SAF_ERROR_SDIO_SYSTEM_LIST_ITEM_ALLOC_ERROR", -16311),
    ("SAF_ERROR_SDIO_SYSTEM_LIST_ITEM_ADD_ERROR", -16312),
    ("SAF_ERROR_SDIO_SYSTEM_FUNCTION_ENABLE_ERROR", -16313),
    ("SAF_ERROR_SDIO_SYSTEM_SET_BLOCK_SIZE_ERROR", -16314),
    ("SAF_ERROR_SDIO_SYSTEM_READ_BYTE_ERROR", -16315),
    ("SAF_ERROR_SDIO_SYSTEM_WRITE_BYTE_ERROR", -16316),
    ("SAF_ERROR_SDIO_MEMORY_CORRUPTION", -16317),
    ("SAF_ERROR_SDIO_OUT_NOT_ENABLED", -16318),
    ("SAF_ERROR_SDIO_IN_NOT_ENABLED", -16319),
    ("SAF_ERROR_SDIO_SYSTEM_FUNCTION_NOT_ENABLED", -16320),
    ("SAF_ERROR_SDIO_INPUT_QUEUE_EXHAUSTED", -16321),
    ("SAF_ERROR_SDIO_ZERO_UPLOAD_LENGTH", -16322),
    ("SAF_ERROR_SDIO_CORRUPTED_INPUT_PACKET", -16323),
    ("SAF_ERROR_SDIO_MEMORY_ALLOCATION_FAILURE", -16324),
    ("SAF_ERROR_ETH_DEVICE_NOT_PRESENT", -16400),
    ("SAF_ERROR_ETH_MEMORY_CORRUPTION", -16401),
    ("SAF_ERROR_ETH_CORRUPTED_INPUT_PACKET", -16402),
    ("SAF_ERROR_ETH_SOCKET_MISSING", -16403),
    ("SAF_ERROR_ETH_INPUT_QUEUE_EXHAUSTED", -16404),
    ("SAF_ERROR_ETH_MEMORY_ALLOCATION_FAILURE", -16405),
    ("SAF_ERROR_ETH_SYSTEM_TX_ERROR", -16406),
    ("SAF_ERROR_ETH_SYSTEM_RX_ERROR", -16407),
    ("SAF_ERROR_ETH_SYSTEM_RX_SOCKET_ERROR", -16408),
    ("SAF_ERROR_ETH_SYSTEM_BIND_ERROR", -16409),
    ("SAF_ERROR_ETH_SYSTEM_SET_SCHEDULER_ERROR", -16410),
    ("SAF_ERROR_ETH_SYSTEM_LIST_INIT_ERROR", -16411),
    ("SAF_ERROR_ETH_SYSTEM_LIST_ITEM_ALLOC_ERROR", -16412),
    ("SAF_ERROR_ETH_SYSTEM_LIST_ITEM_ADD_ERROR", -16413),
    ("SAF_ERROR_ETH_SYSTEM_OVERFLOW_ERROR", -16414),
    ("SAF_ERROR_ETH_INTERFACE_TIMEOUT", -16415),
    ("SAF_ERROR_ETH_OUT_NOT_ENABLED", -16416),
    ("SAF_ERROR_FINAL", INT16_MIN) ]

/-- Constant `MAX_NUM_LOG_PARAMETERS` is `16U`. -/
def MAX_NUM_LOG_PARAMETERS : Nat := 16

/-- Constant `MAX_LOG_TEXT_BYTES` is `48UL`. -/
def MAX_LOG_TEXT_BYTES : Nat := 48

/-- Type `tMKxTxQueue` is `typedef uint8_t tMKxTxQueue`. -/
def tMKxTxQueue : CType := .uint8_t

/-- Type `tMKxLogType` is `typedef uint32_t tMKxLogType`. -/
def tMKxLogType : CType := .uint32_t

/-- Type `tMKxGPIOCmd` is `typedef uint16_t tMKxGPIOCmd`. -/
def tMKxGPIOCmd : CType := .uint16_t

/-- Type `tMKxFaultCmd` is `typedef uint16_t tMKxFaultCmd`. -/
def tMKxFaultCmd : CType := .uint16_t

/-- Structure `tMKxGetTSF` of r17.1 (lines 1915-1921). -/
def tMKxGetTSF : CType :=
  .struct
    [ ("Hdr", tMKxIFMsg),
      ("TSF", tMKxTSF) ]

/-- Structure `tMKxFlushQueue` of r17.1 (lines 1944-1956). -/
def tMKxFlushQueue : CType :=
  .struct
    [ ("Hdr", tMKxIFMsg),
      ("RadioID", tMKxRadio),
      ("ChannelID", tMKxChannel),
      ("TxQueue", tMKxTxQueue),
      ("Pad", .uint8_t) ]

/-- Union `tMKxC2XSecAPDU` of r17.1 (lines 2540-2546). -/
def tMKxC2XSecAPDU : CType :=
  .union
    [ ("C", tMKxC2XSecCmdHdr),
      ("R", tMKxC2XSecRspHdr) ]

/-- Structure `tMKxC2XSec` of r17.1 (lines 2551-2557). -/
def tMKxC2XSec : CType :=
  .struct
    [ ("Hdr", tMKxIFMsg),
      ("APDU", tMKxC2XSecAPDU) ]

/-- Structure `tMKxTempData` of r17.1 (lines 3137-3143). -/
def tMKxTempData : CType :=
  .struct
    [ ("TempPAAnt1", .int16_t),
      ("TempPAAnt2", .int16_t) ]

/-- Structure `tMKxTemp` of r17.1 (lines 3152-3158). -/
def tMKxTemp : CType :=
  .struct
    [ ("Hdr", tMKxIFMsg),
      ("TempData", tMKxTempData) ]

/-- Structure `tMKxAuxADCData` of r17.1 (lines 3183-3189). -/
def tMKxAuxADCData : CType :=
  .struct
    [ ("Values", .array .uint32_t AUXADC_INDEX_COUNT),
      ("Timestamps", .array tMKxTSF AUXADC_INDEX_COUNT) ]

/-- Structure `tMKxAuxADC` of r17.1 (lines 3194-3200). -/
def tMKxAuxADC : CType :=
  .struct
    [ ("Hdr", tMKxIFMsg),
      ("AuxADCData", tMKxAuxADCData) ]

/-- Structure `tMKxLog` of r17.1 (lines 3244-3256). -/
def tMKxLog : CType :=
  .struct
    [ ("Hdr", tMKxIFMsg),
      ("LogType", tMKxLogType),
      ("Text", .array .uint8_t MAX_LOG_TEXT_BYTES),
      ("NumParameters", .uint32_t),
      ("Parameters", .array .int32_t MAX_NUM_LOG_PARAMETERS) ]

/-- Structure `tMKxGPIOData` of r17.1 (lines 3299-3307). -/
def tMKxGPIOData : CType :=
  .struct
    [ ("Cmd", tMKxGPIOCmd),
      ("PinNumber", .uint16_t),
      ("Value", .uint32_t) ]

/-- Structure `tMKxGPIO` of r17.1 (lines 3312-3318). -/
def tMKxGPIO : CType :=
  .struct
    [ ("Hdr", tMKxIFMsg),
      ("GPIOData", tMKxGPIOData) ]

/-- Structure `tMKxAPIVersionData` of r17.1 (lines 3323-3329). -/
def tMKxAPIVersionData : CType :=
  .struct
    [ ("Major", .uint16_t),
      ("Minor", .uint16_t) ]

/-- Structure `tMKxAPIVersion` of r17.1 (lines 3334-3340). -/
def tMKxAPIVersion : CType :=
  .struct
    [ ("Hdr", tMKxIFMsg),
      ("VersionData", tMKxAPIVersionData) ]

/-- Structure `tMKxLoopbackData` of r17.1 (lines 3345-3353). -/
def tMKxLoopbackData : CType :=
  .struct
    [ ("TimestampSec", .uint32_t),
      ("TimestampMicrosec", .uint32_t),
      ("Data", .array .uint8_t 0) ]

/-- Structure `tMKxLoopback` of r17.1 (lines 3358-3364). -/
def tMKxLoopback : CType :=
  .struct
    [ ("Hdr", tMKxIFMsg),
      ("LoopbackData", tMKxLoopbackData) ]

/-- Structure `tMKxFaultData` of r17.1 (lines 3390-3404). -/
def tMKxFaultData : CType :=
  .struct
    [ ("Cmd", tMKxFaultCmd),
      ("CommandErrorCode", .int16_t),
      ("FailSafeState", .uint32_t),
      ("FaultCount", .uint32_t),
      ("FaultErrorCode", .int32_t) ]

/-- Structure `tMKxFault` of r17.1 (lines 3409-3415). -/
def tMKxFault : CType :=
  .struct
    [ ("Hdr", tMKxIFMsg),
      ("FaultData", tMKxFaultData) ]

/-- Structure `tMKxReset` of r17.1 (lines 3423-3429). -/
def tMKxReset : CType :=
  .struct
    [ ("Hdr", tMKxIFMsg),
      ("Reserved", .uint32_t) ]

end R17

/-- The enumerators of `eMKxIFMsgType` that name a message type: all but the two the header
documents as "Invalid message type" (`MKXIF_COUNT`, used for array dimensioning, and
`MKXIF_MAX`, used for bounds checking). -/
def messageTags (e : List (String × Nat)) : List (String × Nat) :=
  e.filter (fun t => t.1 ≠ "MKXIF_COUNT" ∧ t.1 ≠ "MKXIF_MAX")

/-- Macro `LLC_NO_BITFIELDS`: `wrapper.h` (lines 1-3) defines it before it includes the LLC
headers, which selects the byte-array form of `tMKxAddressMatching`. -/
def LLC_NO_BITFIELDS : Bool := true

/-! ## Bit-fields -/

/-- Placement of consecutive bit-field members of storage type `uint64_t` in a packed
structure on the little-endian bit-field target the interface assumes
(`__LITTLE_ENDIAN_BITFIELD`): members are allocated one after the other starting at the least
significant bit of the first 64-bit word.  The result lists `(name, word, first bit, width)`
for every member, `pos` being the number of bits already allocated. -/
def bitFieldsFrom : Nat → List (String × Nat) → List (String × Nat × Nat × Nat)
  | _, [] => []
  | pos, f :: rest => (f.1, pos / 64, pos % 64, f.2) :: bitFieldsFrom (pos + f.2) rest

/-- The members that live in the 64-bit word number `w` of a bit-field structure, as
`(name, first bit, width)`, in order of increasing bit position. -/
def wordFields (fs : List (String × Nat)) (w : Nat) : List (String × Nat × Nat) :=
  ((bitFieldsFrom 0 fs).filter (fun f => f.2.1 = w)).map (fun f => (f.1, f.2.2.1, f.2.2.2))

/-- Bits `first .. first + width - 1` of a word. -/
def bitsOf (x first width : Nat) : Nat := (x >>> first) % 2 ^ width

/-- Read the bit-field member `name` out of the 64-bit words that make up the structure. -/
def readBitField (fs : List (String × Nat)) (name : String) (words : List Nat) : Option Nat :=
  match (bitFieldsFrom 0 fs).find? (fun f => f.1 = name) with
  | some (_, w, first, width) => (words[w]?).map (fun x => bitsOf x first width)
  | none => none

/-! ## Object representation -/

/-- The `n` bytes of the little-endian representation of `v`, least significant first. -/
def leBytes : Nat → Nat → List Nat
  | 0, _ => []
  | n + 1, v => v % 256 :: leBytes n (v / 256)

/-- Value of a little-endian byte sequence. -/
def leValue : List Nat → Nat
  | [] => 0
  | b :: rest => b + 256 * leValue rest

/-- Two's complement reading of an unsigned `bits`-bit value. -/
def toSigned (bits : Nat) (v : Nat) : Int :=
  if v < 2 ^ (bits - 1) then (v : Int) else (v : Int) - 2 ^ bits

/-- Read the byte at offset `off` of a message. -/
def readU8 (msg : List Nat) (off : Nat) : Option Nat := msg[off]?

/-- Read the little-endian `int16_t` at offset `off` of a message. -/
def readI16LE (msg : List Nat) (off : Nat) : Option Int :=
  match msg[off]?, msg[off + 1]? with
  | some lo, some hi => some (toSigned 16 (leValue [lo, hi]))
  | _, _ => none

/-- Values of the C object types: an integer, the elements of an array or the members of a
structure in order, or the raw bytes held by a union. -/
inductive CVal where
  | int (v : Int)
  | agg (items : List CVal)
  | raw (bytes : List Nat)

/-- The integer held by a scalar value (0 for anything else). -/
def CVal.toInt : CVal → Int
  | .int v => v
  | _ => 0

/-- The elements or members held by an aggregate value. -/
def CVal.items : CVal → List CVal
  | .agg vs => vs
  | _ => []

/-- The bytes held by a union value. -/
def CVal.bytes : CVal → List Nat
  | .raw bs => bs
  | _ => []

/-- The value is an integer. -/
def CVal.isInt : CVal → Bool
  | .int _ => true
  | _ => false

/-- The value is an aggregate. -/
def CVal.isAgg : CVal → Bool
  | .agg _ => true
  | _ => false

/-- The value is the raw content of a union. -/
def CVal.isRaw : CVal → Bool
  | .raw _ => true
  | _ => false

/-- The `n`-byte two's complement little-endian representation of an integer. -/
def encodeInt (n : Nat) (v : Int) : List Nat :=
  leBytes n (v % 2 ^ (8 * n)).toNat

mutual
/-- Object representation of a value of a packed type on a little-endian target: the bytes
of the members in declaration order, each integer least significant byte first.  An array or
structure value that is too short is completed with zeroes, so the result always has
`sizeof` bytes. -/
def encode : CType → CVal → List Nat
  | .uint8_t, v => encodeInt 1 v.toInt
  | .int8_t, v => encodeInt 1 v.toInt
  | .uint16_t, v => encodeInt 2 v.toInt
  | .int16_t, v => encodeInt 2 v.toInt
  | .uint32_t, v => encodeInt 4 v.toInt
  | .int32_t, v => encodeInt 4 v.toInt
  | .uint64_t, v => encodeInt 8 v.toInt
  | .array e n, v => (List.range n).flatMap (fun i => encode e (v.items.getD i (.int 0)))
  | .struct fs, v => encodeFields fs v.items
  | .union ms, v =>
    (List.range (CType.sizeofMembers ms)).map (fun i => v.bytes.getD i 0 % 256)
/-- Object representation of the members of a packed structure. -/
def encodeFields : List (String × CType) → List CVal → List Nat
  | [], _ => []
  | f :: rest, vs => encode f.2 (vs.headD (.int 0)) ++ encodeFields rest vs.tail
end

/-! ## Message lengths -/

/-- Modelled from the spec: the validity rule for a message with a variable-length tail, which
no function of the headers implements ("the envelope `Len` must equal header+frame to be
valid"; the header documents `Len` as the "length of the message, including the header
itself").  A message of fixed part `t` followed by `tail` bytes is well formed when its `Len`
field holds `sizeof(t) + tail`. -/
def wellFormedLen (t : CType) (tail len : Nat) : Prop := len = t.sizeof + tail

instance (t : CType) (tail len : Nat) : Decidable (wellFormedLen t tail len) :=
  inferInstanceAs (Decidable (len = t.sizeof + tail))

/-! ## Flattened layouts -/

mutual
/-- The scalar leaves of a packed type placed at byte `base`, as `(offset, width)` pairs in
address order: arrays and nested structures are expanded, a union counts as one opaque leaf
of its size. -/
def CType.leavesAt : CType → Nat → List (Nat × Nat)
  | .uint8_t, base => [(base, 1)]
  | .int8_t, base => [(base, 1)]
  | .uint16_t, base => [(base, 2)]
  | .int16_t, base => [(base, 2)]
  | .uint32_t, base => [(base, 4)]
  | .int32_t, base => [(base, 4)]
  | .uint64_t, base => [(base, 8)]
  | .array e n, base => (List.range n).flatMap (fun i => e.leavesAt (base + i * e.sizeof))
  | .struct fs, base => CType.leavesOfFields fs base
  | .union ms, base => [(base, CType.sizeofMembers ms)]
/-- The scalar leaves of a packed member list placed at byte `base`. -/
def CType.leavesOfFields : List (String × CType) → Nat → List (Nat × Nat)
  | [], _ => []
  | f :: rest, base => f.2.leavesAt base ++ CType.leavesOfFields rest (base + f.2.sizeof)
end

/-- The scalar leaves of a packed type, as `(offset, width)` pairs in address order. -/
def CType.leaves (t : CType) : List (Nat × Nat) := t.leavesAt 0

/-! ## Parsing the object representation -/

/-- All results of a list of optional results, when none is missing. -/
def allSome {α : Type} : List (Option α) → Option (List α)
  | [] => some []
  | none :: _ => none
  | some a :: rest => (allSome rest).map (a :: ·)

/-- The first `n` consecutive pieces of `k` bytes of a byte sequence. -/
def chunks (k : Nat) : Nat → List Nat → List (List Nat)
  | 0, _ => []
  | n + 1, bs => bs.take k :: chunks k n (bs.drop k)

/-- Modelled from the spec: the primitive reader of the codec layer, which the headers do not
contain ("decode(buffer, offset) fails with TruncatedInput if fewer bytes remain than
required"; integers are little-endian).  Reads an `n`-byte integer, two's complement when
`signed`. -/
def decodeInt (signed : Bool) (n : Nat) (bs : List Nat) : Option CVal :=
  if bs.length = n then
    some (.int (if signed then toSigned (8 * n) (leValue bs) else (leValue bs : Int)))
  else none

mutual
/-- Modelled from the spec: the parser of the codec layer, which the headers do not contain
(a "bytes-to-structure mapping" over the packed little-endian layout).  It reads the members
at the offsets that `sizeof` assigns them, in declaration order, and fails on truncated
input; the content of a union is kept as raw bytes. -/
def decode : CType → List Nat → Option CVal
  | .uint8_t, bs => decodeInt false 1 bs
  | .int8_t, bs => decodeInt true 1 bs
  | .uint16_t, bs => decodeInt false 2 bs
  | .int16_t, bs => decodeInt true 2 bs
  | .uint32_t, bs => decodeInt false 4 bs
  | .int32_t, bs => decodeInt true 4 bs
  | .uint64_t, bs => decodeInt false 8 bs
  | .array e n, bs =>
    (allSome ((chunks e.sizeof n bs).map (fun c => decode e c))).map CVal.agg
  | .struct fs, bs => (decodeFields fs bs).map CVal.agg
  | .union ms, bs =>
    if bs.length = CType.sizeofMembers ms then some (.raw bs) else none
/-- Parser of the members of a packed structure. -/
def decodeFields : List (String × CType) → List Nat → Option (List CVal)
  | [], _ => some []
  | f :: rest, bs =>
    match decode f.2 (bs.take f.2.sizeof), decodeFields rest (bs.drop f.2.sizeof) with
    | some v, some vs => some (v :: vs)
    | _, _ => none
end

/-- Range check of an integer value against an `n`-byte integer type. -/
def intInRange (signed : Bool) (n : Nat) (v : Int) : Bool :=
  if signed then decide (-(2 : Int) ^ (8 * n - 1) ≤ v ∧ v < (2 : Int) ^ (8 * n - 1))
  else decide (0 ≤ v ∧ v < (2 : Int) ^ (8 * n))

mutual
/-- A value is a value of the given type: integers lie in the range of their type, arrays
have their declared number of elements, structures one value per member, and a union holds
as many bytes as its size. -/
def CVal.hasType : CType → CVal → Bool
  | .uint8_t, v => v.isInt && intInRange false 1 v.toInt
  | .int8_t, v => v.isInt && intInRange true 1 v.toInt
  | .uint16_t, v => v.isInt && intInRange false 2 v.toInt
  | .int16_t, v => v.isInt && intInRange true 2 v.toInt
  | .uint32_t, v => v.isInt && intInRange false 4 v.toInt
  | .int32_t, v => v.isInt && intInRange true 4 v.toInt
  | .uint64_t, v => v.isInt && intInRange false 8 v.toInt
  | .array e n, v =>
    v.isAgg && decide (v.items.length = n) && v.items.all (fun x => CVal.hasType e x)
  | .struct fs, v => v.isAgg && CVal.hasTypeFields fs v.items
  | .union ms, v =>
    v.isRaw && decide (v.bytes.length = CType.sizeofMembers ms)
      && v.bytes.all (fun b => decide (b < 256))
/-- Member-wise typing of the values of a structure. -/
def CVal.hasTypeFields : List (String × CType) → List CVal → Bool
  | [], vs => vs.isEmpty
  | f :: rest, vs =>
    !vs.isEmpty && CVal.hasType f.2 (vs.headD (.int 0)) && CVal.hasTypeFields rest vs.tail
end

/-! ## The handle and the inline API wrappers

The inline functions `MKx_*` of the headers take a handle pointer `pMKx`, check it, and
forward to a function pointer of `pMKx->API.Functions` or copy data out of the handle.  They
are modelled as state transformers over a `World`: the memory the two pointer arguments refer
to, and a trace of what the function did to it.  The functions behind the function pointers
are not part of the headers; they are parameters (`tMKxFunctions`) that return a status and
may change the memory. -/

/-- Contents of a memory object, one entry per byte. -/
abbrev Bytes := List Nat

/-- Type `tMKxStatus` is `typedef int tMKxStatus`. -/
abbrev tMKxStatus := Int

/-- A pointer argument: the null pointer, or a pointer to the object of the memory model it
stands for. -/
inductive Ptr where
  | NULL
  | object
  deriving DecidableEq

/-- Structure `tMKxState`, the member `State` of the handle: per-radio statistics,
temperature data and auxiliary ADC data, each as its bytes. -/
structure tMKxState where
  Stats : List Bytes
  Temp : Bytes
  AuxADC : Bytes

/-- Structure `tMKxConfig`, the member `Config` of the handle: per-radio configuration,
calibration data and auxiliary ADC configuration, each as its bytes. -/
structure tMKxConfig where
  Radio : List Bytes
  Calibration : Bytes
  AuxADC : Bytes

/-- Structure `tMKx`, the LLC handle: the data members the wrappers read. -/
structure tMKx where
  Magic : Nat
  State : tMKxState
  Config : tMKxConfig

/-- The memory reachable through the arguments of a wrapper: the handle `*pMKx` and the
caller's message or output buffer. -/
structure Mem where
  MKx : tMKx
  buf : Bytes

/-- An invocation of a member of `pMKx->API.Functions`: the arguments passed and the memory
as the callee finds it. -/
inductive Call where
  | Config (pMKx : Ptr) (Radio : Int) (pConfig : Ptr) (mem : Mem)
  | GetTSFReq (pMKx : Ptr) (mem : Mem)
  | AuxADCCfg (pMKx : Ptr) (pCfg : Ptr) (mem : Mem)
  | TxReq (pMKx : Ptr) (pTxPkt : Ptr) (pPriv : Ptr) (mem : Mem)
  | TxFlush (pMKx : Ptr) (RadioID : Int) (ChannelID : Int) (TxQueue : Int) (mem : Mem)
  | SetTSF (pMKx : Ptr) (pSetTSF : Ptr) (mem : Mem)
  | Calibration (pMKx : Ptr) (pCalib : Ptr) (mem : Mem)
  | Temp (pMKx : Ptr) (pTemp : Ptr) (mem : Mem)
  | GPIOReq (pMKx : Ptr) (pGPIOMsg : Ptr) (mem : Mem)
  | VersionReq (pMKx : Ptr) (pMsg : Ptr) (mem : Mem)

/-- The members of `tMKxFunctions` used by the wrappers below.  Each returns a `tMKxStatus`
and the memory it leaves behind. -/
structure tMKxFunctions where
  Config : Int → Mem → tMKxStatus × Mem
  GetTSFReq : Mem → tMKxStatus × Mem
  AuxADCCfg : Mem → tMKxStatus × Mem

/-- Structure `MKxFunctions` (`typedef struct MKxFunctions ... tMKxFunctions`) with the further
members the wrappers call: `TxReq`, `SetTSF`, `TxFlush`, `Calibration`, `Temp` and, in r17.1,
`GPIOReq` and `VersionReq`.  A member whose message pointer the wrapper passes on unchecked
receives that pointer. -/
structure MKxFunctions extends tMKxFunctions where
  TxReq : Ptr → Ptr → Mem → tMKxStatus × Mem
  SetTSF : Ptr → Mem → tMKxStatus × Mem
  TxFlush : Int → Int → Int → Mem → tMKxStatus × Mem
  Calibration : Mem → tMKxStatus × Mem
  Temp : Mem → tMKxStatus × Mem
  GPIOReq : Ptr → Mem → tMKxStatus × Mem
  VersionReq : Ptr → Mem → tMKxStatus × Mem

/-- State of an execution: the memory, the calls made through `API.Functions` so far, the
indices with which `State.Stats` was read, and the `(offset, length)` of every store into
the caller's buffer. -/
structure World where
  mem : Mem
  calls : List Call
  statsReads : List Int
  stores : List (Nat × Nat)

/-- Call through a function pointer of `API.Functions`: the call is recorded and the callee's
effect on the memory is applied. -/
def invoke (call : Mem → Call) (f : Mem → tMKxStatus × Mem) : StateM World tMKxStatus :=
  fun w => ((f w.mem).1, { w with mem := (f w.mem).2, calls := w.calls ++ [call w.mem] })

/-- The bytes `src` stored at offset `off` of an object. -/
def storeAt (obj : Bytes) (off : Nat) (src : Bytes) : Bytes :=
  obj.take off ++ src ++ obj.drop (off + src.length)

/-- The C library call `memset(dst + off, c, n)` on the caller's buffer. -/
def memset (off c n : Nat) : StateM World Unit :=
  modify fun w =>
    { w with mem := { w.mem with buf := storeAt w.mem.buf off (List.replicate n (c % 256)) },
             stores := w.stores ++ [(off, n)] }

/-- The C library call `memcpy(dst + off, src, n)` on the caller's buffer. -/
def memcpy (off : Nat) (src : Bytes) (n : Nat) : StateM World Unit :=
  modify fun w =>
    { w with mem := { w.mem with buf := storeAt w.mem.buf off (src.take n) },
             stores := w.stores ++ [(off, n)] }

/-- The lvalue `pMKx->State.Stats[Radio]`: the index is recorded; an index outside the array
does not denote an element of it. -/
def readStats (Radio : Int) : StateM World Bytes :=
  fun w =>
    ((if 0 ≤ Radio then w.mem.MKx.State.Stats.getD Radio.toNat [] else []),
      { w with statsReads := w.statsReads ++ [Radio] })

namespace R16

/-- Function `MKx_Config` of r16 (lines 2287-2305). -/
def MKx_Config (API : tMKxFunctions) (pMKx : Ptr) (Radio : Int) (pConfig : Ptr) :
    StateM World tMKxStatus := do
  if pMKx = Ptr.NULL then
    return MKXSTATUS_FAILURE_INVALID_HANDLE
  if (← get).mem.MKx.Magic ≠ MKX_API_MAGIC then
    return MKXSTATUS_FAILURE_INVALID_HANDLE
  if Radio > MKX_RADIO_MAX then
    return MKXSTATUS_FAILURE_INVALID_PARAM
  if pConfig = Ptr.NULL then
    return MKXSTATUS_FAILURE_INVALID_PARAM
  invoke (Call.Config pMKx Radio pConfig) (API.Config Radio)

/-- Function `MKx_GetTSFReq` of r16 (lines 2338-2349). -/
def MKx_GetTSFReq (API : tMKxFunctions) (pMKx : Ptr) : StateM World tMKxStatus := do
  if pMKx = Ptr.NULL then
    return 0
  if (← get).mem.MKx.Magic ≠ MKX_API_MAGIC then
    return 0
  invoke (Call.GetTSFReq pMKx) API.GetTSFReq

/-- Function `MKx_GetStats` of r16 (lines 2382-2405); `Radio` is an `int8_t`, `pStats` the
caller's buffer. -/
def MKx_GetStats (pMKx : Ptr) (Radio : Int) (pStats : Ptr) : StateM World tMKxStatus := do
  if pMKx = Ptr.NULL then
    return MKXSTATUS_FAILURE_INVALID_HANDLE
  if (← get).mem.MKx.Magic ≠ MKX_API_MAGIC then
    return MKXSTATUS_FAILURE_INVALID_HANDLE
  if Radio > MKX_RADIO_MAX then
    return MKXSTATUS_FAILURE_INVALID_PARAM
  if pStats = Ptr.NULL then
    return MKXSTATUS_FAILURE_INVALID_PARAM
  memcpy 0 (← readStats Radio) tMKxRadioStats.sizeof
  return MKXSTATUS_SUCCESS

/-- Function `MKx_GetAuxADCCfg` of r16 (lines 2423-2442); `pCfg` points to the caller's
`tMKxAuxADCConfig` message. -/
def MKx_GetAuxADCCfg (API : tMKxFunctions) (pMKx : Ptr) (pCfg : Ptr) :
    StateM World tMKxStatus := do
  if pMKx = Ptr.NULL then
    return MKXSTATUS_FAILURE_INVALID_HANDLE
  if (← get).mem.MKx.Magic ≠ MKX_API_MAGIC then
    return MKXSTATUS_FAILURE_INVALID_HANDLE
  if pCfg = Ptr.NULL then
    return MKXSTATUS_FAILURE_INVALID_PARAM
  memset ((tMKxAuxADCConfig.offsetof "AuxADCConfigData").getD 0) 0xFF
    tMKxAuxADCConfigData.sizeof
  let _ ← invoke (Call.AuxADCCfg pMKx pCfg) API.AuxADCCfg
  memcpy ((tMKxAuxADCConfig.offsetof "AuxADCConfigData").getD 0) (← get).mem.MKx.Config.AuxADC
    tMKxAuxADCConfigData.sizeof
  return MKXSTATUS_SUCCESS

end R16

namespace R17

/-- Function `MKx_Config` of r17.1 (lines 4083-4114). -/
def MKx_Config (API : tMKxFunctions) (pMKx : Ptr) (Radio : Int) (pConfig : Ptr) :
    StateM World tMKxStatus := do
  let mut ReturnCode : tMKxStatus := 0
  if pMKx = Ptr.NULL then
    ReturnCode := MKXSTATUS_FAILURE_INVALID_HANDLE
  else if (← get).mem.MKx.Magic ≠ MKX_API_MAGIC then
    ReturnCode := MKXSTATUS_FAILURE_INVALID_HANDLE
  else if Radio > MKX_RADIO_MAX then
    ReturnCode := MKXSTATUS_FAILURE_INVALID_PARAM
  else if pConfig = Ptr.NULL then
    ReturnCode := MKXSTATUS_FAILURE_INVALID_PARAM
  else
    ReturnCode ← invoke (Call.Config pMKx Radio pConfig) (API.Config Radio)
  return ReturnCode

/-- Function `MKx_GetTSFReq` of r17.1 (lines 4167-4188). -/
def MKx_GetTSFReq (API : tMKxFunctions) (pMKx : Ptr) : StateM World tMKxStatus := do
  let mut ReturnCode : tMKxStatus := 0
  if pMKx = Ptr.NULL then
    ReturnCode := MKXSTATUS_FAILURE_INVALID_HANDLE
  else if (← get).mem.MKx.Magic ≠ MKX_API_MAGIC then
    ReturnCode := MKXSTATUS_FAILURE_INVALID_HANDLE
  else
    ReturnCode ← invoke (Call.GetTSFReq pMKx) API.GetTSFReq
  return ReturnCode

/-- Function `MKx_GetStats` of r17.1 (lines 4289-4327); `Radio` is a `uint8_t`, `pStats` the
caller's buffer. -/
def MKx_GetStats (pMKx : Ptr) (Radio : Int) (pStats : Ptr) : StateM World tMKxStatus := do
  let mut ReturnCode : tMKxStatus := 0
  if pMKx = Ptr.NULL then
    ReturnCode := MKXSTATUS_FAILURE_INVALID_HANDLE
  else if (← get).mem.MKx.Magic ≠ MKX_API_MAGIC then
    ReturnCode := MKXSTATUS_FAILURE_INVALID_HANDLE
  else if Radio > MKX_RADIO_MAX then
    ReturnCode := MKXSTATUS_FAILURE_INVALID_PARAM
  else if pStats = Ptr.NULL then
    ReturnCode := MKXSTATUS_FAILURE_INVALID_PARAM
  else
    memcpy 0 (← readStats Radio) tMKxRadioStatsData.sizeof
    ReturnCode := MKXSTATUS_SUCCESS
  return ReturnCode

/-- Function `MKx_GetAuxADCCfg` of r17.1 (lines 4357-4387); `pCfg` points to the caller's
`tMKxAuxADCConfig` message. -/
def MKx_GetAuxADCCfg (API : tMKxFunctions) (pMKx : Ptr) (pCfg : Ptr) :
    StateM World tMKxStatus := do
  let mut ReturnCode : tMKxStatus := 0
  if pMKx = Ptr.NULL then
    ReturnCode := MKXSTATUS_FAILURE_INVALID_HANDLE
  else if (← get).mem.MKx.Magic ≠ MKX_API_MAGIC then
    ReturnCode := MKXSTATUS_FAILURE_INVALID_HANDLE
  else if pCfg = Ptr.NULL then
    ReturnCode := MKXSTATUS_FAILURE_INVALID_PARAM
  else
    memset ((tMKxAuxADCConfig.offsetof "AuxADCConfigData").getD 0) 0xFF
      tMKxAuxADCConfigData.sizeof
    let _ ← invoke (Call.AuxADCCfg pMKx pCfg) API.AuxADCCfg
    memcpy ((tMKxAuxADCConfig.offsetof "AuxADCConfigData").getD 0)
      (← get).mem.MKx.Config.AuxADC tMKxAuxADCConfigData.sizeof
    ReturnCode := MKXSTATUS_SUCCESS
  return ReturnCode

end R17

/-- The C library call `memcpy(dst + off, src, n)` through a pointer argument that the
wrapper has not tested: the store is made whatever the pointer is, and is recorded like any
other store. -/
def memcpyTo (_dst : Ptr) (off : Nat) (src : Bytes) (n : Nat) : StateM World Unit :=
  memcpy off src n

namespace R16

/-- Function `MKx_TxReq` of r16 (lines 2310-2320). -/
def MKx_TxReq (API : MKxFunctions) (pMKx : Ptr) (pTxPkt : Ptr) (pPriv : Ptr) :
    StateM World tMKxStatus := do
  if pMKx = Ptr.NULL then
    return MKXSTATUS_FAILURE_INVALID_HANDLE
  if (← get).mem.MKx.Magic ≠ MKX_API_MAGIC then
    return MKXSTATUS_FAILURE_INVALID_HANDLE
  invoke (Call.TxReq pMKx pTxPkt pPriv) (API.TxReq pTxPkt pPriv)

/-- Function `MKx_TxFlush` of r16 (lines 2325-2336). -/
def MKx_TxFlush (API : MKxFunctions) (pMKx : Ptr) (RadioID : Int) (ChannelID : Int)
    (TxQueue : Int) :
    StateM World tMKxStatus := do
  if pMKx = Ptr.NULL then
    return MKXSTATUS_FAILURE_INVALID_HANDLE
  if (← get).mem.MKx.Magic ≠ MKX_API_MAGIC then
    return MKXSTATUS_FAILURE_INVALID_HANDLE
  invoke (Call.TxFlush pMKx RadioID ChannelID TxQueue)
    (API.TxFlush RadioID ChannelID TxQueue)

/-- Function `MKx_SetTSF` of r16 (lines 2354-2362). -/
def MKx_SetTSF (API : MKxFunctions) (pMKx : Ptr) (pSetTSF : Ptr) :
    StateM World tMKxStatus := do
  if pMKx = Ptr.NULL then
    return MKXSTATUS_FAILURE_INVALID_HANDLE
  if (← get).mem.MKx.Magic ≠ MKX_API_MAGIC then
    return MKXSTATUS_FAILURE_INVALID_HANDLE
  invoke (Call.SetTSF pMKx pSetTSF) (API.SetTSF pSetTSF)

/-- Function `MKx_GetAuxADC` of r16 (lines 2369-2380); the destination
`pAuxADCData` is the caller's buffer and is not tested. -/
def MKx_GetAuxADC (pMKx : Ptr) (pAuxADCData : Ptr) :
    StateM World tMKxStatus := do
  if pMKx = Ptr.NULL then
    return MKXSTATUS_FAILURE_INVALID_HANDLE
  if (← get).mem.MKx.Magic ≠ MKX_API_MAGIC then
    return MKXSTATUS_FAILURE_INVALID_HANDLE
  memcpyTo pAuxADCData 0 (← get).mem.MKx.State.AuxADC tMKxAuxADCData.sizeof
  return MKXSTATUS_SUCCESS

/-- Function `MKx_SetAuxADCCfg` of r16 (lines 2410-2421). -/
def MKx_SetAuxADCCfg (API : MKxFunctions) (pMKx : Ptr) (pCfg : Ptr) :
    StateM World tMKxStatus := do
  if pMKx = Ptr.NULL then
    return MKXSTATUS_FAILURE_INVALID_HANDLE
  if (← get).mem.MKx.Magic ≠ MKX_API_MAGIC then
    return MKXSTATUS_FAILURE_INVALID_HANDLE
  if pCfg = Ptr.NULL then
    return MKXSTATUS_FAILURE_INVALID_PARAM
  invoke (Call.AuxADCCfg pMKx pCfg) API.AuxADCCfg

/-- Function `MKx_SetTemp` of r16 (lines 2447-2458). -/
def MKx_SetTemp (API : MKxFunctions) (pMKx : Ptr) (pTemp : Ptr) :
    StateM World tMKxStatus := do
  if pMKx = Ptr.NULL then
    return MKXSTATUS_FAILURE_INVALID_HANDLE
  if (← get).mem.MKx.Magic ≠ MKX_API_MAGIC then
    return MKXSTATUS_FAILURE_INVALID_HANDLE
  if pTemp = Ptr.NULL then
    return MKXSTATUS_FAILURE_INVALID_PARAM
  invoke (Call.Temp pMKx pTemp) API.Temp

/-- Function `MKx_SetCalibration` of r16 (lines 2486-2497). -/
def MKx_SetCalibration (API : MKxFunctions) (pMKx : Ptr) (pCalib : Ptr) :
    StateM World tMKxStatus := do
  if pMKx = Ptr.NULL then
    return MKXSTATUS_FAILURE_INVALID_HANDLE
  if (← get).mem.MKx.Magic ≠ MKX_API_MAGIC then
    return MKXSTATUS_FAILURE_INVALID_HANDLE
  if pCalib = Ptr.NULL then
    return MKXSTATUS_FAILURE_INVALID_PARAM
  invoke (Call.Calibration pMKx pCalib) API.Calibration

/-- Function `MKx_GetTemp` of r16 (lines 2465-2481); `pTemp` points to the caller's
`tMKxTemp` message. -/
def MKx_GetTemp (API : MKxFunctions) (pMKx : Ptr) (pTemp : Ptr) :
    StateM World tMKxStatus := do
  if pMKx = Ptr.NULL then
    return MKXSTATUS_FAILURE_INVALID_HANDLE
  if (← get).mem.MKx.Magic ≠ MKX_API_MAGIC then
    return MKXSTATUS_FAILURE_INVALID_HANDLE
  if pTemp = Ptr.NULL then
    return MKXSTATUS_FAILURE_INVALID_PARAM
  memset ((tMKxTemp.offsetof "TempData").getD 0) 0x80 tMKxTempData.sizeof
  let _ ← invoke (Call.Temp pMKx pTemp) API.Temp
  memcpy ((tMKxTemp.offsetof "TempData").getD 0) (← get).mem.MKx.State.Temp
    tMKxTempData.sizeof
  return MKXSTATUS_SUCCESS

/-- Function `MKx_GetCalibration` of r16 (lines 2504-2522); `pCalib` points to the caller's
`tMKxCalibration` message. -/
def MKx_GetCalibration (API : MKxFunctions) (pMKx : Ptr) (pCalib : Ptr) :
    StateM World tMKxStatus := do
  if pMKx = Ptr.NULL then
    return MKXSTATUS_FAILURE_INVALID_HANDLE
  if (← get).mem.MKx.Magic ≠ MKX_API_MAGIC then
    return MKXSTATUS_FAILURE_INVALID_HANDLE
  if pCalib = Ptr.NULL then
    return MKXSTATUS_FAILURE_INVALID_PARAM
  memset ((tMKxCalibration.offsetof "CalibrationData").getD 0) 0x80 tMKxCalibrationData.sizeof
  let _ ← invoke (Call.Calibration pMKx pCalib) API.Calibration
  memcpy ((tMKxCalibration.offsetof "CalibrationData").getD 0) (← get).mem.MKx.Config.Calibration
    tMKxCalibrationData.sizeof
  return MKXSTATUS_SUCCESS

end R16

namespace R17

/-- Function `MKx_TxReq` of r17.1 (lines 4120-4139). -/
def MKx_TxReq (API : MKxFunctions) (pMKx : Ptr) (pTxPkt : Ptr) (pPriv : Ptr) :
    StateM World tMKxStatus := do
  let mut ReturnCode : tMKxStatus := 0
  if pMKx = Ptr.NULL then
    ReturnCode := MKXSTATUS_FAILURE_INVALID_HANDLE
  else if (← get).mem.MKx.Magic ≠ MKX_API_MAGIC then
    ReturnCode := MKXSTATUS_FAILURE_INVALID_HANDLE
  else
    ReturnCode ← invoke (Call.TxReq pMKx pTxPkt pPriv) (API.TxReq pTxPkt pPriv)
  return ReturnCode

/-- Function `MKx_TxFlush` of r17.1 (lines 4145-4165). -/
def MKx_TxFlush (API : MKxFunctions) (pMKx : Ptr) (RadioID : Int) (ChannelID : Int)
    (TxQueue : Int) :
    StateM World tMKxStatus := do
  let mut ReturnCode : tMKxStatus := 0
  if pMKx = Ptr.NULL then
    ReturnCode := MKXSTATUS_FAILURE_INVALID_HANDLE
  else if (← get).mem.MKx.Magic ≠ MKX_API_MAGIC then
    ReturnCode := MKXSTATUS_FAILURE_INVALID_HANDLE
  else
    ReturnCode ← invoke (Call.TxFlush pMKx RadioID ChannelID TxQueue)
      (API.TxFlush RadioID ChannelID TxQueue)
  return ReturnCode

/-- Function `MKx_SetTSF` of r17.1 (lines 4194-4211). -/
def MKx_SetTSF (API : MKxFunctions) (pMKx : Ptr) (pSetTSF : Ptr) :
    StateM World tMKxStatus := do
  let mut ReturnCode : tMKxStatus := 0
  if pMKx = Ptr.NULL then
    ReturnCode := MKXSTATUS_FAILURE_INVALID_HANDLE
  else if (← get).mem.MKx.Magic ≠ MKX_API_MAGIC then
    ReturnCode := MKXSTATUS_FAILURE_INVALID_HANDLE
  else
    ReturnCode ← invoke (Call.SetTSF pMKx pSetTSF) (API.SetTSF pSetTSF)
  return ReturnCode

/-- Function `MKx_GPIOReq` of r17.1 (lines 4217-4235). -/
def MKx_GPIOReq (API : MKxFunctions) (pMKx : Ptr) (pGPIOMsg : Ptr) :
    StateM World tMKxStatus := do
  let mut ReturnCode : tMKxStatus := 0
  if pMKx = Ptr.NULL then
    ReturnCode := MKXSTATUS_FAILURE_INVALID_HANDLE
  else if (← get).mem.MKx.Magic ≠ MKX_API_MAGIC then
    ReturnCode := MKXSTATUS_FAILURE_INVALID_HANDLE
  else
    ReturnCode ← invoke (Call.GPIOReq pMKx pGPIOMsg) (API.GPIOReq pGPIOMsg)
  return ReturnCode

/-- Function `MKx_VersionReq` of r17.1 (lines 4241-4259). -/
def MKx_VersionReq (API : MKxFunctions) (pMKx : Ptr) (pMsg : Ptr) :
    StateM World tMKxStatus := do
  let mut ReturnCode : tMKxStatus := 0
  if pMKx = Ptr.NULL then
    ReturnCode := MKXSTATUS_FAILURE_INVALID_HANDLE
  else if (← get).mem.MKx.Magic ≠ MKX_API_MAGIC then
    ReturnCode := MKXSTATUS_FAILURE_INVALID_HANDLE
  else
    ReturnCode ← invoke (Call.VersionReq pMKx pMsg) (API.VersionReq pMsg)
  return ReturnCode

/-- Function `MKx_GetAuxADC` of r17.1 (lines 4268-4287); the destination
`pAuxADCData` is the caller's buffer and is not tested. -/
def MKx_GetAuxADC (pMKx : Ptr) (pAuxADCData : Ptr) :
    StateM World tMKxStatus := do
  let mut ReturnCode : tMKxStatus := 0
  if pMKx = Ptr.NULL then
    ReturnCode := MKXSTATUS_FAILURE_INVALID_HANDLE
  else if (← get).mem.MKx.Magic ≠ MKX_API_MAGIC then
    ReturnCode := MKXSTATUS_FAILURE_INVALID_HANDLE
  else
    memcpyTo pAuxADCData 0 (← get).mem.MKx.State.AuxADC tMKxAuxADCData.sizeof
    ReturnCode := MKXSTATUS_SUCCESS
  return ReturnCode

/-- Function `MKx_SetAuxADCCfg` of r17.1 (lines 4333-4355). -/
def MKx_SetAuxADCCfg (API : MKxFunctions) (pMKx : Ptr) (pCfg : Ptr) :
    StateM World tMKxStatus := do
  let mut ReturnCode : tMKxStatus := 0
  if pMKx = Ptr.NULL then
    ReturnCode := MKXSTATUS_FAILURE_INVALID_HANDLE
  else if (← get).mem.MKx.Magic ≠ MKX_API_MAGIC then
    ReturnCode := MKXSTATUS_FAILURE_INVALID_HANDLE
  else if pCfg = Ptr.NULL then
    ReturnCode := MKXSTATUS_FAILURE_INVALID_PARAM
  else
    ReturnCode ← invoke (Call.AuxADCCfg pMKx pCfg) API.AuxADCCfg
  return ReturnCode

/-- Function `MKx_SetTemp` of r17.1 (lines 4393-4415). -/
def MKx_SetTemp (API : MKxFunctions) (pMKx : Ptr) (pTemp : Ptr) :
    StateM World tMKxStatus := do
  let mut ReturnCode : tMKxStatus := 0
  if pMKx = Ptr.NULL then
    ReturnCode := MKXSTATUS_FAILURE_INVALID_HANDLE
  else if (← get).mem.MKx.Magic ≠ MKX_API_MAGIC then
    ReturnCode := MKXSTATUS_FAILURE_INVALID_HANDLE
  else if pTemp = Ptr.NULL then
    ReturnCode := MKXSTATUS_FAILURE_INVALID_PARAM
  else
    ReturnCode ← invoke (Call.Temp pMKx pTemp) API.Temp
  return ReturnCode

/-- Function `MKx_SetCalibration` of r17.1 (lines 4458-4480). -/
def MKx_SetCalibration (API : MKxFunctions) (pMKx : Ptr) (pCalib : Ptr) :
    StateM World tMKxStatus := do
  let mut ReturnCode : tMKxStatus := 0
  if pMKx = Ptr.NULL then
    ReturnCode := MKXSTATUS_FAILURE_INVALID_HANDLE
  else if (← get).mem.MKx.Magic ≠ MKX_API_MAGIC then
    ReturnCode := MKXSTATUS_FAILURE_INVALID_HANDLE
  else if pCalib = Ptr.NULL then
    ReturnCode := MKXSTATUS_FAILURE_INVALID_PARAM
  else
    ReturnCode ← invoke (Call.Calibration pMKx pCalib) API.Calibration
  return ReturnCode

/-- Function `MKx_GetTemp` of r17.1 (lines 4424-4452); `pTemp` points to the caller's
`tMKxTemp` message. -/
def MKx_GetTemp (API : MKxFunctions) (pMKx : Ptr) (pTemp : Ptr) :
    StateM World tMKxStatus := do
  let mut ReturnCode : tMKxStatus := 0
  if pMKx = Ptr.NULL then
    ReturnCode := MKXSTATUS_FAILURE_INVALID_HANDLE
  else if (← get).mem.MKx.Magic ≠ MKX_API_MAGIC then
    ReturnCode := MKXSTATUS_FAILURE_INVALID_HANDLE
  else if pTemp = Ptr.NULL then
    ReturnCode := MKXSTATUS_FAILURE_INVALID_PARAM
  else
    memset ((tMKxTemp.offsetof "TempData").getD 0) 0x80 tMKxTempData.sizeof
    let _ ← invoke (Call.Temp pMKx pTemp) API.Temp
    memcpy ((tMKxTemp.offsetof "TempData").getD 0) (← get).mem.MKx.State.Temp
      tMKxTempData.sizeof
    ReturnCode := MKXSTATUS_SUCCESS
  return ReturnCode

/-- Function `MKx_GetCalibration` of r17.1 (lines 4489-4518); `pCalib` points to the caller's
`tMKxCalibration` message. -/
def MKx_GetCalibration (API : MKxFunctions) (pMKx : Ptr) (pCalib : Ptr) :
    StateM World tMKxStatus := do
  let mut ReturnCode : tMKxStatus := 0
  if pMKx = Ptr.NULL then
    ReturnCode := MKXSTATUS_FAILURE_INVALID_HANDLE
  else if (← get).mem.MKx.Magic ≠ MKX_API_MAGIC then
    ReturnCode := MKXSTATUS_FAILURE_INVALID_HANDLE
  else if pCalib = Ptr.NULL then
    ReturnCode := MKXSTATUS_FAILURE_INVALID_PARAM
  else
    memset ((tMKxCalibration.offsetof "CalibrationData").getD 0) 0x80 tMKxCalibrationData.sizeof
    let _ ← invoke (Call.Calibration pMKx pCalib) API.Calibration
    memcpy ((tMKxCalibration.offsetof "CalibrationData").getD 0) (← get).mem.MKx.Config.Calibration
      tMKxCalibrationData.sizeof
    ReturnCode := MKXSTATUS_SUCCESS
  return ReturnCode

end R17

/-! ## The message header -/

/-- C1: in revision r16 the packed header `tMKxIFMsg` has `Type` (unsigned 16 bit) at byte
offset 0, `Len` (unsigned 16 bit) at 2, `Seq` (unsigned 16 bit) at 4, `Ret` (signed 16 bit)
at 6 and the flexible member `Data` at offset 8; the header is exactly 8 bytes, and the
object representation of a header value stores each field least significant byte first at
its offset. -/
theorem c1_r16_header_layout :
    R16.tMKxIFMsg.layout
        = [("Type", 0, 2), ("Len", 2, 2), ("Seq", 4, 2), ("Ret", 6, 2), ("Data", 8, 0)]
      ∧ (R16.tMKxIFMsg.member "Type").bind CType.scalar = some (false, 2)
      ∧ (R16.tMKxIFMsg.member "Len").bind CType.scalar = some (false, 2)
      ∧ (R16.tMKxIFMsg.member "Seq").bind CType.scalar = some (false, 2)
      ∧ (R16.tMKxIFMsg.member "Ret").bind CType.scalar = some (true, 2)
      ∧ R16.tMKxIFMsg.offsetof "Data" = some 8
      ∧ R16.tMKxIFMsg.sizeof = 8
      ∧ ∀ ty len seq ret : Int,
          encode R16.tMKxIFMsg (.agg [.int ty, .int len, .int seq, .int ret])
            = [ (ty % 65536).toNat % 256, (ty % 65536).toNat / 256 % 256,
                (len % 65536).toNat % 256, (len % 65536).toNat / 256 % 256,
                (seq % 65536).toNat % 256, (seq % 65536).toNat / 256 % 256,
                (ret % 65536).toNat % 256, (ret % 65536).toNat / 256 % 256 ] := by
  refine ⟨by decide, by decide, by decide, by decide, by decide, by decide, by decide, ?_⟩
  intro ty len seq ret
  simp [R16.tMKxIFMsg, R16.tMKxIFMsgType, encode, encodeFields, encodeInt, leBytes,
    CVal.toInt, CVal.items]

/-- C2 (as stated, refuted): the r17.1 header `tMKxIFMsg` is not 10 bytes long. -/
theorem c2_r17_header_size_is_not_10 : ¬ (R17.tMKxIFMsg.sizeof = 10) := by
  decide

/-- C2 (amended): in revision r17.1 the header `tMKxIFMsg` consists of exactly the six 16-bit
fields `Type`, `Len`, `Seq`, `Ref`, `Reserved`, `Ret` in that order, at the consecutive byte
offsets 0, 2, 4, 6, 8, 10 (no padding), the first five unsigned and `Ret` signed; the header
is 12 bytes. -/
theorem c2_r17_header_layout :
    R17.tMKxIFMsg.layout
        = [("Type", 0, 2), ("Len", 2, 2), ("Seq", 4, 2), ("Ref", 6, 2), ("Reserved", 8, 2),
           ("Ret", 10, 2)]
      ∧ R17.tMKxIFMsg.memberNames.map (fun n => (R17.tMKxIFMsg.member n).bind CType.scalar)
        = [some (false, 2), some (false, 2), some (false, 2), some (false, 2),
           some (false, 2), some (true, 2)]
      ∧ R17.tMKxIFMsg.sizeof = 12
      ∧ R17.tMKxIFMsg.sizeof = 6 * 2 := by
  decide

/-! ## The message type enumeration -/

/-- C3: `eMKxIFMsgType` defines exactly 17 message tags in r16 and 24 in r17.1, the value of
`MKXIF_COUNT`; in each revision the tags are exactly the integers `0 .. MKXIF_MAX` with
`MKXIF_MAX = MKXIF_COUNT - 1`, so a 16-bit `Type` is a defined tag if and only if
`Type <= MKXIF_MAX`; every r16 tag has the same name and value in r17.1, which only appends
the tags 17..23 `ERROR`, `WARNING`, `LOG`, `GPIO`, `RESET`, `LOOPBACK`, `FAULT`. -/
theorem c3_message_tags :
    (messageTags R16.eMKxIFMsgType).length = 17 ∧ R16.MKXIF_COUNT = 17
      ∧ (messageTags R17.eMKxIFMsgType).length = 24 ∧ R17.MKXIF_COUNT = 24
      ∧ R16.MKXIF_MAX = R16.MKXIF_COUNT - 1 ∧ R17.MKXIF_MAX = R17.MKXIF_COUNT - 1
      ∧ R16.eMKxIFMsgType.lookup "MKXIF_COUNT" = some R16.MKXIF_COUNT
      ∧ R16.eMKxIFMsgType.lookup "MKXIF_MAX" = some R16.MKXIF_MAX
      ∧ R17.eMKxIFMsgType.lookup "MKXIF_COUNT" = some R17.MKXIF_COUNT
      ∧ R17.eMKxIFMsgType.lookup "MKXIF_MAX" = some R17.MKXIF_MAX
      ∧ (messageTags R16.eMKxIFMsgType).map (·.2) = List.range (R16.MKXIF_MAX + 1)
      ∧ (messageTags R17.eMKxIFMsgType).map (·.2) = List.range (R17.MKXIF_MAX + 1)
      ∧ (∀ ty : Fin 65536,
          ty.val ∈ (messageTags R16.eMKxIFMsgType).map (·.2) ↔ ty.val ≤ R16.MKXIF_MAX)
      ∧ (∀ ty : Fin 65536,
          ty.val ∈ (messageTags R17.eMKxIFMsgType).map (·.2) ↔ ty.val ≤ R17.MKXIF_MAX)
      ∧ (messageTags R16.eMKxIFMsgType).all
          (fun tag => R17.eMKxIFMsgType.lookup tag.1 == some tag.2) = true
      ∧ messageTags R17.eMKxIFMsgType
        = messageTags R16.eMKxIFMsgType
          ++ [("MKXIF_ERROR", 17), ("MKXIF_WARNING", 18), ("MKXIF_LOG", 19), ("MKXIF_GPIO", 20),
              ("MKXIF_RESET", 21), ("MKXIF_LOOPBACK", 22), ("MKXIF_FAULT", 23)] := by
  have h16 : (messageTags R16.eMKxIFMsgType).map (·.2) = List.range (R16.MKXIF_MAX + 1) := by
    decide
  have h17 : (messageTags R17.eMKxIFMsgType).map (·.2) = List.range (R17.MKXIF_MAX + 1) := by
    decide
  have happ : messageTags R17.eMKxIFMsgType
        = messageTags R16.eMKxIFMsgType
          ++ [("MKXIF_ERROR", 17), ("MKXIF_WARNING", 18), ("MKXIF_LOG", 19), ("MKXIF_GPIO", 20),
              ("MKXIF_RESET", 21), ("MKXIF_LOOPBACK", 22), ("MKXIF_FAULT", 23)] := by
    decide
  refine ⟨by decide, by decide, by decide, by decide, by decide, by decide, by decide,
    by decide, by decide, by decide, h16, h17, ?_, ?_, by decide, happ⟩
  · intro ty
    rw [h16, List.mem_range]
    omega
  · intro ty
    rw [h17, List.mem_range]
    omega

/-! ## C2X security lengths -/

/-- C4: in r17.1 every C2X length constant equals the 8-byte APDU header plus the packed size
of the payload structure it names, for the eight command constants (header
`tMKxC2XSecCmdHdr`) and the five response constants (header `tMKxC2XSecRspHdr`); a VSOH-256
command has a 160-byte payload and a total `LC` of 168. -/
theorem c4_c2x_length_constants :
    R17.tMKxC2XSecCmdHdr.sizeof = 8 ∧ R17.tMKxC2XSecRspHdr.sizeof = 8
      ∧ R17.MKXC2XSEC_CMD_VSOH256_LC = 168
      ∧ R17.MKXC2XSEC_CMD_VSOH256_LC = R17.tMKxC2XSecCmdHdr.sizeof + R17.tMKxC2XSecVSOH256.sizeof
      ∧ R17.tMKxC2XSecVSOH256.sizeof = 160
      ∧ R17.MKXC2XSEC_CMD_VSOH384_LC = 248
      ∧ R17.MKXC2XSEC_CMD_VSOH384_LC = R17.tMKxC2XSecCmdHdr.sizeof + R17.tMKxC2XSecVSOH384.sizeof
      ∧ R17.MKXC2XSEC_CMD_DPKVSOH256_LC = 140
      ∧ R17.MKXC2XSEC_CMD_DPKVSOH256_LC
        = R17.tMKxC2XSecCmdHdr.sizeof + R17.tMKxC2XSecDPKVSOH256.sizeof
      ∧ R17.MKXC2XSEC_CMD_DPKVSOH384_LC = 204
      ∧ R17.MKXC2XSEC_CMD_DPKVSOH384_LC
        = R17.tMKxC2XSecCmdHdr.sizeof + R17.tMKxC2XSecDPKVSOH384.sizeof
      ∧ R17.MKXC2XSEC_CMD_DPK256_LC = 44
      ∧ R17.MKXC2XSEC_CMD_DPK256_LC = R17.tMKxC2XSecCmdHdr.sizeof + R17.tMKxC2XSecDPK256.sizeof
      ∧ R17.MKXC2XSEC_CMD_DPK384_LC = 60
      ∧ R17.MKXC2XSEC_CMD_DPK384_LC = R17.tMKxC2XSecCmdHdr.sizeof + R17.tMKxC2XSecDPK384.sizeof
      ∧ R17.MKXC2XSEC_CMD_REPK256_LC = 168
      ∧ R17.MKXC2XSEC_CMD_REPK256_LC = R17.tMKxC2XSecCmdHdr.sizeof + R17.tMKxC2XSecREPK256.sizeof
      ∧ R17.MKXC2XSEC_CMD_REPK384_LC = 248
      ∧ R17.MKXC2XSEC_CMD_REPK384_LC = R17.tMKxC2XSecCmdHdr.sizeof + R17.tMKxC2XSecREPK384.sizeof
      ∧ R17.MKXC2XSEC_RSP_VER_LR = 12
      ∧ R17.MKXC2XSEC_RSP_VER_LR = R17.tMKxC2XSecRspHdr.sizeof + R17.tMKxC2XSecVerifyRsp.sizeof
      ∧ R17.MKXC2XSEC_RSP_PK256_LR = 72
      ∧ R17.MKXC2XSEC_RSP_PK256_LR
        = R17.tMKxC2XSecRspHdr.sizeof + R17.tMKxC2XSecPubKey256Rsp.sizeof
      ∧ R17.MKXC2XSEC_RSP_PK384_LR = 104
      ∧ R17.MKXC2XSEC_RSP_PK384_LR
        = R17.tMKxC2XSecRspHdr.sizeof + R17.tMKxC2XSecPubKey384Rsp.sizeof
      ∧ R17.MKXC2XSEC_RSP_VERPK256_LR = 76
      ∧ R17.MKXC2XSEC_RSP_VERPK256_LR
        = R17.tMKxC2XSecRspHdr.sizeof + R17.tMKxC2XSecVerifyPK256Rsp.sizeof
      ∧ R17.MKXC2XSEC_RSP_VERPK384_LR = 108
      ∧ R17.MKXC2XSEC_RSP_VERPK384_LR
        = R17.tMKxC2XSecRspHdr.sizeof + R17.tMKxC2XSecVerifyPK384Rsp.sizeof := by
  decide

/-- C5: in r16 the command payload starts at byte offset 8 of `tMKxC2XSecCmdPA` (3 padding
bytes, then `CLA`, `INS`, `USN[2]`, `LC`) and the response payload at byte offset 8 of
`tMKxC2XSecRspPA` (6 padding bytes, then `USN[2]`); behind the 8-byte message header both
payloads start at byte offset 16 of a `tMKxC2XSec` message, a multiple of 8. -/
theorem c5_r16_payload_alignment :
    R16.tMKxC2XSecCmdPA.layout = [("Padding", 0, 3), ("Data", 3, 0), ("Cmd", 3, 6), ("End", 9, 0)]
      ∧ R16.tMKxC2XSecCmd.layout
        = [("CLA", 0, 1), ("INS", 1, 1), ("USN", 2, 2), ("LC", 4, 1), ("Payload", 5, 0),
           ("LE", 5, 1)]
      ∧ R16.tMKxC2XSecCmdPA.offsetofPath ["Cmd", "Payload"] = some 8
      ∧ R16.tMKxC2XSecRspPA.layout = [("Padding", 0, 6), ("Data", 6, 0), ("Rsp", 6, 4), ("End", 10, 0)]
      ∧ R16.tMKxC2XSecRsp.layout = [("USN", 0, 2), ("Payload", 2, 0), ("SW", 2, 2)]
      ∧ R16.tMKxC2XSecRspPA.offsetofPath ["Rsp", "Payload"] = some 8
      ∧ R16.tMKxIFMsg.sizeof = 8
      ∧ R16.tMKxC2XSec.offsetof "APDU" = some 8
      ∧ R16.tMKxC2XSec.offsetofPath ["APDU", "C", "Cmd", "Payload"] = some 16
      ∧ R16.tMKxC2XSec.offsetofPath ["APDU", "R", "Rsp", "Payload"] = some 16
      ∧ 16 % 8 = 0 := by
  decide

/-! ## Address matching -/

/-- A value below `2 ^ n` and a value shifted left by `n` bits do not overlap: their
bitwise "or" is their sum. -/
theorem or_shiftLeft_eq_add (a b n : Nat) (h : a < 2 ^ n) : a ||| (b <<< n) = a + b * 2 ^ n := by
  rw [Nat.shiftLeft_eq, Nat.or_comm, Nat.mul_comm b, ← Nat.mul_add_lt_is_or h]
  omega

/-- C6 (as stated, refuted): in the bit-field form the first 64-bit word does not consist of
a 48-bit value, an 8-bit control byte at bits 48-55 and 8 padding bits at bits 56-63. -/
theorem c6_first_word_has_no_control_byte :
    ¬ ((wordFields R16.tMKxAddressMatching_bitfields 0).map (·.2) = [(0, 48), (48, 8), (56, 8)])
      ∧ ¬ ((wordFields R17.tMKxAddressMatching_bitfields 0).map (·.2)
            = [(0, 48), (48, 8), (56, 8)]) := by
  decide

/-- C6 (amended): in the bit-field form of `tMKxAddressMatching` (both revisions) the first
64-bit word carries `Mask` in bits 0-47 and the 16 padding bits `Pad0` in bits 48-63; the
second word carries `Addr` in bits 0-47, the 8-bit control byte `MatchCtrl` in bits 48-55 and
the 8 padding bits `Pad1` in bits 56-63; the structure has no further word. -/
theorem c6_address_matching_bit_layout :
    wordFields R16.tMKxAddressMatching_bitfields 0 = [("Mask", 0, 48), ("Pad0", 48, 16)]
      ∧ wordFields R16.tMKxAddressMatching_bitfields 1
        = [("Addr", 0, 48), ("MatchCtrl", 48, 8), ("Pad1", 56, 8)]
      ∧ wordFields R17.tMKxAddressMatching_bitfields 0 = [("Mask", 0, 48), ("Pad0", 48, 16)]
      ∧ wordFields R17.tMKxAddressMatching_bitfields 1
        = [("Addr", 0, 48), ("MatchCtrl", 48, 8), ("Pad1", 56, 8)]
      ∧ (R16.tMKxAddressMatching_bitfields.map (·.2)).sum = 2 * 64
      ∧ (R17.tMKxAddressMatching_bitfields.map (·.2)).sum = 2 * 64 := by
  decide

/-- C7: for every `Addr < 2^48` and `MatchCtrl < 2^8`, packing them as
`Addr | (MatchCtrl << 48)` into a 64-bit word with arbitrary bits 56-63 and reading the
bit-fields back (bits 0-47 and bits 48-55) returns `Addr` and `MatchCtrl`; likewise `Mask`
in bits 0-47 of its word, whatever its 16 padding bits hold.  For the documented unicast
entry `Addr = 0xAB8967452301`, `MatchCtrl = 0x01` the little-endian bytes 0..5 of the `Addr`
word are `01 23 45 67 89 AB`. -/
theorem c7_address_matching_round_trip (Addr MatchCtrl Pad1 Mask Pad0 : Nat)
    (hAddr : Addr < 2 ^ 48) (hCtrl : MatchCtrl < 2 ^ 8) (hPad1 : Pad1 < 2 ^ 8)
    (hMask : Mask < 2 ^ 48) (hPad0 : Pad0 < 2 ^ 16) :
    (Mask ||| (Pad0 <<< 48)) < 2 ^ 64
      ∧ (Addr ||| (MatchCtrl <<< 48) ||| (Pad1 <<< 56)) < 2 ^ 64
      ∧ bitsOf (Addr ||| (MatchCtrl <<< 48) ||| (Pad1 <<< 56)) 0 48 = Addr
      ∧ bitsOf (Addr ||| (MatchCtrl <<< 48) ||| (Pad1 <<< 56)) 48 8 = MatchCtrl
      ∧ bitsOf (Mask ||| (Pad0 <<< 48)) 0 48 = Mask
      ∧ readBitField R16.tMKxAddressMatching_bitfields "Mask"
          [Mask ||| (Pad0 <<< 48), Addr ||| (MatchCtrl <<< 48) ||| (Pad1 <<< 56)] = some Mask
      ∧ readBitField R16.tMKxAddressMatching_bitfields "Addr"
          [Mask ||| (Pad0 <<< 48), Addr ||| (MatchCtrl <<< 48) ||| (Pad1 <<< 56)] = some Addr
      ∧ readBitField R16.tMKxAddressMatching_bitfields "MatchCtrl"
          [Mask ||| (Pad0 <<< 48), Addr ||| (MatchCtrl <<< 48) ||| (Pad1 <<< 56)]
          = some MatchCtrl
      ∧ readBitField R17.tMKxAddressMatching_bitfields "Mask"
          [Mask ||| (Pad0 <<< 48), Addr ||| (MatchCtrl <<< 48) ||| (Pad1 <<< 56)] = some Mask
      ∧ readBitField R17.tMKxAddressMatching_bitfields "Addr"
          [Mask ||| (Pad0 <<< 48), Addr ||| (MatchCtrl <<< 48) ||| (Pad1 <<< 56)] = some Addr
      ∧ readBitField R17.tMKxAddressMatching_bitfields "MatchCtrl"
          [Mask ||| (Pad0 <<< 48), Addr ||| (MatchCtrl <<< 48) ||| (Pad1 <<< 56)]
          = some MatchCtrl
      ∧ (leBytes 8 (0xAB8967452301 ||| (0x01 <<< 48))).take 6
          = [0x01, 0x23, 0x45, 0x67, 0x89, 0xAB] := by
  have p48 : (2 : Nat) ^ 48 = 281474976710656 := by norm_num
  have p56 : (2 : Nat) ^ 56 = 72057594037927936 := by norm_num
  have p64 : (2 : Nat) ^ 64 = 18446744073709551616 := by norm_num
  have p16 : (2 : Nat) ^ 16 = 65536 := by norm_num
  have p8 : (2 : Nat) ^ 8 = 256 := by norm_num
  have e0 : Mask ||| (Pad0 <<< 48) = Mask + Pad0 * 2 ^ 48 := or_shiftLeft_eq_add _ _ _ hMask
  have e1 : Addr ||| (MatchCtrl <<< 48) = Addr + MatchCtrl * 2 ^ 48 :=
    or_shiftLeft_eq_add _ _ _ hAddr
  have hlt : Addr + MatchCtrl * 2 ^ 48 < 2 ^ 56 := by omega
  have e2 : Addr ||| (MatchCtrl <<< 48) ||| (Pad1 <<< 56)
      = Addr + MatchCtrl * 2 ^ 48 + Pad1 * 2 ^ 56 := by
    rw [e1]
    exact or_shiftLeft_eq_add _ _ _ hlt
  rw [e0, e2]
  have r0 : bitsOf (Addr + MatchCtrl * 2 ^ 48 + Pad1 * 2 ^ 56) 0 48 = Addr := by
    simp only [bitsOf, Nat.shiftRight_eq_div_pow]
    omega
  have r1 : bitsOf (Addr + MatchCtrl * 2 ^ 48 + Pad1 * 2 ^ 56) 48 8 = MatchCtrl := by
    simp only [bitsOf, Nat.shiftRight_eq_div_pow]
    omega
  have r2 : bitsOf (Mask + Pad0 * 2 ^ 48) 0 48 = Mask := by
    simp only [bitsOf, Nat.shiftRight_eq_div_pow]
    omega
  refine ⟨by omega, by omega, r0, r1, r2, ?_, ?_, ?_, ?_, ?_, ?_, by decide⟩
  all_goals
    simp [readBitField, bitFieldsFrom, R16.tMKxAddressMatching_bitfields,
      R17.tMKxAddressMatching_bitfields]
    simp only [bitsOf, Nat.shiftRight_eq_div_pow]
    omega

/-- C7 (instance): the documented unicast entry `Addr = 0xAB8967452301`,
`Mask = 0xFFFFFFFFFFFF`, `MatchCtrl = 0x01`, with all padding bits set. -/
theorem c7_address_matching_round_trip_witness :
    ((0xAB8967452301 : Nat) < 2 ^ 48 ∧ (0x01 : Nat) < 2 ^ 8 ∧ (0xFF : Nat) < 2 ^ 8
        ∧ (0xFFFFFFFFFFFF : Nat) < 2 ^ 48 ∧ (0xFFFF : Nat) < 2 ^ 16)
      ∧ readBitField R16.tMKxAddressMatching_bitfields "Mask"
        [0xFFFFFFFFFFFF ||| (0xFFFF <<< 48), 0xAB8967452301 ||| (0x01 <<< 48) ||| (0xFF <<< 56)]
        = some 0xFFFFFFFFFFFF
      ∧ readBitField R16.tMKxAddressMatching_bitfields "Addr"
        [0xFFFFFFFFFFFF ||| (0xFFFF <<< 48), 0xAB8967452301 ||| (0x01 <<< 48) ||| (0xFF <<< 56)]
        = some 0xAB8967452301
      ∧ readBitField R16.tMKxAddressMatching_bitfields "MatchCtrl"
        [0xFFFFFFFFFFFF ||| (0xFFFF <<< 48), 0xAB8967452301 ||| (0x01 <<< 48) ||| (0xFF <<< 56)]
        = some 0x01 :=
  have h := c7_address_matching_round_trip 0xAB8967452301 0x01 0xFF 0xFFFFFFFFFFFF 0xFFFF
    (by norm_num) (by norm_num) (by norm_num) (by norm_num) (by norm_num)
  ⟨⟨by norm_num, by norm_num, by norm_num, by norm_num, by norm_num⟩,
    h.2.2.2.2.2.1, h.2.2.2.2.2.2.1, h.2.2.2.2.2.2.2.1⟩

/-! ## Packet descriptors -/

/-- C8: in both revisions the fixed part of `tMKxTxPacketData` is 20 bytes with `RadioID` at
offset 0, `ChannelID` 1, `TxAntenna` 2, `MCS` 3, `TxPower` 4, `TxCtrlFlags` 6, `Reserved0` 7,
`Expiry` 8 (a multiple of 8), `TxFrameLength` 16, `Reserved1` 18 and the frame `TxFrame` at
offset 20; inside `tMKxTxPacket` the frame starts at byte 28 in r16 and at byte 32 in r17.1,
so a well-formed Tx message has `Len = 28 + TxFrameLength` (r16) or
`Len = 32 + TxFrameLength` (r17.1). -/
theorem c8_tx_packet_layout :
    R16.tMKxTxPacketData.layout
        = [("RadioID", 0, 1), ("ChannelID", 1, 1), ("TxAntenna", 2, 1), ("MCS", 3, 1),
           ("TxPower", 4, 2), ("TxCtrlFlags", 6, 1), ("Reserved0", 7, 1), ("Expiry", 8, 8),
           ("TxFrameLength", 16, 2), ("Reserved1", 18, 2), ("TxFrame", 20, 0)]
      ∧ R17.tMKxTxPacketData.layout = R16.tMKxTxPacketData.layout
      ∧ R16.tMKxTxPacketData.sizeof = 20 ∧ R17.tMKxTxPacketData.sizeof = 20
      ∧ R16.tMKxTxPacketData.offsetof "Expiry" = some 8
      ∧ R17.tMKxTxPacketData.offsetof "Expiry" = some 8
      ∧ 8 % 8 = 0
      ∧ R16.tMKxTxPacket.offsetofPath ["TxPacketData", "TxFrame"] = some 28
      ∧ R17.tMKxTxPacket.offsetofPath ["TxPacketData", "TxFrame"] = some 32
      ∧ R16.tMKxTxPacket.sizeof = 28 ∧ R17.tMKxTxPacket.sizeof = 32
      ∧ (∀ TxFrameLength Len : Nat,
          wellFormedLen R16.tMKxTxPacket TxFrameLength Len ↔ Len = 28 + TxFrameLength)
      ∧ (∀ TxFrameLength Len : Nat,
          wellFormedLen R17.tMKxTxPacket TxFrameLength Len ↔ Len = 32 + TxFrameLength) := by
  have s16 : R16.tMKxTxPacket.sizeof = 28 := by decide
  have s17 : R17.tMKxTxPacket.sizeof = 32 := by decide
  refine ⟨by decide, by decide, by decide, by decide, by decide, by decide, by decide,
    by decide, by decide, s16, s17, ?_, ?_⟩
  · intro n len
    unfold wellFormedLen
    rw [s16]
  · intro n len
    unfold wellFormedLen
    rw [s17]

/-- C9 (as stated, refuted): the replacement of `Reserved0` by `ChannelFreq` is not the only
difference between the two declarations of `tMKxRxPacketData`: it is not the case that every
member other than `Reserved0` has the same integer type in both revisions.  `RadioID` and
`ChannelID` are declared `tMKxRadio` and `tMKxChannel`, which are `int8_t` in r16 and
`uint8_t` in r17.1, so the byte 0xFF at offset 0 or 1 reads -1 in r16 and 255 in r17.1. -/
theorem c9_rx_packet_not_the_only_difference :
    ¬ (∀ n ∈ R16.tMKxRxPacketData.memberNames, n ≠ "Reserved0" →
        (R17.tMKxRxPacketData.member n).bind CType.scalar
          = (R16.tMKxRxPacketData.member n).bind CType.scalar)
      ∧ (R16.tMKxRxPacketData.member "RadioID").bind CType.scalar = some (true, 1)
      ∧ (R17.tMKxRxPacketData.member "RadioID").bind CType.scalar = some (false, 1)
      ∧ (R16.tMKxRxPacketData.member "ChannelID").bind CType.scalar = some (true, 1)
      ∧ (R17.tMKxRxPacketData.member "ChannelID").bind CType.scalar = some (false, 1)
      ∧ toSigned 8 (leValue [0xFF]) = -1 ∧ leValue [0xFF] = 255 := by
  refine ⟨?_, by decide, by decide, by decide, by decide, by decide, by decide⟩
  intro h
  have h0 := h "RadioID" (by decide) (by decide)
  revert h0
  decide

/-- C9 (amended): the fixed part of `tMKxRxPacketData` is 44 bytes in both revisions with
every field at the same offset and width (`RxPowerAnt1` at 4, `RxFreqOffset` at 12, `RxTSF`
at 16, `RxFrameLength` at 24, `RxFrame` at 44).  The differences between the two
declarations are that the two bytes at offsets 26-27 are `Reserved0` in r16 and
`ChannelFreq` in r17.1 (unsigned 16 bit in both), and that `RadioID` (offset 0) and
`ChannelID` (offset 1) are `int8_t` in r16 and `uint8_t` in r17.1; every other member has the
same declared type in both revisions.  Inside `tMKxRxPacket` the received frame starts at
byte 52 in r16 and at byte 56 in r17.1. -/
theorem c9_rx_packet_layout :
    R16.tMKxRxPacketData.layout
        = [("RadioID", 0, 1), ("ChannelID", 1, 1), ("MCS", 2, 1), ("FCSPass", 3, 1),
           ("RxPowerAnt1", 4, 2), ("RxPowerAnt2", 6, 2), ("RxNoiseAnt1", 8, 2),
           ("RxNoiseAnt2", 10, 2), ("RxFreqOffset", 12, 4), ("RxTSF", 16, 8),
           ("RxFrameLength", 24, 2), ("Reserved0", 26, 2), ("Reserved1", 28, 4),
           ("Reserved2", 32, 4), ("Reserved3", 36, 4), ("Reserved4", 40, 4), ("RxFrame", 44, 0)]
      ∧ R17.tMKxRxPacketData.layout
        = R16.tMKxRxPacketData.layout.map
            (fun f => if f.1 = "Reserved0" then ("ChannelFreq", f.2) else f)
      ∧ R16.tMKxRxPacketData.layout.filter (fun f => f ∉ R17.tMKxRxPacketData.layout)
        = [("Reserved0", 26, 2)]
      ∧ R17.tMKxRxPacketData.layout.filter (fun f => f ∉ R16.tMKxRxPacketData.layout)
        = [("ChannelFreq", 26, 2)]
      ∧ (R16.tMKxRxPacketData.member "Reserved0").bind CType.scalar = some (false, 2)
      ∧ (R17.tMKxRxPacketData.member "ChannelFreq").bind CType.scalar = some (false, 2)
      ∧ (R16.tMKxRxPacketData.member "RadioID").bind CType.scalar = some (true, 1)
      ∧ (R17.tMKxRxPacketData.member "RadioID").bind CType.scalar = some (false, 1)
      ∧ (R16.tMKxRxPacketData.member "ChannelID").bind CType.scalar = some (true, 1)
      ∧ (R17.tMKxRxPacketData.member "ChannelID").bind CType.scalar = some (false, 1)
      ∧ R16.tMKxRxPacketData.memberNames.filter
          (fun n => (R17.tMKxRxPacketData.member n).isNone
            || decide ((R17.tMKxRxPacketData.member n).bind CType.scalar
              ≠ (R16.tMKxRxPacketData.member n).bind CType.scalar))
        = ["RadioID", "ChannelID", "Reserved0"]
      ∧ R17.tMKxRxPacketData.memberNames.filter
          (fun n => (R16.tMKxRxPacketData.member n).isNone
            || decide ((R16.tMKxRxPacketData.member n).bind CType.scalar
              ≠ (R17.tMKxRxPacketData.member n).bind CType.scalar))
        = ["RadioID", "ChannelID", "ChannelFreq"]
      ∧ (∀ n ∈ R16.tMKxRxPacketData.memberNames, n ∉ ["RadioID", "ChannelID", "Reserved0"] →
          R17.tMKxRxPacketData.member n = R16.tMKxRxPacketData.member n)
      ∧ R16.tMKxRxPacketData.sizeof = 44 ∧ R17.tMKxRxPacketData.sizeof = 44
      ∧ R16.tMKxRxPacket.offsetofPath ["RxPacketData", "RxFrame"] = some 52
      ∧ R17.tMKxRxPacket.offsetofPath ["RxPacketData", "RxFrame"] = some 56 := by
  have hm : R16.tMKxRxPacketData.memberNames
      = ["RadioID", "ChannelID", "MCS", "FCSPass", "RxPowerAnt1", "RxPowerAnt2", "RxNoiseAnt1",
         "RxNoiseAnt2", "RxFreqOffset", "RxTSF", "RxFrameLength", "Reserved0", "Reserved1",
         "Reserved2", "Reserved3", "Reserved4", "RxFrame"] := by
    decide
  refine ⟨by decide, by decide, by decide, by decide, by decide, by decide, by decide,
    by decide, by decide, by decide, ?_, ?_, ?_, by decide, by decide, by decide, by decide⟩
  · decide
  · decide
  · intro n hn hne
    rw [hm] at hn
    simp only [List.mem_cons, List.mem_singleton, List.not_mem_nil, or_false] at hn
    rcases hn with rfl | rfl | rfl | rfl | rfl | rfl | rfl | rfl | rfl | rfl | rfl | rfl | rfl
      | rfl | rfl | rfl | rfl
    all_goals first
      | rfl
      | exact absurd (by decide) hne

/-- C10: `tMKxTxEventData` is 40 bytes with identical field offsets in both revisions
(`TxStatus` 0, `MACSequenceNumber` 2, `TxTime` 4, `AckResponseDelay_ps` 12,
`CTSResponseDelay_ps` 16, `MACDwellTime` 20, `NumShortRetries` 24, `NumLongRetries` 25,
`DestAddress` 26, `Reserved0` 32, `Reserved1` 36); an r16 `tMKxTxEvent` message is 48 bytes,
and for every such message that encodes `TxStatus = 0` and `NumShortRetries = 2`, whatever
the other fields hold and whatever eight bytes stand at the reserved offsets 40-47, the
little-endian `int16_t` at message offset 8 reads 0 and the byte at message offset 32
reads 2. -/
theorem c10_tx_event_layout :
    R16.tMKxTxEventData.layout
        = [("TxStatus", 0, 2), ("MACSequenceNumber", 2, 2), ("TxTime", 4, 8),
           ("AckResponseDelay_ps", 12, 4), ("CTSResponseDelay_ps", 16, 4),
           ("MACDwellTime", 20, 4), ("NumShortRetries", 24, 1), ("NumLongRetries", 25, 1),
           ("DestAddress", 26, 6), ("Reserved0", 32, 4), ("Reserved1", 36, 4)]
      ∧ R17.tMKxTxEventData.layout = R16.tMKxTxEventData.layout
      ∧ R16.tMKxTxEventData.sizeof = 40 ∧ R17.tMKxTxEventData.sizeof = 40
      ∧ R16.tMKxTxEvent.sizeof = 48
      ∧ R16.tMKxTxEvent.offsetofPath ["TxEventData", "TxStatus"] = some 8
      ∧ R16.tMKxTxEvent.offsetofPath ["TxEventData", "NumShortRetries"] = some 32
      ∧ R16.tMKxTxEvent.offsetofPath ["TxEventData", "Reserved0"] = some 40
      ∧ ∀ (Hdr DestAddress : CVal)
          (MACSequenceNumber TxTime AckResponseDelay_ps CTSResponseDelay_ps MACDwellTime
            NumLongRetries Reserved0 Reserved1 : Int)
          (b40 b41 b42 b43 b44 b45 b46 b47 : Nat),
          (encode R16.tMKxTxEvent
              (.agg [Hdr, .agg [.int 0, .int MACSequenceNumber, .int TxTime,
                .int AckResponseDelay_ps, .int CTSResponseDelay_ps, .int MACDwellTime,
                .int 2, .int NumLongRetries, DestAddress, .int Reserved0,
                .int Reserved1]])).length = 48
          ∧ readI16LE (encode R16.tMKxTxEvent
              (.agg [Hdr, .agg [.int 0, .int MACSequenceNumber, .int TxTime,
                .int AckResponseDelay_ps, .int CTSResponseDelay_ps, .int MACDwellTime,
                .int 2, .int NumLongRetries, DestAddress, .int Reserved0,
                .int Reserved1]])) 8 = some 0
          ∧ readU8 (encode R16.tMKxTxEvent
              (.agg [Hdr, .agg [.int 0, .int MACSequenceNumber, .int TxTime,
                .int AckResponseDelay_ps, .int CTSResponseDelay_ps, .int MACDwellTime,
                .int 2, .int NumLongRetries, DestAddress, .int Reserved0,
                .int Reserved1]])) 32 = some 2
          ∧ readI16LE ((encode R16.tMKxTxEvent
              (.agg [Hdr, .agg [.int 0, .int MACSequenceNumber, .int TxTime,
                .int AckResponseDelay_ps, .int CTSResponseDelay_ps, .int MACDwellTime,
                .int 2, .int NumLongRetries, DestAddress, .int Reserved0,
                .int Reserved1]])).take 40 ++ [b40, b41, b42, b43, b44, b45, b46, b47]) 8
            = some 0
          ∧ readU8 ((encode R16.tMKxTxEvent
              (.agg [Hdr, .agg [.int 0, .int MACSequenceNumber, .int TxTime,
                .int AckResponseDelay_ps, .int CTSResponseDelay_ps, .int MACDwellTime,
                .int 2, .int NumLongRetries, DestAddress, .int Reserved0,
                .int Reserved1]])).take 40 ++ [b40, b41, b42, b43, b44, b45, b46, b47]) 32
            = some 2 := by
  refine ⟨by decide, by decide, by decide, by decide, by decide, by decide, by decide,
    by decide, ?_⟩
  intro Hdr DestAddress macSeq txTime ack cts dwell nLong r0 r1 b40 b41 b42 b43 b44 b45 b46 b47
  simp [R16.tMKxTxEvent, R16.tMKxTxEventData, R16.tMKxIFMsg, R16.tMKxIFMsgType, R16.tMKxTSF,
    encode, encodeFields, encodeInt, leBytes, CVal.toInt, CVal.items, readI16LE, readU8,
    leValue, toSigned, List.range, List.range.loop, List.flatMap]

/-! ## Calibration data -/

set_option maxRecDepth 100000 in
/-- C11: `tMKxCalibrationData` is 552 bytes in r16 and 668 bytes in r17.1 with `Version` at
offset 0 in both; the first 552 bytes of the r17.1 layout have exactly the r16 field offsets
and widths (`AntCalibration[0]` at 4, `AntCalibration[1]` at 268, `AcquisitionConfig` at 532,
`TempConfig` at 544, each `tMKxAntCalibration` being 264 bytes), down to every scalar leaf;
r17.1 only appends `AcquisitionConfig20MHz` (offset 552, 12 bytes), `PinConfig` (offset 564,
48 bytes) and `AnalogTempConfig` (offset 612, 56 bytes); `CALIBRATION_VERSION` changes from
1 to 3. -/
theorem c11_calibration_layout :
    R16.tMKxCalibrationData.sizeof = 552 ∧ R17.tMKxCalibrationData.sizeof = 668
      ∧ R16.tMKxCalibrationData.offsetof "Version" = some 0
      ∧ R17.tMKxCalibrationData.offsetof "Version" = some 0
      ∧ R16.tMKxCalibrationData.layout
        = [("Version", 0, 4), ("AntCalibration", 4, 528), ("AcquisitionConfig", 532, 12),
           ("TempConfig", 544, 8)]
      ∧ R17.tMKxCalibrationData.layout
        = R16.tMKxCalibrationData.layout
          ++ [("AcquisitionConfig20MHz", 552, 12), ("PinConfig", 564, 48),
              ("AnalogTempConfig", 612, 56)]
      ∧ R16.tMKxAntCalibration.sizeof = 264 ∧ R17.tMKxAntCalibration.sizeof = 264
      ∧ R16.MKX_ANT_COUNT = 2 ∧ R17.MKX_ANT_COUNT = 2
      ∧ 4 + 0 * R16.tMKxAntCalibration.sizeof = 4 ∧ 4 + 1 * R16.tMKxAntCalibration.sizeof = 268
      ∧ 4 + 0 * R17.tMKxAntCalibration.sizeof = 4 ∧ 4 + 1 * R17.tMKxAntCalibration.sizeof = 268
      ∧ R17.tMKxCalibrationData.leaves.take R16.tMKxCalibrationData.leaves.length
        = R16.tMKxCalibrationData.leaves
      ∧ (R17.tMKxCalibrationData.leaves.drop R16.tMKxCalibrationData.leaves.length).all
          (fun l => decide (552 ≤ l.1)) = true
      ∧ R16.tMKxCalibrationData.leaves.all (fun l => decide (l.1 + l.2 ≤ 552)) = true
      ∧ R16.CALIBRATION_VERSION = 1 ∧ R17.CALIBRATION_VERSION = 3 := by
  decide

/-! ## Status codes -/

set_option maxRecDepth 100000 in
/-- C12: in both revisions every named `eMKxStatus` value is `MKXSTATUS_SUCCESS` (0),
`MKXSTATUS_RESERVED` (0xC0DA) or a failure code at most -256, so no named code lies in the
range -255..-1 reserved for errno values; the only named codes inside
`MKXSTATUS_FAILURE_RADIOCONFIG_MIN .. MKXSTATUS_FAILURE_RADIOCONFIG_MAX` (-768..-513) are the
two bounds and, in r17.1, `MKXSTATUS_FAILURE_RADIOCONFIG_GENERIC` (-766). -/
theorem c12_status_partition :
    R16.eMKxStatus.all (fun e => decide (e.2 = 0 ∨ e.2 = 0xC0DA ∨ e.2 ≤ -256)) = true
      ∧ R17.eMKxStatus.all (fun e => decide (e.2 = 0 ∨ e.2 = 0xC0DA ∨ e.2 ≤ -256)) = true
      ∧ R16.eMKxStatus.lookup "MKXSTATUS_SUCCESS" = some 0
      ∧ R17.eMKxStatus.lookup "MKXSTATUS_SUCCESS" = some 0
      ∧ R16.eMKxStatus.lookup "MKXSTATUS_RESERVED" = some 0xC0DA
      ∧ R17.eMKxStatus.lookup "MKXSTATUS_RESERVED" = some 0xC0DA
      ∧ R16.eMKxStatus.filter (fun e => decide (-255 ≤ e.2 ∧ e.2 ≤ -1)) = []
      ∧ R17.eMKxStatus.filter (fun e => decide (-255 ≤ e.2 ∧ e.2 ≤ -1)) = []
      ∧ R16.eMKxStatus.lookup "MKXSTATUS_FAILURE_RADIOCONFIG_MIN" = some (-768)
      ∧ R16.eMKxStatus.lookup "MKXSTATUS_FAILURE_RADIOCONFIG_MAX" = some (-513)
      ∧ R17.eMKxStatus.lookup "MKXSTATUS_FAILURE_RADIOCONFIG_MIN" = some (-768)
      ∧ R17.eMKxStatus.lookup "MKXSTATUS_FAILURE_RADIOCONFIG_MAX" = some (-513)
      ∧ R16.eMKxStatus.filter (fun e => decide (-768 ≤ e.2 ∧ e.2 ≤ -513))
        = [("MKXSTATUS_FAILURE_RADIOCONFIG_MAX", -513),
           ("MKXSTATUS_FAILURE_RADIOCONFIG_MIN", -768)]
      ∧ R17.eMKxStatus.filter (fun e => decide (-768 ≤ e.2 ∧ e.2 ≤ -513))
        = [("MKXSTATUS_FAILURE_RADIOCONFIG_MAX", -513),
           ("MKXSTATUS_FAILURE_RADIOCONFIG_GENERIC", -766),
           ("MKXSTATUS_FAILURE_RADIOCONFIG_MIN", -768)] := by
  decide

set_option maxRecDepth 100000 in
/-- C13 (as stated, refuted): not every named `eMKxStatus` value lies in -32768..32767;
`MKXSTATUS_RESERVED` is 0xC0DA = 49370 in both revisions. -/
theorem c13_status_reserved_exceeds_int16 :
    ¬ (R16.eMKxStatus.all (fun e => decide (-32768 ≤ e.2 ∧ e.2 ≤ 32767)) = true
        ∧ R17.eMKxStatus.all (fun e => decide (-32768 ≤ e.2 ∧ e.2 ≤ 32767)) = true
        ∧ R17.eSAFErrorCode.all (fun e => decide (-32768 ≤ e.2 ∧ e.2 ≤ 32767)) = true) := by
  decide

set_option maxRecDepth 100000 in
/-- C13 (amended): every named value of `eMKxStatus` (both revisions) other than
`MKXSTATUS_RESERVED`, and every named value of `eSAFErrorCode` (r17.1), lies in
-32768..32767 and so fits the 16-bit signed `Ret` field of the message header;
`MKXSTATUS_RESERVED` = 0xC0DA = 49370 exceeds 32767 in both revisions. -/
theorem c13_status_codes_fit_ret :
    (R16.eMKxStatus.filter (fun e => e.1 ≠ "MKXSTATUS_RESERVED")).all
        (fun e => decide (-32768 ≤ e.2 ∧ e.2 ≤ 32767)) = true
      ∧ (R17.eMKxStatus.filter (fun e => e.1 ≠ "MKXSTATUS_RESERVED")).all
        (fun e => decide (-32768 ≤ e.2 ∧ e.2 ≤ 32767)) = true
      ∧ R17.eSAFErrorCode.all (fun e => decide (-32768 ≤ e.2 ∧ e.2 ≤ 32767)) = true
      ∧ R16.eMKxStatus.lookup "MKXSTATUS_RESERVED" = some 49370
      ∧ R17.eMKxStatus.lookup "MKXSTATUS_RESERVED" = some 49370
      ∧ (32767 : Int) < 49370
      ∧ (R16.tMKxIFMsg.member "Ret").bind CType.scalar = some (true, 2)
      ∧ (R17.tMKxIFMsg.member "Ret").bind CType.scalar = some (true, 2) := by
  decide

set_option maxRecDepth 100000 in
/-- C14: in r17.1 the only value that is both a named `eMKxStatus` code and a named
`eSAFErrorCode` code is 0: every non-zero `eSAFErrorCode` value lies in -32768..-10000, every
`eMKxStatus` failure code lies in -1102..-256 and `MKXSTATUS_RESERVED` is positive, so a
non-zero `Ret` value belongs to at most one of the two namespaces. -/
theorem c14_status_namespaces_disjoint :
    (R17.eMKxStatus.map (·.2)).filter (fun v => decide (v ∈ R17.eSAFErrorCode.map (·.2))) = [0]
      ∧ R17.eSAFErrorCode.all
          (fun e => decide (e.2 = 0 ∨ (-32768 ≤ e.2 ∧ e.2 ≤ -10000))) = true
      ∧ (R17.eMKxStatus.filter (fun e => decide (e.2 < 0))).all
          (fun e => decide (-1102 ≤ e.2 ∧ e.2 ≤ -256)) = true
      ∧ R17.eMKxStatus.filter (fun e => decide (0 < e.2)) = [("MKXSTATUS_RESERVED", 0xC0DA)]
      ∧ ∀ Ret : Int, Ret ≠ 0 →
          ¬ (Ret ∈ R17.eMKxStatus.map (·.2) ∧ Ret ∈ R17.eSAFErrorCode.map (·.2)) := by
  have hcommon : (R17.eMKxStatus.map (·.2)).filter
      (fun v => decide (v ∈ R17.eSAFErrorCode.map (·.2))) = [0] := by decide
  refine ⟨hcommon, by decide, by decide, by decide, ?_⟩
  intro Ret hne ⟨h1, h2⟩
  have hmem : Ret ∈ (R17.eMKxStatus.map (·.2)).filter
      (fun v => decide (v ∈ R17.eSAFErrorCode.map (·.2))) := by
    rw [List.mem_filter]
    exact ⟨h1, by simpa using h2⟩
  rw [hcommon] at hmem
  simp at hmem
  exact hne hmem

/-- C14 (instance): `MKXSTATUS_FAILURE_INVALID_HANDLE` = -258 is not in both namespaces. -/
theorem c14_status_namespaces_disjoint_witness :
    (-258 : Int) ≠ 0
      ∧ ¬ ((-258 : Int) ∈ R17.eMKxStatus.map (·.2)
            ∧ (-258 : Int) ∈ R17.eSAFErrorCode.map (·.2)) :=
  ⟨by decide, c14_status_namespaces_disjoint.2.2.2.2 (-258) (by decide)⟩

/-! ## The inline API wrappers -/

/-- C15: in both revisions `MKx_Config` returns `MKXSTATUS_FAILURE_INVALID_HANDLE` if the
handle is null or its `Magic` differs from `MKX_API_MAGIC` (0xC0DA); otherwise it returns
`MKXSTATUS_FAILURE_INVALID_PARAM` if `Radio > MKX_RADIO_MAX` or `pConfig` is null; otherwise
it calls `API.Functions.Config` exactly once with the same `(pMKx, Radio, pConfig)`, on the
memory as the caller left it, and returns that result unchanged.  The handle check comes
first, and in the failure cases nothing is called and nothing changes. -/
theorem c15_config_wrapper (API : tMKxFunctions) (w : World) (pMKx : Ptr) (Radio : Int)
    (pConfig : Ptr) :
    (R16.MKx_Config API pMKx Radio pConfig).run w
        = (if pMKx = Ptr.NULL ∨ w.mem.MKx.Magic ≠ 0xC0DA then
            (R16.MKXSTATUS_FAILURE_INVALID_HANDLE, w)
          else if Radio > R16.MKX_RADIO_MAX ∨ pConfig = Ptr.NULL then
            (R16.MKXSTATUS_FAILURE_INVALID_PARAM, w)
          else
            ((API.Config Radio w.mem).1,
              { w with mem := (API.Config Radio w.mem).2,
                       calls := w.calls ++ [Call.Config pMKx Radio pConfig w.mem] }))
      ∧ (R17.MKx_Config API pMKx Radio pConfig).run w
        = (if pMKx = Ptr.NULL ∨ w.mem.MKx.Magic ≠ 0xC0DA then
            (R17.MKXSTATUS_FAILURE_INVALID_HANDLE, w)
          else if Radio > R17.MKX_RADIO_MAX ∨ pConfig = Ptr.NULL then
            (R17.MKXSTATUS_FAILURE_INVALID_PARAM, w)
          else
            ((API.Config Radio w.mem).1,
              { w with mem := (API.Config Radio w.mem).2,
                       calls := w.calls ++ [Call.Config pMKx Radio pConfig w.mem] }))
      ∧ R16.MKX_API_MAGIC = 0xC0DA ∧ R17.MKX_API_MAGIC = 0xC0DA
      ∧ R16.eMKxStatus.lookup "MKXSTATUS_FAILURE_INVALID_HANDLE"
        = some R16.MKXSTATUS_FAILURE_INVALID_HANDLE
      ∧ R16.eMKxStatus.lookup "MKXSTATUS_FAILURE_INVALID_PARAM"
        = some R16.MKXSTATUS_FAILURE_INVALID_PARAM
      ∧ R17.eMKxStatus.lookup "MKXSTATUS_FAILURE_INVALID_HANDLE"
        = some R17.MKXSTATUS_FAILURE_INVALID_HANDLE
      ∧ R17.eMKxStatus.lookup "MKXSTATUS_FAILURE_INVALID_PARAM"
        = some R17.MKXSTATUS_FAILURE_INVALID_PARAM := by
  refine ⟨?_, ?_, by decide, by decide, by decide, by decide, by decide, by decide⟩
  · by_cases h1 : pMKx = Ptr.NULL
    · simp [R16.MKx_Config, StateT.run, h1, pure, StateT.pure]
    · by_cases h2 : w.mem.MKx.Magic = 0xC0DA
      · by_cases h3 : Radio > R16.MKX_RADIO_MAX
        · simp [R16.MKx_Config, StateT.run, h1, h2, h3, R16.MKX_API_MAGIC, bind, StateT.bind,
            get, getThe, MonadStateOf.get, StateT.get, pure, StateT.pure]
        · by_cases h4 : pConfig = Ptr.NULL
          · simp [R16.MKx_Config, StateT.run, h1, h2, h3, h4, R16.MKX_API_MAGIC, bind,
              StateT.bind, get, getThe, MonadStateOf.get, StateT.get, pure, StateT.pure]
          · simp [R16.MKx_Config, StateT.run, h1, h2, h3, h4, R16.MKX_API_MAGIC, bind,
              StateT.bind, get, getThe, MonadStateOf.get, StateT.get, pure, StateT.pure,
              invoke]
      · simp [R16.MKx_Config, StateT.run, h1, h2, R16.MKX_API_MAGIC, bind, StateT.bind,
          get, getThe, MonadStateOf.get, StateT.get, pure, StateT.pure]
  · by_cases h1 : pMKx = Ptr.NULL
    · simp [R17.MKx_Config, StateT.run, h1, pure, StateT.pure, bind, StateT.bind]
    · by_cases h2 : w.mem.MKx.Magic = 0xC0DA
      · by_cases h3 : Radio > R17.MKX_RADIO_MAX
        · simp [R17.MKx_Config, StateT.run, h1, h2, h3, R17.MKX_API_MAGIC, bind, StateT.bind,
            get, getThe, MonadStateOf.get, StateT.get, pure, StateT.pure]
        · by_cases h4 : pConfig = Ptr.NULL
          · simp [R17.MKx_Config, StateT.run, h1, h2, h3, h4, R17.MKX_API_MAGIC, bind,
              StateT.bind, get, getThe, MonadStateOf.get, StateT.get, pure, StateT.pure]
          · simp [R17.MKx_Config, StateT.run, h1, h2, h3, h4, R17.MKX_API_MAGIC, bind,
              StateT.bind, get, getThe, MonadStateOf.get, StateT.get, pure, StateT.pure,
              invoke]
      · simp [R17.MKx_Config, StateT.run, h1, h2, R17.MKX_API_MAGIC, bind, StateT.bind,
          get, getThe, MonadStateOf.get, StateT.get, pure, StateT.pure]

/-- C16 (evaluation of the code): in r16 `MKx_GetTSFReq` returns 0, which is
`MKXSTATUS_SUCCESS`, when the handle is null or its `Magic` is wrong, without calling
`API.Functions.GetTSFReq`; in r17.1 the same inputs give
`MKXSTATUS_FAILURE_INVALID_HANDLE`.  With a valid handle both revisions forward to
`API.Functions.GetTSFReq` and return its result. -/
theorem c16_getTSFReq_invalid_handle (API : tMKxFunctions) (w : World) (pMKx : Ptr) :
    (R16.MKx_GetTSFReq API Ptr.NULL).run w = (R16.MKXSTATUS_SUCCESS, w)
      ∧ (R16.MKx_GetTSFReq API pMKx).run w
        = (if pMKx = Ptr.NULL ∨ w.mem.MKx.Magic ≠ 0xC0DA then
            (R16.MKXSTATUS_SUCCESS, w)
          else
            ((API.GetTSFReq w.mem).1,
              { w with mem := (API.GetTSFReq w.mem).2,
                       calls := w.calls ++ [Call.GetTSFReq pMKx w.mem] }))
      ∧ (R17.MKx_GetTSFReq API pMKx).run w
        = (if pMKx = Ptr.NULL ∨ w.mem.MKx.Magic ≠ 0xC0DA then
            (R17.MKXSTATUS_FAILURE_INVALID_HANDLE, w)
          else
            ((API.GetTSFReq w.mem).1,
              { w with mem := (API.GetTSFReq w.mem).2,
                       calls := w.calls ++ [Call.GetTSFReq pMKx w.mem] }))
      ∧ R16.MKXSTATUS_SUCCESS ≠ R16.MKXSTATUS_FAILURE_INVALID_HANDLE
      ∧ R16.eMKxStatus.lookup "MKXSTATUS_SUCCESS" = some R16.MKXSTATUS_SUCCESS := by
  refine ⟨?_, ?_, ?_, by decide, by decide⟩
  · simp [R16.MKx_GetTSFReq, StateT.run, pure, StateT.pure, R16.MKXSTATUS_SUCCESS]
  · by_cases h1 : pMKx = Ptr.NULL
    · simp [R16.MKx_GetTSFReq, StateT.run, h1, pure, StateT.pure, R16.MKXSTATUS_SUCCESS]
    · by_cases h2 : w.mem.MKx.Magic = 0xC0DA
      · simp [R16.MKx_GetTSFReq, StateT.run, h1, h2, R16.MKX_API_MAGIC, bind, StateT.bind,
          get, getThe, MonadStateOf.get, StateT.get, pure, StateT.pure, invoke]
      · simp [R16.MKx_GetTSFReq, StateT.run, h1, h2, R16.MKX_API_MAGIC, bind, StateT.bind,
          get, getThe, MonadStateOf.get, StateT.get, pure, StateT.pure,
          R16.MKXSTATUS_SUCCESS]
  · by_cases h1 : pMKx = Ptr.NULL
    · simp [R17.MKx_GetTSFReq, StateT.run, h1, pure, StateT.pure, bind, StateT.bind]
    · by_cases h2 : w.mem.MKx.Magic = 0xC0DA
      · simp [R17.MKx_GetTSFReq, StateT.run, h1, h2, R17.MKX_API_MAGIC, bind, StateT.bind,
          get, getThe, MonadStateOf.get, StateT.get, pure, StateT.pure, invoke]
      · simp [R17.MKx_GetTSFReq, StateT.run, h1, h2, R17.MKX_API_MAGIC, bind, StateT.bind,
          get, getThe, MonadStateOf.get, StateT.get, pure, StateT.pure]

/-- C17 (evaluation of the code): in r16, where `tMKxRadio` is `int8_t`, `MKx_GetStats` on a
handle with a valid `Magic`, `Radio = -1` and a non-null `pStats` passes the check
`Radio > MKX_RADIO_MAX`, reads `State.Stats[-1]` and returns `MKXSTATUS_SUCCESS`.  In r17.1,
where `tMKxRadio` is `uint8_t`, every call either returns without reading the statistics or
reads `State.Stats[Radio]` with `0 <= Radio <= MKX_RADIO_MAX`. -/
theorem c17_getStats_bounds (w : World) (pMKx pStats : Ptr) (Radio : Fin 256) :
    ((R16.MKx_GetStats Ptr.object (-1) Ptr.object).run
        { w with mem := { w.mem with MKx := { w.mem.MKx with Magic := R16.MKX_API_MAGIC } } }).1
        = R16.MKXSTATUS_SUCCESS
      ∧ ((R16.MKx_GetStats Ptr.object (-1) Ptr.object).run
        { w with mem := { w.mem with MKx := { w.mem.MKx with Magic := R16.MKX_API_MAGIC } } }).2.statsReads
        = w.statsReads ++ [-1]
      ∧ ((-128 : Int) ≤ -1 ∧ (-1 : Int) ≤ 127)
      ∧ ¬ ((0 : Int) ≤ -1 ∧ (-1 : Int) ≤ R16.MKX_RADIO_MAX)
      ∧ (((R17.MKx_GetStats pMKx Radio.val pStats).run w).2.statsReads = w.statsReads
          ∨ (((R17.MKx_GetStats pMKx Radio.val pStats).run w).2.statsReads
                = w.statsReads ++ [(Radio.val : Int)]
              ∧ (0 : Int) ≤ Radio.val ∧ (Radio.val : Int) ≤ R17.MKX_RADIO_MAX
              ∧ Radio.val < R17.MKX_RADIO_COUNT)) := by
  refine ⟨?_, ?_, by decide, by decide, ?_⟩
  · simp [R16.MKx_GetStats, StateT.run, R16.MKX_API_MAGIC, R16.MKX_RADIO_MAX,
      R16.MKX_RADIO_COUNT, bind, StateT.bind, get, getThe, MonadStateOf.get, StateT.get, pure,
      StateT.pure, memcpy, readStats, modify, modifyGet, MonadStateOf.modifyGet,
      StateT.modifyGet]
  · simp [R16.MKx_GetStats, StateT.run, R16.MKX_API_MAGIC, R16.MKX_RADIO_MAX,
      R16.MKX_RADIO_COUNT, bind, StateT.bind, get, getThe, MonadStateOf.get, StateT.get, pure,
      StateT.pure, memcpy, readStats, modify, modifyGet, MonadStateOf.modifyGet,
      StateT.modifyGet]
  · by_cases h1 : pMKx = Ptr.NULL
    · left
      simp [R17.MKx_GetStats, StateT.run, h1, pure, StateT.pure, bind, StateT.bind]
    · by_cases h2 : w.mem.MKx.Magic = 0xC0DA
      · by_cases h3 : (Radio.val : Int) > R17.MKX_RADIO_MAX
        · left
          simp [R17.MKx_GetStats, StateT.run, h1, h2, h3, R17.MKX_API_MAGIC, bind,
            StateT.bind, get, getThe, MonadStateOf.get, StateT.get, pure, StateT.pure]
        · by_cases h4 : pStats = Ptr.NULL
          · left
            simp [R17.MKx_GetStats, StateT.run, h1, h2, h3, h4, R17.MKX_API_MAGIC, bind,
              StateT.bind, get, getThe, MonadStateOf.get, StateT.get, pure, StateT.pure]
          · right
            refine ⟨?_, by omega, by omega, ?_⟩
            · simp [R17.MKx_GetStats, StateT.run, h1, h2, h3, h4, R17.MKX_API_MAGIC, bind,
                StateT.bind, get, getThe, MonadStateOf.get, StateT.get, pure, StateT.pure,
                memcpy, readStats, modify, modifyGet, MonadStateOf.modifyGet,
                StateT.modifyGet]
            · simp only [R17.MKX_RADIO_MAX, R17.MKX_RADIO_COUNT] at h3 ⊢
              omega
      · left
        simp [R17.MKx_GetStats, StateT.run, h1, h2, R17.MKX_API_MAGIC, bind, StateT.bind,
          get, getThe, MonadStateOf.get, StateT.get, pure, StateT.pure]

/-- C18: in both revisions, on a valid handle and a non-null `pCfg` pointing to a
`tMKxAuxADCConfig` message, `MKx_GetAuxADCCfg` invokes `API.Functions.AuxADCCfg` once, with
the four bytes of `pCfg->AuxADCConfigData.ConfigRegister` set to 0xFF, so that the register
reads 0xFFFFFFFF, the value `-1U` that the documentation of `fMKx_AuxADCCfg` defines as the
request that changes no setting; the handle and the message header of `pCfg` are as the
caller left them when the call is made. -/
theorem c18_getAuxADCCfg_request (API : tMKxFunctions) (w : World) (pMKx pCfg : Ptr)
    (hMKx : pMKx ≠ Ptr.NULL) (hMagic : w.mem.MKx.Magic = 0xC0DA) (hCfg : pCfg ≠ Ptr.NULL) :
    (w.mem.buf.length = R16.tMKxAuxADCConfig.sizeof →
        ((R16.MKx_GetAuxADCCfg API pMKx pCfg).run w).2.calls
            = w.calls ++ [Call.AuxADCCfg pMKx pCfg
                { w.mem with buf := w.mem.buf.take 8 ++ [255, 255, 255, 255] }]
          ∧ (w.mem.buf.take 8 ++ [255, 255, 255, 255]).take R16.tMKxIFMsg.sizeof
            = w.mem.buf.take R16.tMKxIFMsg.sizeof
          ∧ decode .uint32_t (((w.mem.buf.take 8 ++ [255, 255, 255, 255]).drop 8).take 4)
            = some (.int 0xFFFFFFFF))
      ∧ (w.mem.buf.length = R17.tMKxAuxADCConfig.sizeof →
        ((R17.MKx_GetAuxADCCfg API pMKx pCfg).run w).2.calls
            = w.calls ++ [Call.AuxADCCfg pMKx pCfg
                { w.mem with buf := w.mem.buf.take 12 ++ [255, 255, 255, 255] }]
          ∧ (w.mem.buf.take 12 ++ [255, 255, 255, 255]).take R17.tMKxIFMsg.sizeof
            = w.mem.buf.take R17.tMKxIFMsg.sizeof
          ∧ decode .uint32_t (((w.mem.buf.take 12 ++ [255, 255, 255, 255]).drop 12).take 4)
            = some (.int 0xFFFFFFFF))
      ∧ R16.tMKxAuxADCConfig.offsetofPath ["AuxADCConfigData", "ConfigRegister"] = some 8
      ∧ R17.tMKxAuxADCConfig.offsetofPath ["AuxADCConfigData", "ConfigRegister"] = some 12
      ∧ (R16.tMKxAuxADCConfigData.member "ConfigRegister").bind CType.scalar = some (false, 4)
      ∧ (R17.tMKxAuxADCConfigData.member "ConfigRegister").bind CType.scalar = some (false, 4)
      ∧ (0xFFFFFFFF : Int) = 2 ^ 32 - 1 := by
  have o16 : R16.tMKxAuxADCConfig.offsetof "AuxADCConfigData" = some 8 := by decide
  have s16 : R16.tMKxAuxADCConfigData.sizeof = 4 := by decide
  have m16 : R16.tMKxAuxADCConfig.sizeof = 12 := by decide
  have h16 : R16.tMKxIFMsg.sizeof = 8 := by decide
  have o17 : R17.tMKxAuxADCConfig.offsetof "AuxADCConfigData" = some 12 := by decide
  have s17 : R17.tMKxAuxADCConfigData.sizeof = 4 := by decide
  have m17 : R17.tMKxAuxADCConfig.sizeof = 16 := by decide
  have h17 : R17.tMKxIFMsg.sizeof = 12 := by decide
  refine ⟨?_, ?_, by decide, by decide, by decide, by decide, by norm_num⟩
  · intro hlen
    rw [m16] at hlen
    have htake : (w.mem.buf.take 8).length = 8 := by simp [hlen]
    refine ⟨?_, ?_, ?_⟩
    · simp [R16.MKx_GetAuxADCCfg, StateT.run, hMKx, hMagic, hCfg, o16, s16, R16.MKX_API_MAGIC,
        bind, StateT.bind, get, getThe, MonadStateOf.get, StateT.get, pure, StateT.pure,
        memcpy, memset, invoke, storeAt, modify, modifyGet, MonadStateOf.modifyGet,
        StateT.modifyGet, List.replicate, List.drop_eq_nil_of_le, hlen]
    · rw [h16, List.take_left' htake]
    · rw [List.drop_left' htake]
      rfl
  · intro hlen
    rw [m17] at hlen
    have htake : (w.mem.buf.take 12).length = 12 := by simp [hlen]
    refine ⟨?_, ?_, ?_⟩
    · simp [R17.MKx_GetAuxADCCfg, StateT.run, hMKx, hMagic, hCfg, o17, s17, R17.MKX_API_MAGIC,
        bind, StateT.bind, get, getThe, MonadStateOf.get, StateT.get, pure, StateT.pure,
        memcpy, memset, invoke, storeAt, modify, modifyGet, MonadStateOf.modifyGet,
        StateT.modifyGet, List.replicate, List.drop_eq_nil_of_le, hlen]
    · rw [h17, List.take_left' htake]
    · rw [List.drop_left' htake]
      rfl

/-- C18 (instance): an r16 message with header bytes 1..8 and register bytes 0, and an
r17.1 message with header bytes 1..12, on a handle with a valid `Magic`. -/
theorem c18_getAuxADCCfg_request_witness :
    (Ptr.object ≠ Ptr.NULL ∧ (0xC0DA : Nat) = 0xC0DA)
      ∧ ((R16.MKx_GetAuxADCCfg ⟨fun _ m => (0, m), fun m => (0, m), fun m => (-256, m)⟩
            Ptr.object Ptr.object).run
          ⟨⟨⟨0xC0DA, ⟨[], [], []⟩, ⟨[], [], [7, 0, 0, 0]⟩⟩, [1, 2, 3, 4, 5, 6, 7, 8, 0, 0, 0, 0]⟩,
            [], [], []⟩).2.calls
        = [Call.AuxADCCfg Ptr.object Ptr.object
            ⟨⟨0xC0DA, ⟨[], [], []⟩, ⟨[], [], [7, 0, 0, 0]⟩⟩,
              [1, 2, 3, 4, 5, 6, 7, 8, 255, 255, 255, 255]⟩]
      ∧ ((R17.MKx_GetAuxADCCfg ⟨fun _ m => (0, m), fun m => (0, m), fun m => (-257, m)⟩
            Ptr.object Ptr.object).run
          ⟨⟨⟨0xC0DA, ⟨[], [], []⟩, ⟨[], [], [7, 0, 0, 0]⟩⟩,
              [1, 2, 3, 4, 5, 6, 7, 8, 9, 10, 11, 12, 0, 0, 0, 0]⟩, [], [], []⟩).2.calls
        = [Call.AuxADCCfg Ptr.object Ptr.object
            ⟨⟨0xC0DA, ⟨[], [], []⟩, ⟨[], [], [7, 0, 0, 0]⟩⟩,
              [1, 2, 3, 4, 5, 6, 7, 8, 9, 10, 11, 12, 255, 255, 255, 255]⟩] :=
  ⟨⟨by decide, rfl⟩,
    ((c18_getAuxADCCfg_request ⟨fun _ m => (0, m), fun m => (0, m), fun m => (-256, m)⟩
      ⟨⟨⟨0xC0DA, ⟨[], [], []⟩, ⟨[], [], [7, 0, 0, 0]⟩⟩, [1, 2, 3, 4, 5, 6, 7, 8, 0, 0, 0, 0]⟩,
        [], [], []⟩ Ptr.object Ptr.object (by decide) rfl (by decide)).1 (by decide)).1,
    ((c18_getAuxADCCfg_request ⟨fun _ m => (0, m), fun m => (0, m), fun m => (-257, m)⟩
      ⟨⟨⟨0xC0DA, ⟨[], [], []⟩, ⟨[], [], [7, 0, 0, 0]⟩⟩,
          [1, 2, 3, 4, 5, 6, 7, 8, 9, 10, 11, 12, 0, 0, 0, 0]⟩, [], [], []⟩
      Ptr.object Ptr.object (by decide) rfl (by decide)).2.1 (by decide)).1⟩

/-! ## Round trip of the object representation -/

/-- The little-endian representation on `n` bytes has `n` bytes. -/
theorem leBytes_length (n v : Nat) : (leBytes n v).length = n := by
  induction n generalizing v with
  | zero => rfl
  | succ n ih => simp [leBytes, ih]

/-- The value of the `n` little-endian bytes of `v` is `v` modulo `256 ^ n`. -/
theorem leValue_leBytes (n v : Nat) : leValue (leBytes n v) = v % 256 ^ n := by
  induction n generalizing v with
  | zero => simp [leBytes, leValue, Nat.mod_one]
  | succ n ih =>
    simp only [leBytes, leValue, ih]
    rw [pow_succ, Nat.mul_comm (256 ^ n) 256, Nat.mod_mul]

/-- An `n`-byte integer is encoded on `n` bytes. -/
theorem encodeInt_length (n : Nat) (v : Int) : (encodeInt n v).length = n := by
  simp [encodeInt, leBytes_length]

/-- A byte count as a bit count: `256 ^ n = 2 ^ (8 n)`. -/
theorem pow_256_eq (n : Nat) : (256 : Nat) ^ n = 2 ^ (8 * n) := by
  rw [pow_mul]; norm_num

/-- Reading back the encoding of an unsigned integer that fits its type gives the integer. -/
theorem decodeInt_encodeInt_unsigned (n : Nat) (v : Int) (h : intInRange false n v = true) :
    decodeInt false n (encodeInt n v) = some (.int v) := by
  simp only [intInRange, Bool.false_eq_true, if_false, decide_eq_true_eq] at h
  obtain ⟨h0, h1⟩ := h
  have hmod : v % 2 ^ (8 * n) = v := Int.emod_eq_of_lt h0 h1
  simp only [decodeInt, encodeInt, leBytes_length, if_true, Bool.false_eq_true, if_false,
    leValue_leBytes, hmod, pow_256_eq]
  congr 2
  have hv : ((v.toNat : Nat) : Int) = v := Int.toNat_of_nonneg h0
  have hlt : v.toNat < 2 ^ (8 * n) := by
    have : ((v.toNat : Nat) : Int) < ((2 ^ (8 * n) : Nat) : Int) := by
      rw [hv]; exact_mod_cast h1
    exact_mod_cast this
  rw [Nat.mod_eq_of_lt hlt, hv]

/-- Reading back the two's complement encoding of a signed integer that fits its type gives
the integer. -/
theorem decodeInt_encodeInt_signed (n : Nat) (hn : 0 < n) (v : Int)
    (h : intInRange true n v = true) :
    decodeInt true n (encodeInt n v) = some (.int v) := by
  simp only [intInRange, if_true, decide_eq_true_eq] at h
  obtain ⟨h0, h1⟩ := h
  have hpow : (2 : Int) ^ (8 * n) = 2 * 2 ^ (8 * n - 1) := by
    rw [← pow_succ']
    congr 1
    omega
  have hpos : (0 : Int) < 2 ^ (8 * n - 1) := by positivity
  simp only [decodeInt, encodeInt, leBytes_length, if_true, leValue_leBytes, pow_256_eq]
  congr 2
  have hm0 : 0 ≤ v % 2 ^ (8 * n) := Int.emod_nonneg _ (by positivity)
  have hm1 : v % 2 ^ (8 * n) < 2 ^ (8 * n) := Int.emod_lt_of_pos _ (by positivity)
  have hv : (((v % 2 ^ (8 * n)).toNat : Nat) : Int) = v % 2 ^ (8 * n) := Int.toNat_of_nonneg hm0
  have hlt : (v % 2 ^ (8 * n)).toNat < 2 ^ (8 * n) := by
    have : (((v % 2 ^ (8 * n)).toNat : Nat) : Int) < ((2 ^ (8 * n) : Nat) : Int) := by
      rw [hv]; exact_mod_cast hm1
    exact_mod_cast this
  rw [Nat.mod_eq_of_lt hlt]
  unfold toSigned
  have hcast : (((2 : Nat) ^ (8 * n - 1) : Nat) : Int) = (2 : Int) ^ (8 * n - 1) := by
    push_cast; rfl
  by_cases hneg : 0 ≤ v
  · have hmod : v % 2 ^ (8 * n) = v := Int.emod_eq_of_lt hneg (by rw [hpow]; omega)
    have hc : (v % 2 ^ (8 * n)).toNat < 2 ^ (8 * n - 1) := by
      have : (((v % 2 ^ (8 * n)).toNat : Nat) : Int) < (((2 : Nat) ^ (8 * n - 1) : Nat) : Int) := by
        rw [hv, hmod, hcast]; exact h1
      exact_mod_cast this
    rw [if_pos hc, hv, hmod]
  · have hmod : v % 2 ^ (8 * n) = v + 2 ^ (8 * n) := by
      rw [← Int.add_emod_self]
      exact Int.emod_eq_of_lt (by rw [hpow]; omega) (by omega)
    have hc : ¬ (v % 2 ^ (8 * n)).toNat < 2 ^ (8 * n - 1) := by
      intro hc
      have : (((v % 2 ^ (8 * n)).toNat : Nat) : Int) < (((2 : Nat) ^ (8 * n - 1) : Nat) : Int) := by
        exact_mod_cast hc
      rw [hv, hmod, hcast, hpow] at this
      omega
    rw [if_neg hc, hv, hmod]
    omega

/-- Visiting a list by index is visiting its elements. -/
theorem flatMap_range_getD {α β : Type} (f : α → List β) (d : α) (vs : List α) :
    (List.range vs.length).flatMap (fun i => f (vs.getD i d)) = vs.flatMap f := by
  induction vs with
  | nil => rfl
  | cons a rest ih =>
    rw [List.length_cons, List.range_succ_eq_map, List.flatMap_cons, List.flatMap_cons,
      List.flatMap_map]
    simp only [List.getD_cons_zero, List.getD_cons_succ]
    rw [ih]

/-- Cutting the concatenation of pieces of `k` bytes into pieces of `k` bytes gives the
pieces back. -/
theorem chunks_flatMap {α : Type} (k : Nat) (g : α → List Nat) (vs : List α)
    (h : ∀ v ∈ vs, (g v).length = k) :
    chunks k vs.length (vs.flatMap g) = vs.map g := by
  induction vs with
  | nil => rfl
  | cons a rest ih =>
    have ha : (g a).length = k := h a (List.mem_cons_self _ _)
    have hr : ∀ v ∈ rest, (g v).length = k := fun v hv => h v (List.mem_cons_of_mem _ hv)
    simp only [List.length_cons, chunks, List.flatMap_cons, List.map_cons]
    rw [List.take_left' ha, List.drop_left' ha, ih hr]

/-- The concatenation of pieces of `k` bytes has `k` bytes per piece. -/
theorem length_flatMap_const {α : Type} (k : Nat) (g : α → List Nat) (vs : List α)
    (h : ∀ v ∈ vs, (g v).length = k) : (vs.flatMap g).length = vs.length * k := by
  induction vs with
  | nil => simp
  | cons a rest ih =>
    have ha : (g a).length = k := h a (List.mem_cons_self _ _)
    have hr : ∀ v ∈ rest, (g v).length = k := fun v hv => h v (List.mem_cons_of_mem _ hv)
    simp only [List.flatMap_cons, List.length_append, List.length_cons, ha, ih hr]
    ring

/-- A list of results none of which is missing. -/
theorem allSome_map {α β : Type} (g : α → Option β) (r : α → β) (vs : List α)
    (h : ∀ v ∈ vs, g v = some (r v)) : allSome (vs.map g) = some (vs.map r) := by
  induction vs with
  | nil => rfl
  | cons a rest ih =>
    have ha := h a (List.mem_cons_self _ _)
    have hr : ∀ v ∈ rest, g v = some (r v) := fun v hv => h v (List.mem_cons_of_mem _ hv)
    simp only [List.map_cons, ha, allSome, ih hr, Option.map_some']

/-! The round trip proper, by recursion over the type. -/

mutual
/-- Round trip of a value of any type. -/
theorem decode_encode_aux : ∀ (t : CType) (v : CVal), CVal.hasType t v = true →
    decode t (encode t v) = some v ∧ (encode t v).length = t.sizeof
  | .uint8_t, v, h => by
    cases v <;> simp [CVal.hasType, CVal.isInt, CVal.toInt] at h
    exact ⟨decodeInt_encodeInt_unsigned 1 _ h, encodeInt_length _ _⟩
  | .int8_t, v, h => by
    cases v <;> simp [CVal.hasType, CVal.isInt, CVal.toInt] at h
    exact ⟨decodeInt_encodeInt_signed 1 (by decide) _ h, encodeInt_length _ _⟩
  | .uint16_t, v, h => by
    cases v <;> simp [CVal.hasType, CVal.isInt, CVal.toInt] at h
    exact ⟨decodeInt_encodeInt_unsigned 2 _ h, encodeInt_length _ _⟩
  | .int16_t, v, h => by
    cases v <;> simp [CVal.hasType, CVal.isInt, CVal.toInt] at h
    exact ⟨decodeInt_encodeInt_signed 2 (by decide) _ h, encodeInt_length _ _⟩
  | .uint32_t, v, h => by
    cases v <;> simp [CVal.hasType, CVal.isInt, CVal.toInt] at h
    exact ⟨decodeInt_encodeInt_unsigned 4 _ h, encodeInt_length _ _⟩
  | .int32_t, v, h => by
    cases v <;> simp [CVal.hasType, CVal.isInt, CVal.toInt] at h
    exact ⟨decodeInt_encodeInt_signed 4 (by decide) _ h, encodeInt_length _ _⟩
  | .uint64_t, v, h => by
    cases v <;> simp [CVal.hasType, CVal.isInt, CVal.toInt] at h
    exact ⟨decodeInt_encodeInt_unsigned 8 _ h, encodeInt_length _ _⟩
  | .array e n, v, h => by
    cases v with
    | int x => simp [CVal.hasType, CVal.isAgg] at h
    | raw x => simp [CVal.hasType, CVal.isAgg] at h
    | agg vs =>
      simp only [CVal.hasType, CVal.isAgg, CVal.items, Bool.true_and, Bool.and_eq_true,
        decide_eq_true_eq, List.all_eq_true] at h
      obtain ⟨hlen, hall⟩ := h
      have ih : ∀ x ∈ vs, decode e (encode e x) = some x ∧ (encode e x).length = e.sizeof :=
        fun x hx => decode_encode_aux e x (hall x hx)
      have henc : encode (.array e n) (.agg vs) = vs.flatMap (fun x => encode e x) := by
        simp only [encode, CVal.items]
        rw [← hlen]
        exact flatMap_range_getD (fun x => encode e x) (.int 0) vs
      rw [henc]
      constructor
      · simp only [decode]
        rw [← hlen, chunks_flatMap e.sizeof (fun x => encode e x) vs (fun x hx => (ih x hx).2),
          List.map_map]
        rw [allSome_map _ id vs (fun x hx => by simpa using (ih x hx).1)]
        simp
      · rw [length_flatMap_const e.sizeof _ vs (fun x hx => (ih x hx).2), hlen]
        simp [CType.sizeof]
  | .struct fs, v, h => by
    cases v with
    | int x => simp [CVal.hasType, CVal.isAgg] at h
    | raw x => simp [CVal.hasType, CVal.isAgg] at h
    | agg vs =>
      simp only [CVal.hasType, CVal.isAgg, CVal.items, Bool.true_and] at h
      have ih := decodeFields_encodeFields_aux fs vs h
      simp only [encode, decode, CVal.items, ih.1, ih.2, CType.sizeof, Option.map_some',
        and_self]
  | .union ms, v, h => by
    cases v with
    | int x => simp [CVal.hasType, CVal.isRaw] at h
    | agg x => simp [CVal.hasType, CVal.isRaw] at h
    | raw bs =>
      simp only [CVal.hasType, CVal.isRaw, CVal.bytes, Bool.true_and, Bool.and_eq_true,
        decide_eq_true_eq, List.all_eq_true] at h
      obtain ⟨hlen, hall⟩ := h
      have henc : encode (.union ms) (.raw bs) = bs := by
        simp only [encode, CVal.bytes]
        rw [← hlen]
        apply List.ext_getElem
        · simp
        · intro i h1 h2
          simp only [List.getElem_map, List.getElem_range]
          rw [List.getD_eq_getElem _ _ h2]
          exact Nat.mod_eq_of_lt (hall _ (List.getElem_mem _))
      rw [henc]
      simp [decode, hlen, CType.sizeof]
/-- Round trip of the members of a structure. -/
theorem decodeFields_encodeFields_aux : ∀ (fs : List (String × CType)) (vs : List CVal),
    CVal.hasTypeFields fs vs = true →
    decodeFields fs (encodeFields fs vs) = some vs ∧
      (encodeFields fs vs).length = CType.sizeofFields fs
  | [], vs, h => by
    simp only [CVal.hasTypeFields, List.isEmpty_eq_true] at h
    subst h
    simp [decodeFields, encodeFields, CType.sizeofFields]
  | f :: rest, vs, h => by
    cases vs with
    | nil => simp [CVal.hasTypeFields] at h
    | cons v vs' =>
      simp only [CVal.hasTypeFields, List.isEmpty_cons, Bool.not_false, Bool.true_and,
        List.headD_cons, List.tail_cons, Bool.and_eq_true] at h
      have ih1 := decode_encode_aux f.2 v h.1
      have ih2 := decodeFields_encodeFields_aux rest vs' h.2
      simp only [encodeFields, decodeFields, List.headD_cons, List.tail_cons,
        List.take_left' ih1.2, List.drop_left' ih1.2, ih1.1, ih2.1, List.length_append,
        ih1.2, ih2.2, CType.sizeofFields, and_self]
end


/-- C20: the radio configuration layouts of the two revisions are incompatible:
`tMKxTxQConfig` is 6 bytes in r16 and 8 bytes in r17.1; `tMKxChanConfigMAC` is 174 bytes in
r16 (`TxQueue` at offset 10, `AMSTable` at 40, `ShortRetryLimit`, `LongRetryLimit`,
`RTSCTSThreshold` at 168, 170, 172) and 188 bytes in r17.1 (`RTSCTSThreshold`,
`ShortRetryLimit`, `LongRetryLimit` at 14, 16, 18, `TxQueue` at 20, `AMSTable` at 60);
`tMKxChanConfig` is 190 and 204 bytes; the complete `tMKxRadioConfig` message is 392 bytes
in r16 and 424 bytes in r17.1; neither payload layout is a prefix of the other. -/
theorem c20_radio_config_layouts :
    R16.tMKxTxQConfig.sizeof = 6 ∧ R17.tMKxTxQConfig.sizeof = 8
      ∧ R16.tMKxChanConfigMAC.sizeof = 174
      ∧ R16.tMKxChanConfigMAC.offsetof "TxQueue" = some 10
      ∧ R16.tMKxChanConfigMAC.offsetof "AMSTable" = some 40
      ∧ R16.tMKxChanConfigMAC.offsetof "ShortRetryLimit" = some 168
      ∧ R16.tMKxChanConfigMAC.offsetof "LongRetryLimit" = some 170
      ∧ R16.tMKxChanConfigMAC.offsetof "RTSCTSThreshold" = some 172
      ∧ R17.tMKxChanConfigMAC.sizeof = 188
      ∧ R17.tMKxChanConfigMAC.offsetof "RTSCTSThreshold" = some 14
      ∧ R17.tMKxChanConfigMAC.offsetof "ShortRetryLimit" = some 16
      ∧ R17.tMKxChanConfigMAC.offsetof "LongRetryLimit" = some 18
      ∧ R17.tMKxChanConfigMAC.offsetof "TxQueue" = some 20
      ∧ R17.tMKxChanConfigMAC.offsetof "AMSTable" = some 60
      ∧ R16.tMKxChanConfig.sizeof = 190 ∧ R17.tMKxChanConfig.sizeof = 204
      ∧ R16.tMKxRadioConfig.sizeof = 392 ∧ R17.tMKxRadioConfig.sizeof = 424
      ∧ R16.tMKxRadioConfigData.layout.isPrefixOf R17.tMKxRadioConfigData.layout = false
      ∧ R17.tMKxRadioConfigData.layout.isPrefixOf R16.tMKxRadioConfigData.layout = false
      ∧ R16.tMKxRadioConfigData.leaves.isPrefixOf R17.tMKxRadioConfigData.leaves = false
      ∧ R17.tMKxRadioConfigData.leaves.isPrefixOf R16.tMKxRadioConfigData.leaves = false := by
  decide

/-! ## The `Get` helpers -/

/-- Reading back what `storeAt` stored: when the stored bytes lie within the resulting
object, the bytes at the offset are the stored ones. -/
theorem storeAt_read (obj src : Bytes) (off : Nat)
    (h : off + src.length ≤ (storeAt obj off src).length) :
    ((storeAt obj off src).drop off).take src.length = src := by
  have hlen : off ≤ obj.length := by
    by_contra hc
    simp only [storeAt, List.length_append, List.length_take, List.length_drop] at h
    omega
  have htake : (obj.take off).length = off := by simp [hlen]
  unfold storeAt
  rw [List.append_assoc, List.drop_left' htake, List.take_left' rfl]

/-- C21: on a non-null handle with the right `Magic`, `Radio` in {0, 1} and a non-null
output pointer, each of `MKx_GetStats`, `MKx_GetAuxADC`, `MKx_GetAuxADCCfg`, `MKx_GetTemp` and
`MKx_GetCalibration` of either revision returns `MKXSTATUS_SUCCESS`, whatever the functions
of `API.Functions` return, and leaves the memory as the device function left it (as the
caller left it for the two helpers that call none) except that the field of the handle
(`State.Stats[Radio]`, `State.AuxADC`, `Config.AuxADC`, `State.Temp`, `Config.Calibration`),
read after the device function has run, is stored in the caller's buffer: at offset 0 of the
data structure `pStats` or `pAuxADCData` points to, at the offset of the data member of the
message `pCfg`, `pTemp` or `pCalib` points to.  A field that has the size of its type is then
exactly what the buffer holds at that offset. -/
theorem c21_get_helpers_copy_handle_field (API : MKxFunctions) (w : World) (pMKx pOut : Ptr)
    (Radio : Int) (hMKx : pMKx ≠ Ptr.NULL) (hMagic : w.mem.MKx.Magic = 0xC0DA)
    (hRadio : 0 ≤ Radio ∧ Radio ≤ 1) (hOut : pOut ≠ Ptr.NULL) :
    ((R16.MKx_GetStats pMKx Radio pOut).run w).1 = R16.MKXSTATUS_SUCCESS
      ∧ (let n := R16.tMKxRadioStats.sizeof
         ((R16.MKx_GetStats pMKx Radio pOut).run w).2.mem
           = { w.mem with
               buf := storeAt w.mem.buf 0 ((w.mem.MKx.State.Stats.getD Radio.toNat []).take n) })
      ∧ ((R16.MKx_GetAuxADC pMKx pOut).run w).1 = R16.MKXSTATUS_SUCCESS
      ∧ (let n := R16.tMKxAuxADCData.sizeof
         ((R16.MKx_GetAuxADC pMKx pOut).run w).2.mem
           = { w.mem with buf := storeAt w.mem.buf 0 (w.mem.MKx.State.AuxADC.take n) })
      ∧ ((R16.MKx_GetAuxADCCfg API.totMKxFunctions pMKx pOut).run w).1 = R16.MKXSTATUS_SUCCESS
      ∧ (let off := (R16.tMKxAuxADCConfig.offsetof "AuxADCConfigData").getD 0
         let n := R16.tMKxAuxADCConfigData.sizeof
         let m := (API.AuxADCCfg
           { w.mem with buf := storeAt w.mem.buf off (List.replicate n 0xFF) }).2
         ((R16.MKx_GetAuxADCCfg API.totMKxFunctions pMKx pOut).run w).2.mem
           = { m with buf := storeAt m.buf off (m.MKx.Config.AuxADC.take n) })
      ∧ ((R16.MKx_GetTemp API pMKx pOut).run w).1 = R16.MKXSTATUS_SUCCESS
      ∧ (let off := (R16.tMKxTemp.offsetof "TempData").getD 0
         let n := R16.tMKxTempData.sizeof
         let m := (API.Temp
           { w.mem with buf := storeAt w.mem.buf off (List.replicate n 0x80) }).2
         ((R16.MKx_GetTemp API pMKx pOut).run w).2.mem
           = { m with buf := storeAt m.buf off (m.MKx.State.Temp.take n) })
      ∧ ((R16.MKx_GetCalibration API pMKx pOut).run w).1 = R16.MKXSTATUS_SUCCESS
      ∧ (let off := (R16.tMKxCalibration.offsetof "CalibrationData").getD 0
         let n := R16.tMKxCalibrationData.sizeof
         let m := (API.Calibration
           { w.mem with buf := storeAt w.mem.buf off (List.replicate n 0x80) }).2
         ((R16.MKx_GetCalibration API pMKx pOut).run w).2.mem
           = { m with buf := storeAt m.buf off (m.MKx.Config.Calibration.take n) })
      ∧ ((R17.MKx_GetStats pMKx Radio pOut).run w).1 = R17.MKXSTATUS_SUCCESS
      ∧ (let n := R17.tMKxRadioStatsData.sizeof
         ((R17.MKx_GetStats pMKx Radio pOut).run w).2.mem
           = { w.mem with
               buf := storeAt w.mem.buf 0 ((w.mem.MKx.State.Stats.getD Radio.toNat []).take n) })
      ∧ ((R17.MKx_GetAuxADC pMKx pOut).run w).1 = R17.MKXSTATUS_SUCCESS
      ∧ (let n := R17.tMKxAuxADCData.sizeof
         ((R17.MKx_GetAuxADC pMKx pOut).run w).2.mem
           = { w.mem with buf := storeAt w.mem.buf 0 (w.mem.MKx.State.AuxADC.take n) })
      ∧ ((R17.MKx_GetAuxADCCfg API.totMKxFunctions pMKx pOut).run w).1 = R17.MKXSTATUS_SUCCESS
      ∧ (let off := (R17.tMKxAuxADCConfig.offsetof "AuxADCConfigData").getD 0
         let n := R17.tMKxAuxADCConfigData.sizeof
         let m := (API.AuxADCCfg
           { w.mem with buf := storeAt w.mem.buf off (List.replicate n 0xFF) }).2
         ((R17.MKx_GetAuxADCCfg API.totMKxFunctions pMKx pOut).run w).2.mem
           = { m with buf := storeAt m.buf off (m.MKx.Config.AuxADC.take n) })
      ∧ ((R17.MKx_GetTemp API pMKx pOut).run w).1 = R17.MKXSTATUS_SUCCESS
      ∧ (let off := (R17.tMKxTemp.offsetof "TempData").getD 0
         let n := R17.tMKxTempData.sizeof
         let m := (API.Temp
           { w.mem with buf := storeAt w.mem.buf off (List.replicate n 0x80) }).2
         ((R17.MKx_GetTemp API pMKx pOut).run w).2.mem
           = { m with buf := storeAt m.buf off (m.MKx.State.Temp.take n) })
      ∧ ((R17.MKx_GetCalibration API pMKx pOut).run w).1 = R17.MKXSTATUS_SUCCESS
      ∧ (let off := (R17.tMKxCalibration.offsetof "CalibrationData").getD 0
         let n := R17.tMKxCalibrationData.sizeof
         let m := (API.Calibration
           { w.mem with buf := storeAt w.mem.buf off (List.replicate n 0x80) }).2
         ((R17.MKx_GetCalibration API pMKx pOut).run w).2.mem
           = { m with buf := storeAt m.buf off (m.MKx.Config.Calibration.take n) })
      ∧ (∀ (buf field : Bytes) (off n : Nat), field.length = n →
          off + n ≤ (storeAt buf off (field.take n)).length →
          ((storeAt buf off (field.take n)).drop off).take n = field) := by
  have m16 : R16.MKX_RADIO_MAX = 1 := by decide
  have m17 : R17.MKX_RADIO_MAX = 1 := by decide
  have h16 : ¬ (Radio > (R16.MKX_RADIO_MAX : Int)) := by
    rw [m16]
    omega
  have h17 : ¬ (Radio > (R17.MKX_RADIO_MAX : Int)) := by
    rw [m17]
    omega
  refine ⟨?_, ?_, ?_, ?_, ?_, ?_, ?_, ?_, ?_, ?_, ?_, ?_, ?_, ?_, ?_, ?_, ?_, ?_, ?_, ?_,
    ?_⟩
  case refine_21 =>
    intro buf field off n hn hle
    have ht : field.take n = field := by
      rw [← hn]
      exact List.take_length field
    rw [ht] at hle ⊢
    rw [← hn] at hle ⊢
    exact storeAt_read buf field off hle
  all_goals
    simp [R16.MKx_GetStats, R16.MKx_GetAuxADC, R16.MKx_GetAuxADCCfg, R16.MKx_GetTemp,
      R16.MKx_GetCalibration, R17.MKx_GetStats, R17.MKx_GetAuxADC,
      R17.MKx_GetAuxADCCfg, R17.MKx_GetTemp, R17.MKx_GetCalibration,
      StateT.run, hMKx, hMagic, hOut, hRadio.1, h16, h17, R16.MKX_API_MAGIC,
      R17.MKX_API_MAGIC, R16.MKXSTATUS_SUCCESS, R17.MKXSTATUS_SUCCESS, bind, StateT.bind, get,
      getThe, MonadStateOf.get, StateT.get, pure, StateT.pure, invoke, memcpy, memcpyTo,
      memset, readStats, modify, modifyGet, MonadStateOf.modifyGet, StateT.modifyGet]

/-- C21 (instance): r16 `MKx_GetTemp` with a device function that sets `State.Temp` of the
handle to the bytes 21, 22 and reports the failure -1: the helper returns
`MKXSTATUS_SUCCESS` and the ten-byte message of the caller ends in 21, 22. -/
theorem c21_get_helpers_copy_handle_field_witness :
    (Ptr.object ≠ Ptr.NULL ∧ (0xC0DA : Nat) = 0xC0DA ∧ ((0 : Int) ≤ 0 ∧ (0 : Int) ≤ 1))
      ∧ ((R16.MKx_GetTemp
            ⟨⟨fun _ m => (0, m), fun m => (0, m), fun m => (-1, m)⟩, fun _ _ m => (0, m),
        fun _ m => (0, m), fun _ _ _ m => (0, m), fun m => (-1, m),
        fun m => (-1, { m with MKx := { m.MKx with State := ⟨[], [21, 22], []⟩ } }),
        fun _ m => (0, m), fun _ m => (0, m)⟩
            Ptr.object Ptr.object).run
          ⟨⟨⟨0xC0DA, ⟨[], [0, 0], []⟩, ⟨[], [], []⟩⟩, [1, 2, 3, 4, 5, 6, 7, 8, 0, 0]⟩, [], [], []⟩).1
        = R16.MKXSTATUS_SUCCESS
      ∧ ((R16.MKx_GetTemp
            ⟨⟨fun _ m => (0, m), fun m => (0, m), fun m => (-1, m)⟩, fun _ _ m => (0, m),
        fun _ m => (0, m), fun _ _ _ m => (0, m), fun m => (-1, m),
        fun m => (-1, { m with MKx := { m.MKx with State := ⟨[], [21, 22], []⟩ } }),
        fun _ m => (0, m), fun _ m => (0, m)⟩
            Ptr.object Ptr.object).run
          ⟨⟨⟨0xC0DA, ⟨[], [0, 0], []⟩, ⟨[], [], []⟩⟩, [1, 2, 3, 4, 5, 6, 7, 8, 0, 0]⟩, [], [], []⟩).2.mem.buf
        = [1, 2, 3, 4, 5, 6, 7, 8, 21, 22] :=
  have h := c21_get_helpers_copy_handle_field
      ⟨⟨fun _ m => (0, m), fun m => (0, m), fun m => (-1, m)⟩, fun _ _ m => (0, m),
        fun _ m => (0, m), fun _ _ _ m => (0, m), fun m => (-1, m),
        fun m => (-1, { m with MKx := { m.MKx with State := ⟨[], [21, 22], []⟩ } }),
        fun _ m => (0, m), fun _ m => (0, m)⟩
      ⟨⟨⟨0xC0DA, ⟨[], [0, 0], []⟩, ⟨[], [], []⟩⟩, [1, 2, 3, 4, 5, 6, 7, 8, 0, 0]⟩, [], [], []⟩
      Ptr.object Ptr.object 0 (by decide) rfl (by decide) (by decide)
  ⟨⟨by decide, rfl, by decide⟩, h.2.2.2.2.2.2.1, congrArg Mem.buf h.2.2.2.2.2.2.2.1⟩

/-! ## The requests of `MKx_GetTemp` and `MKx_GetCalibration` -/

/-- Storing up to the end of an object replaces its tail. -/
theorem storeAt_tail (obj src : Bytes) (off : Nat) (h : obj.length = off + src.length) :
    storeAt obj off src = obj.take off ++ src := by
  unfold storeAt
  rw [List.drop_eq_nil_of_le (by omega), List.append_nil]

/-- C22: on a valid handle and a non-null message pointer, `MKx_GetTemp` calls
`API.Functions.Temp` once, on a message whose header is as the caller left it and whose
`TempData` bytes are all 0x80: in r16 (two `int8_t` members, 2 bytes) the callee reads
`TempPAAnt1 = TempPAAnt2 = -128`, in r17.1 (two `int16_t` members, 4 bytes) it reads
`TempPAAnt1 = TempPAAnt2 = -32640`, the value of the bit pattern 0x8080.  `MKx_GetCalibration`
calls `API.Functions.Calibration` once, on a message whose `CalibrationData` bytes are all
0x80, so that `Version` reads 0x80808080, which is not `CALIBRATION_VERSION` (1 in r16, 3 in
r17.1). -/
theorem c22_bogus_requests (API : MKxFunctions) (w : World) (pMKx pMsg : Ptr)
    (hMKx : pMKx ≠ Ptr.NULL) (hMagic : w.mem.MKx.Magic = 0xC0DA) (hMsg : pMsg ≠ Ptr.NULL) :
    (w.mem.buf.length = R16.tMKxTemp.sizeof →
        ((R16.MKx_GetTemp API pMKx pMsg).run w).2.calls
            = w.calls ++ [Call.Temp pMKx pMsg
                { w.mem with buf := w.mem.buf.take 8 ++ [0x80, 0x80] }]
          ∧ (w.mem.buf.take 8 ++ [0x80, 0x80]).take R16.tMKxIFMsg.sizeof
            = w.mem.buf.take R16.tMKxIFMsg.sizeof
          ∧ (w.mem.buf.take 8 ++ [0x80, 0x80]).drop 8
            = List.replicate R16.tMKxTempData.sizeof 0x80
          ∧ toSigned 8 (leValue (((w.mem.buf.take 8 ++ [0x80, 0x80]).drop 8).take 1)) = -128
          ∧ toSigned 8 (leValue (((w.mem.buf.take 8 ++ [0x80, 0x80]).drop 9).take 1)) = -128)
      ∧ (w.mem.buf.length = R17.tMKxTemp.sizeof →
        ((R17.MKx_GetTemp API pMKx pMsg).run w).2.calls
            = w.calls ++ [Call.Temp pMKx pMsg
                { w.mem with buf := w.mem.buf.take 12 ++ [0x80, 0x80, 0x80, 0x80] }]
          ∧ (w.mem.buf.take 12 ++ [0x80, 0x80, 0x80, 0x80]).take R17.tMKxIFMsg.sizeof
            = w.mem.buf.take R17.tMKxIFMsg.sizeof
          ∧ (w.mem.buf.take 12 ++ [0x80, 0x80, 0x80, 0x80]).drop 12
            = List.replicate R17.tMKxTempData.sizeof 0x80
          ∧ toSigned 16
              (leValue (((w.mem.buf.take 12 ++ [0x80, 0x80, 0x80, 0x80]).drop 12).take 2))
            = -32640
          ∧ toSigned 16
              (leValue (((w.mem.buf.take 12 ++ [0x80, 0x80, 0x80, 0x80]).drop 14).take 2))
            = -32640)
      ∧ (w.mem.buf.length = R16.tMKxCalibration.sizeof →
        ((R16.MKx_GetCalibration API pMKx pMsg).run w).2.calls
            = w.calls ++ [Call.Calibration pMKx pMsg
                { w.mem with
                  buf := w.mem.buf.take 8
                    ++ List.replicate R16.tMKxCalibrationData.sizeof 0x80 }]
          ∧ leValue (((w.mem.buf.take 8
                ++ List.replicate R16.tMKxCalibrationData.sizeof 0x80).drop 8).take 4)
            = 0x80808080)
      ∧ (w.mem.buf.length = R17.tMKxCalibration.sizeof →
        ((R17.MKx_GetCalibration API pMKx pMsg).run w).2.calls
            = w.calls ++ [Call.Calibration pMKx pMsg
                { w.mem with
                  buf := w.mem.buf.take 12
                    ++ List.replicate R17.tMKxCalibrationData.sizeof 0x80 }]
          ∧ leValue (((w.mem.buf.take 12
                ++ List.replicate R17.tMKxCalibrationData.sizeof 0x80).drop 12).take 4)
            = 0x80808080)
      ∧ R16.tMKxTemp.offsetofPath ["TempData", "TempPAAnt1"] = some 8
      ∧ R16.tMKxTemp.offsetofPath ["TempData", "TempPAAnt2"] = some 9
      ∧ (R16.tMKxTempData.member "TempPAAnt1").bind CType.scalar = some (true, 1)
      ∧ (R16.tMKxTempData.member "TempPAAnt2").bind CType.scalar = some (true, 1)
      ∧ R16.tMKxTempData.sizeof = 2
      ∧ R17.tMKxTemp.offsetofPath ["TempData", "TempPAAnt1"] = some 12
      ∧ R17.tMKxTemp.offsetofPath ["TempData", "TempPAAnt2"] = some 14
      ∧ (R17.tMKxTempData.member "TempPAAnt1").bind CType.scalar = some (true, 2)
      ∧ (R17.tMKxTempData.member "TempPAAnt2").bind CType.scalar = some (true, 2)
      ∧ R17.tMKxTempData.sizeof = 4
      ∧ (-32640 : Int) = 0x8080 - 2 ^ 16
      ∧ R16.tMKxCalibration.offsetofPath ["CalibrationData", "Version"] = some 8
      ∧ R17.tMKxCalibration.offsetofPath ["CalibrationData", "Version"] = some 12
      ∧ (R16.tMKxCalibrationData.member "Version").bind CType.scalar = some (false, 4)
      ∧ (R17.tMKxCalibrationData.member "Version").bind CType.scalar = some (false, 4)
      ∧ R16.CALIBRATION_VERSION = 1 ∧ R17.CALIBRATION_VERSION = 3
      ∧ 0x80808080 ≠ R16.CALIBRATION_VERSION ∧ 0x80808080 ≠ R17.CALIBRATION_VERSION := by
  have ot16 : R16.tMKxTemp.offsetof "TempData" = some 8 := by decide
  have st16 : R16.tMKxTempData.sizeof = 2 := by decide
  have mt16 : R16.tMKxTemp.sizeof = 10 := by decide
  have h16 : R16.tMKxIFMsg.sizeof = 8 := by decide
  have ot17 : R17.tMKxTemp.offsetof "TempData" = some 12 := by decide
  have st17 : R17.tMKxTempData.sizeof = 4 := by decide
  have mt17 : R17.tMKxTemp.sizeof = 16 := by decide
  have h17 : R17.tMKxIFMsg.sizeof = 12 := by decide
  have oc16 : R16.tMKxCalibration.offsetof "CalibrationData" = some 8 := by decide
  have mc16 : R16.tMKxCalibration.sizeof = 8 + R16.tMKxCalibrationData.sizeof := by decide
  have sc16 : 4 ≤ R16.tMKxCalibrationData.sizeof := by decide
  have oc17 : R17.tMKxCalibration.offsetof "CalibrationData" = some 12 := by decide
  have mc17 : R17.tMKxCalibration.sizeof = 12 + R17.tMKxCalibrationData.sizeof := by decide
  have sc17 : 4 ≤ R17.tMKxCalibrationData.sizeof := by decide
  refine ⟨?_, ?_, ?_, ?_, by decide, by decide, by decide, by decide, by decide, by decide,
    by decide, by decide, by decide, by decide, by norm_num, by decide, by decide, by decide,
    by decide, by decide, by decide, by decide, by decide⟩
  · intro hlen
    rw [mt16] at hlen
    have htake : (w.mem.buf.take 8).length = 8 := by simp [hlen]
    have hst : storeAt w.mem.buf 8 [128, 128] = w.mem.buf.take 8 ++ [128, 128] :=
      storeAt_tail _ _ _ (by simp [hlen])
    refine ⟨?_, ?_, ?_, ?_, ?_⟩
    · simp [R16.MKx_GetTemp, StateT.run, hMKx, hMagic, hMsg, ot16, st16, R16.MKX_API_MAGIC,
        bind, StateT.bind, get, getThe, MonadStateOf.get, StateT.get, pure, StateT.pure,
        memcpy, memset, invoke, modify, modifyGet, MonadStateOf.modifyGet,
        StateT.modifyGet, hst]
    · rw [h16, List.take_left' htake]
    · rw [List.drop_left' htake, st16]
      rfl
    · rw [List.drop_left' htake]
      decide
    · have h9 : (w.mem.buf.take 8 ++ [128]).length = 9 := by simp [hlen]
      have e : w.mem.buf.take 8 ++ [128, 128] = (w.mem.buf.take 8 ++ [128]) ++ [128] := by simp
      rw [e, List.drop_left' h9]
      decide
  · intro hlen
    rw [mt17] at hlen
    have htake : (w.mem.buf.take 12).length = 12 := by simp [hlen]
    have hst : storeAt w.mem.buf 12 [128, 128, 128, 128]
        = w.mem.buf.take 12 ++ [128, 128, 128, 128] :=
      storeAt_tail _ _ _ (by simp [hlen])
    refine ⟨?_, ?_, ?_, ?_, ?_⟩
    · simp [R17.MKx_GetTemp, StateT.run, hMKx, hMagic, hMsg, ot17, st17, R17.MKX_API_MAGIC,
        bind, StateT.bind, get, getThe, MonadStateOf.get, StateT.get, pure, StateT.pure,
        memcpy, memset, invoke, modify, modifyGet, MonadStateOf.modifyGet,
        StateT.modifyGet, hst]
    · rw [h17, List.take_left' htake]
    · rw [List.drop_left' htake, st17]
      rfl
    · rw [List.drop_left' htake]
      decide
    · have h14 : (w.mem.buf.take 12 ++ [128, 128]).length = 14 := by simp [hlen]
      have e : w.mem.buf.take 12 ++ [128, 128, 128, 128]
          = (w.mem.buf.take 12 ++ [128, 128]) ++ [128, 128] := by simp
      rw [e, List.drop_left' h14]
      decide
  · intro hlen
    rw [mc16] at hlen
    have htake : (w.mem.buf.take 8).length = 8 := by
      rw [List.length_take]
      omega
    have hst : storeAt w.mem.buf 8 (List.replicate R16.tMKxCalibrationData.sizeof 128)
        = w.mem.buf.take 8 ++ List.replicate R16.tMKxCalibrationData.sizeof 128 :=
      storeAt_tail _ _ _ (by rw [List.length_replicate]; exact hlen)
    refine ⟨?_, ?_⟩
    · simp [R16.MKx_GetCalibration, StateT.run, hMKx, hMagic, hMsg, oc16, R16.MKX_API_MAGIC,
        bind, StateT.bind, get, getThe, MonadStateOf.get, StateT.get, pure, StateT.pure,
        memcpy, memset, invoke, modify, modifyGet, MonadStateOf.modifyGet,
        StateT.modifyGet, hst]
    · rw [List.drop_left' htake, List.take_replicate, Nat.min_eq_left sc16]
      decide
  · intro hlen
    rw [mc17] at hlen
    have htake : (w.mem.buf.take 12).length = 12 := by
      rw [List.length_take]
      omega
    have hst : storeAt w.mem.buf 12 (List.replicate R17.tMKxCalibrationData.sizeof 128)
        = w.mem.buf.take 12 ++ List.replicate R17.tMKxCalibrationData.sizeof 128 :=
      storeAt_tail _ _ _ (by rw [List.length_replicate]; exact hlen)
    refine ⟨?_, ?_⟩
    · simp [R17.MKx_GetCalibration, StateT.run, hMKx, hMagic, hMsg, oc17, R17.MKX_API_MAGIC,
        bind, StateT.bind, get, getThe, MonadStateOf.get, StateT.get, pure, StateT.pure,
        memcpy, memset, invoke, modify, modifyGet, MonadStateOf.modifyGet,
        StateT.modifyGet, hst]
    · rw [List.drop_left' htake, List.take_replicate, Nat.min_eq_left sc17]
      decide

/-- C22 (instance): r16 `MKx_GetTemp` on a ten-byte message with header bytes 1..8 and
temperature bytes 0: the device function is called on the message ending in 0x80, 0x80. -/
theorem c22_bogus_requests_witness :
    (Ptr.object ≠ Ptr.NULL ∧ (0xC0DA : Nat) = 0xC0DA)
      ∧ ((R16.MKx_GetTemp
            ⟨⟨fun _ m => (0, m), fun m => (0, m), fun m => (-1, m)⟩, fun _ _ m => (0, m),
        fun _ m => (0, m), fun _ _ _ m => (0, m), fun m => (-1, m), fun m => (-1, m),
        fun _ m => (0, m), fun _ m => (0, m)⟩
            Ptr.object Ptr.object).run
          ⟨⟨⟨0xC0DA, ⟨[], [21, 22], []⟩, ⟨[], [], []⟩⟩, [1, 2, 3, 4, 5, 6, 7, 8, 0, 0]⟩, [], [], []⟩).2.calls
        = [Call.Temp Ptr.object Ptr.object
            ⟨⟨0xC0DA, ⟨[], [21, 22], []⟩, ⟨[], [], []⟩⟩, [1, 2, 3, 4, 5, 6, 7, 8, 0x80, 0x80]⟩] :=
  ⟨⟨by decide, rfl⟩,
    ((c22_bogus_requests
      ⟨⟨fun _ m => (0, m), fun m => (0, m), fun m => (-1, m)⟩, fun _ _ m => (0, m),
        fun _ m => (0, m), fun _ _ _ m => (0, m), fun m => (-1, m), fun m => (-1, m),
        fun _ m => (0, m), fun _ m => (0, m)⟩
      ⟨⟨⟨0xC0DA, ⟨[], [21, 22], []⟩, ⟨[], [], []⟩⟩, [1, 2, 3, 4, 5, 6, 7, 8, 0, 0]⟩, [], [], []⟩
      Ptr.object Ptr.object (by decide) rfl (by decide)).1 (by decide)).1⟩

/-! ## Legacy C2X security sizes -/

/-- C23: in r16 the size macros evaluate to `MKXC2XSEC_CMD_MAX_SIZE = 167`,
`MKXC2XSEC_CMD_PA_MAX_SIZE = 170`, `MKXC2XSEC_RSP_MAX_SIZE = 68`,
`MKXC2XSEC_RSP_PA_MAX_SIZE = 74` and `MKXC2XSEC_MAX_SIZE = 178`, the 8-byte header plus the
command side, which is the larger one; the command payloads `tMKxC2XSecVSoH`,
`tMKxC2XSecDPK` and `tMKxC2XSecREPK` are 161, 34 and 161 bytes, each below 256 and so
representable in the one-byte `LC` member; and a message header followed by a payload-aligned
command (`tMKxC2XSecCmdPA`) or response (`tMKxC2XSecRspPA`) and any one of the defined
payloads is at most `MKXC2XSEC_MAX_SIZE` bytes long. -/
theorem c23_r16_c2x_max_sizes :
    R16.MKXC2XSEC_CMD_MAX_SIZE = 167 ∧ R16.MKXC2XSEC_CMD_PA_MAX_SIZE = 170
      ∧ R16.MKXC2XSEC_RSP_MAX_SIZE = 68 ∧ R16.MKXC2XSEC_RSP_PA_MAX_SIZE = 74
      ∧ R16.MKXC2XSEC_MAX_SIZE = 178
      ∧ R16.tMKxIFMsg.sizeof = 8
      ∧ R16.MKXC2XSEC_MAX_SIZE = R16.tMKxIFMsg.sizeof + R16.MKXC2XSEC_CMD_PA_MAX_SIZE
      ∧ R16.MKXC2XSEC_RSP_PA_MAX_SIZE < R16.MKXC2XSEC_CMD_PA_MAX_SIZE
      ∧ R16.tMKxC2XSecVSoH.sizeof = 161 ∧ R16.tMKxC2XSecDPK.sizeof = 34
      ∧ R16.tMKxC2XSecREPK.sizeof = 161
      ∧ (R16.tMKxC2XSecCmd.member "LC").bind CType.scalar = some (false, 1)
      ∧ (∀ p ∈ [R16.tMKxC2XSecVSoH, R16.tMKxC2XSecDPK, R16.tMKxC2XSecREPK],
          p.sizeof < 2 ^ 8
            ∧ R16.tMKxIFMsg.sizeof + R16.tMKxC2XSecCmdPA.sizeof + p.sizeof
              ≤ R16.MKXC2XSEC_MAX_SIZE)
      ∧ (∀ p ∈ [R16.tMKxC2XSecResRsp, R16.tMKxC2XSecPubKeyRsp],
          R16.tMKxIFMsg.sizeof + R16.tMKxC2XSecRspPA.sizeof + p.sizeof
            ≤ R16.MKXC2XSEC_MAX_SIZE)
      ∧ R16.tMKxC2XSecCmdPL
        = .union [("VerifySigOfHash", R16.tMKxC2XSecVSoH), ("DecompEccPubKey", R16.tMKxC2XSecDPK),
            ("ReconEccPubKey", R16.tMKxC2XSecREPK), ("Data", .array .uint8_t 0)]
      ∧ R16.tMKxC2XSecRspPL
        = .union [("ResRsp", R16.tMKxC2XSecResRsp), ("PubKeyRsp", R16.tMKxC2XSecPubKeyRsp),
            ("Data", .array .uint8_t 0)] := by
  refine ⟨by decide, by decide, by decide, by decide, by decide, by decide, by decide,
    by decide, by decide, by decide, by decide, by decide, ?_, ?_, rfl, rfl⟩
  · intro p hp
    simp only [List.mem_cons, List.mem_singleton, List.not_mem_nil, or_false] at hp
    rcases hp with rfl | rfl | rfl <;> decide
  · intro p hp
    simp only [List.mem_cons, List.mem_singleton, List.not_mem_nil, or_false] at hp
    rcases hp with rfl | rfl <;> decide

/-! ## The handle check of the wrappers -/

/-- C24: when the handle is null or its `Magic` differs from `MKX_API_MAGIC` (0xC0DA), every
wrapper of r16 (`MKx_Config`, `MKx_TxReq`, `MKx_TxFlush`, `MKx_GetTSFReq`, `MKx_SetTSF`,
`MKx_GetAuxADC`, `MKx_GetStats`, `MKx_SetAuxADCCfg`, `MKx_GetAuxADCCfg`, `MKx_SetTemp`,
`MKx_GetTemp`, `MKx_SetCalibration`, `MKx_GetCalibration`) and of r17.1 (the same and
`MKx_GPIOReq`, `MKx_VersionReq`) returns with the state of the execution as it found it: no
function of `API.Functions` has been called, no store into the caller's buffer has been made
and the memory is unchanged, whatever the other arguments are. -/
theorem c24_bad_handle_no_call_no_store (API : MKxFunctions) (w : World) (pMKx pMsg pPriv : Ptr)
    (Radio RadioID ChannelID TxQueue : Int)
    (h : pMKx = Ptr.NULL ∨ w.mem.MKx.Magic ≠ 0xC0DA) :
    (((R16.MKx_Config API.totMKxFunctions pMKx Radio pMsg).run w).2 = w)
      ∧ (((R16.MKx_TxReq API pMKx pMsg pPriv).run w).2 = w)
      ∧ (((R16.MKx_TxFlush API pMKx RadioID ChannelID TxQueue).run w).2 = w)
      ∧ (((R16.MKx_GetTSFReq API.totMKxFunctions pMKx).run w).2 = w)
      ∧ (((R16.MKx_SetTSF API pMKx pMsg).run w).2 = w)
      ∧ (((R16.MKx_GetAuxADC pMKx pMsg).run w).2 = w)
      ∧ (((R16.MKx_GetStats pMKx Radio pMsg).run w).2 = w)
      ∧ (((R16.MKx_SetAuxADCCfg API pMKx pMsg).run w).2 = w)
      ∧ (((R16.MKx_GetAuxADCCfg API.totMKxFunctions pMKx pMsg).run w).2 = w)
      ∧ (((R16.MKx_SetTemp API pMKx pMsg).run w).2 = w)
      ∧ (((R16.MKx_GetTemp API pMKx pMsg).run w).2 = w)
      ∧ (((R16.MKx_SetCalibration API pMKx pMsg).run w).2 = w)
      ∧ (((R16.MKx_GetCalibration API pMKx pMsg).run w).2 = w)
      ∧ (((R17.MKx_Config API.totMKxFunctions pMKx Radio pMsg).run w).2 = w)
      ∧ (((R17.MKx_TxReq API pMKx pMsg pPriv).run w).2 = w)
      ∧ (((R17.MKx_TxFlush API pMKx RadioID ChannelID TxQueue).run w).2 = w)
      ∧ (((R17.MKx_GetTSFReq API.totMKxFunctions pMKx).run w).2 = w)
      ∧ (((R17.MKx_SetTSF API pMKx pMsg).run w).2 = w)
      ∧ (((R17.MKx_GPIOReq API pMKx pMsg).run w).2 = w)
      ∧ (((R17.MKx_VersionReq API pMKx pMsg).run w).2 = w)
      ∧ (((R17.MKx_GetAuxADC pMKx pMsg).run w).2 = w)
      ∧ (((R17.MKx_GetStats pMKx Radio pMsg).run w).2 = w)
      ∧ (((R17.MKx_SetAuxADCCfg API pMKx pMsg).run w).2 = w)
      ∧ (((R17.MKx_GetAuxADCCfg API.totMKxFunctions pMKx pMsg).run w).2 = w)
      ∧ (((R17.MKx_SetTemp API pMKx pMsg).run w).2 = w)
      ∧ (((R17.MKx_GetTemp API pMKx pMsg).run w).2 = w)
      ∧ (((R17.MKx_SetCalibration API pMKx pMsg).run w).2 = w)
      ∧ (((R17.MKx_GetCalibration API pMKx pMsg).run w).2 = w)
      ∧ R16.MKX_API_MAGIC = 0xC0DA ∧ R17.MKX_API_MAGIC = 0xC0DA := by
  refine ⟨?_, ?_, ?_, ?_, ?_, ?_, ?_, ?_, ?_, ?_, ?_, ?_, ?_, ?_, ?_, ?_, ?_, ?_, ?_, ?_, ?_,
    ?_, ?_, ?_, ?_, ?_, ?_, ?_,
    by decide, by decide⟩
  all_goals
    by_cases h1 : pMKx = Ptr.NULL
    · simp [R16.MKx_Config, R16.MKx_TxReq, R16.MKx_TxFlush, R16.MKx_GetTSFReq, R16.MKx_SetTSF,
      R16.MKx_GetAuxADC, R16.MKx_GetStats, R16.MKx_SetAuxADCCfg, R16.MKx_GetAuxADCCfg,
      R16.MKx_SetTemp, R16.MKx_GetTemp, R16.MKx_SetCalibration, R16.MKx_GetCalibration,
      R17.MKx_Config, R17.MKx_TxReq, R17.MKx_TxFlush, R17.MKx_GetTSFReq, R17.MKx_SetTSF,
      R17.MKx_GPIOReq, R17.MKx_VersionReq, R17.MKx_GetAuxADC, R17.MKx_GetStats,
      R17.MKx_SetAuxADCCfg, R17.MKx_GetAuxADCCfg, R17.MKx_SetTemp, R17.MKx_GetTemp,
      R17.MKx_SetCalibration, R17.MKx_GetCalibration,
        StateT.run, h1, pure, StateT.pure, bind, StateT.bind]
    · have h2 : w.mem.MKx.Magic ≠ 0xC0DA := h.resolve_left h1
      simp [R16.MKx_Config, R16.MKx_TxReq, R16.MKx_TxFlush, R16.MKx_GetTSFReq, R16.MKx_SetTSF,
      R16.MKx_GetAuxADC, R16.MKx_GetStats, R16.MKx_SetAuxADCCfg, R16.MKx_GetAuxADCCfg,
      R16.MKx_SetTemp, R16.MKx_GetTemp, R16.MKx_SetCalibration, R16.MKx_GetCalibration,
      R17.MKx_Config, R17.MKx_TxReq, R17.MKx_TxFlush, R17.MKx_GetTSFReq, R17.MKx_SetTSF,
      R17.MKx_GPIOReq, R17.MKx_VersionReq, R17.MKx_GetAuxADC, R17.MKx_GetStats,
      R17.MKx_SetAuxADCCfg, R17.MKx_GetAuxADCCfg, R17.MKx_SetTemp, R17.MKx_GetTemp,
      R17.MKx_SetCalibration, R17.MKx_GetCalibration,
        StateT.run, h1, h2, R16.MKX_API_MAGIC, R17.MKX_API_MAGIC, bind, StateT.bind, get,
        getThe, MonadStateOf.get, StateT.get, pure, StateT.pure]

/-- C24 (instance): a non-null handle whose `Magic` is 0: r16 `MKx_TxReq` leaves
the state of the execution as it is. -/
theorem c24_bad_handle_no_call_no_store_witness :
    (Ptr.object = Ptr.NULL ∨ (0 : Nat) ≠ 0xC0DA)
      ∧ ((R16.MKx_TxReq
            ⟨⟨fun _ m => (0, m), fun m => (0, m), fun m => (-1, m)⟩, fun _ _ m => (0, m),
        fun _ m => (0, m), fun _ _ _ m => (0, m), fun m => (-1, m), fun m => (-1, m),
        fun _ m => (0, m), fun _ m => (0, m)⟩
            Ptr.object Ptr.object Ptr.NULL).run
          ⟨⟨⟨0, ⟨[], [21, 22], []⟩, ⟨[], [], []⟩⟩, [1, 2, 3, 4, 5, 6, 7, 8, 0, 0]⟩, [], [], []⟩).2
        = ⟨⟨⟨0, ⟨[], [21, 22], []⟩, ⟨[], [], []⟩⟩, [1, 2, 3, 4, 5, 6, 7, 8, 0, 0]⟩, [], [], []⟩ :=
  ⟨Or.inr (by decide),
    (c24_bad_handle_no_call_no_store
      ⟨⟨fun _ m => (0, m), fun m => (0, m), fun m => (-1, m)⟩, fun _ _ m => (0, m),
        fun _ m => (0, m), fun _ _ _ m => (0, m), fun m => (-1, m), fun m => (-1, m),
        fun _ m => (0, m), fun _ m => (0, m)⟩
      ⟨⟨⟨0, ⟨[], [21, 22], []⟩, ⟨[], [], []⟩⟩, [1, 2, 3, 4, 5, 6, 7, 8, 0, 0]⟩, [], [], []⟩
      Ptr.object Ptr.object Ptr.NULL 0 0 0 0 (Or.inr (by decide))).2.1⟩

/-! ## A null output pointer -/

/-- C25 (evaluation of the code): in both revisions `MKx_GetAuxADC` does not test its output
pointer: on a valid handle and `pAuxADCData = NULL` it makes the store of
`sizeof(tMKxAuxADCData)` bytes through the pointer and returns `MKXSTATUS_SUCCESS`, not
`MKXSTATUS_FAILURE_INVALID_PARAM`.  The other four helpers, `MKx_GetStats`,
`MKx_GetAuxADCCfg`, `MKx_GetTemp` and `MKx_GetCalibration`, return
`MKXSTATUS_FAILURE_INVALID_PARAM` on a valid handle and a null output pointer, with no call
and no store made. -/
theorem c25_getAuxADC_null_output (API : MKxFunctions) (w : World) (pMKx : Ptr)
    (Radio : Int) :
    (R16.MKx_GetAuxADC pMKx Ptr.NULL).run w
        = (if pMKx = Ptr.NULL ∨ w.mem.MKx.Magic ≠ 0xC0DA then
            (R16.MKXSTATUS_FAILURE_INVALID_HANDLE, w)
          else
            (R16.MKXSTATUS_SUCCESS,
              { w with
                mem := { w.mem with
                  buf := storeAt w.mem.buf 0
                    (w.mem.MKx.State.AuxADC.take R16.tMKxAuxADCData.sizeof) },
                stores := w.stores ++ [(0, R16.tMKxAuxADCData.sizeof)] }))
      ∧ (R17.MKx_GetAuxADC pMKx Ptr.NULL).run w
        = (if pMKx = Ptr.NULL ∨ w.mem.MKx.Magic ≠ 0xC0DA then
            (R17.MKXSTATUS_FAILURE_INVALID_HANDLE, w)
          else
            (R17.MKXSTATUS_SUCCESS,
              { w with
                mem := { w.mem with
                  buf := storeAt w.mem.buf 0
                    (w.mem.MKx.State.AuxADC.take R17.tMKxAuxADCData.sizeof) },
                stores := w.stores ++ [(0, R17.tMKxAuxADCData.sizeof)] }))
      ∧ R16.MKXSTATUS_SUCCESS ≠ R16.MKXSTATUS_FAILURE_INVALID_PARAM
      ∧ R17.MKXSTATUS_SUCCESS ≠ R17.MKXSTATUS_FAILURE_INVALID_PARAM
      ∧ 0 < R16.tMKxAuxADCData.sizeof
      ∧ 0 < R17.tMKxAuxADCData.sizeof
      ∧ (R16.MKx_GetStats pMKx Radio Ptr.NULL).run w
        = (if pMKx = Ptr.NULL ∨ w.mem.MKx.Magic ≠ 0xC0DA then
            (R16.MKXSTATUS_FAILURE_INVALID_HANDLE, w)
          else
            (R16.MKXSTATUS_FAILURE_INVALID_PARAM, w))
      ∧ (R16.MKx_GetAuxADCCfg API.totMKxFunctions pMKx Ptr.NULL).run w
        = (if pMKx = Ptr.NULL ∨ w.mem.MKx.Magic ≠ 0xC0DA then
            (R16.MKXSTATUS_FAILURE_INVALID_HANDLE, w)
          else
            (R16.MKXSTATUS_FAILURE_INVALID_PARAM, w))
      ∧ (R16.MKx_GetTemp API pMKx Ptr.NULL).run w
        = (if pMKx = Ptr.NULL ∨ w.mem.MKx.Magic ≠ 0xC0DA then
            (R16.MKXSTATUS_FAILURE_INVALID_HANDLE, w)
          else
            (R16.MKXSTATUS_FAILURE_INVALID_PARAM, w))
      ∧ (R16.MKx_GetCalibration API pMKx Ptr.NULL).run w
        = (if pMKx = Ptr.NULL ∨ w.mem.MKx.Magic ≠ 0xC0DA then
            (R16.MKXSTATUS_FAILURE_INVALID_HANDLE, w)
          else
            (R16.MKXSTATUS_FAILURE_INVALID_PARAM, w))
      ∧ (R17.MKx_GetStats pMKx Radio Ptr.NULL).run w
        = (if pMKx = Ptr.NULL ∨ w.mem.MKx.Magic ≠ 0xC0DA then
            (R17.MKXSTATUS_FAILURE_INVALID_HANDLE, w)
          else
            (R17.MKXSTATUS_FAILURE_INVALID_PARAM, w))
      ∧ (R17.MKx_GetAuxADCCfg API.totMKxFunctions pMKx Ptr.NULL).run w
        = (if pMKx = Ptr.NULL ∨ w.mem.MKx.Magic ≠ 0xC0DA then
            (R17.MKXSTATUS_FAILURE_INVALID_HANDLE, w)
          else
            (R17.MKXSTATUS_FAILURE_INVALID_PARAM, w))
      ∧ (R17.MKx_GetTemp API pMKx Ptr.NULL).run w
        = (if pMKx = Ptr.NULL ∨ w.mem.MKx.Magic ≠ 0xC0DA then
            (R17.MKXSTATUS_FAILURE_INVALID_HANDLE, w)
          else
            (R17.MKXSTATUS_FAILURE_INVALID_PARAM, w))
      ∧ (R17.MKx_GetCalibration API pMKx Ptr.NULL).run w
        = (if pMKx = Ptr.NULL ∨ w.mem.MKx.Magic ≠ 0xC0DA then
            (R17.MKXSTATUS_FAILURE_INVALID_HANDLE, w)
          else
            (R17.MKXSTATUS_FAILURE_INVALID_PARAM, w)) := by
  refine ⟨?_, ?_, by decide, by decide, by decide, by decide, ?_, ?_, ?_, ?_, ?_, ?_, ?_,
    ?_⟩
  · by_cases h1 : pMKx = Ptr.NULL
    · simp [R16.MKx_GetAuxADC, StateT.run, h1, pure, StateT.pure, bind, StateT.bind]
    · by_cases h2 : w.mem.MKx.Magic = 0xC0DA
      · simp [R16.MKx_GetAuxADC, StateT.run, h1, h2, R16.MKX_API_MAGIC, bind, StateT.bind,
          get, getThe, MonadStateOf.get, StateT.get, pure, StateT.pure, memcpy, memcpyTo,
          modify, modifyGet, MonadStateOf.modifyGet, StateT.modifyGet]
      · simp [R16.MKx_GetAuxADC, StateT.run, h1, h2, R16.MKX_API_MAGIC, bind, StateT.bind,
          get, getThe, MonadStateOf.get, StateT.get, pure, StateT.pure]
  · by_cases h1 : pMKx = Ptr.NULL
    · simp [R17.MKx_GetAuxADC, StateT.run, h1, pure, StateT.pure, bind, StateT.bind]
    · by_cases h2 : w.mem.MKx.Magic = 0xC0DA
      · simp [R17.MKx_GetAuxADC, StateT.run, h1, h2, R17.MKX_API_MAGIC, bind, StateT.bind,
          get, getThe, MonadStateOf.get, StateT.get, pure, StateT.pure, memcpy, memcpyTo,
          modify, modifyGet, MonadStateOf.modifyGet, StateT.modifyGet]
      · simp [R17.MKx_GetAuxADC, StateT.run, h1, h2, R17.MKX_API_MAGIC, bind, StateT.bind,
          get, getThe, MonadStateOf.get, StateT.get, pure, StateT.pure]
  · by_cases h1 : pMKx = Ptr.NULL
    · simp [R16.MKx_GetStats, StateT.run, h1, pure, StateT.pure, bind, StateT.bind]
    · by_cases h2 : w.mem.MKx.Magic = 0xC0DA
      · by_cases h3 : Radio > R16.MKX_RADIO_MAX
        · simp [R16.MKx_GetStats, StateT.run, h1, h2, h3, R16.MKX_API_MAGIC, bind, StateT.bind,
            get, getThe, MonadStateOf.get, StateT.get, pure, StateT.pure]
        · simp [R16.MKx_GetStats, StateT.run, h1, h2, h3, R16.MKX_API_MAGIC, bind, StateT.bind,
            get, getThe, MonadStateOf.get, StateT.get, pure, StateT.pure]
      · simp [R16.MKx_GetStats, StateT.run, h1, h2, R16.MKX_API_MAGIC, bind, StateT.bind, get,
          getThe, MonadStateOf.get, StateT.get, pure, StateT.pure]
  · by_cases h1 : pMKx = Ptr.NULL
    · simp [R16.MKx_GetAuxADCCfg, StateT.run, h1, pure, StateT.pure, bind, StateT.bind]
    · by_cases h2 : w.mem.MKx.Magic = 0xC0DA
      · simp [R16.MKx_GetAuxADCCfg, StateT.run, h1, h2, R16.MKX_API_MAGIC, bind, StateT.bind, get,
          getThe, MonadStateOf.get, StateT.get, pure, StateT.pure]
      · simp [R16.MKx_GetAuxADCCfg, StateT.run, h1, h2, R16.MKX_API_MAGIC, bind, StateT.bind, get,
          getThe, MonadStateOf.get, StateT.get, pure, StateT.pure]
  · by_cases h1 : pMKx = Ptr.NULL
    · simp [R16.MKx_GetTemp, StateT.run, h1, pure, StateT.pure, bind, StateT.bind]
    · by_cases h2 : w.mem.MKx.Magic = 0xC0DA
      · simp [R16.MKx_GetTemp, StateT.run, h1, h2, R16.MKX_API_MAGIC, bind, StateT.bind, get,
          getThe, MonadStateOf.get, StateT.get, pure, StateT.pure]
      · simp [R16.MKx_GetTemp, StateT.run, h1, h2, R16.MKX_API_MAGIC, bind, StateT.bind, get,
          getThe, MonadStateOf.get, StateT.get, pure, StateT.pure]
  · by_cases h1 : pMKx = Ptr.NULL
    · simp [R16.MKx_GetCalibration, StateT.run, h1, pure, StateT.pure, bind, StateT.bind]
    · by_cases h2 : w.mem.MKx.Magic = 0xC0DA
      · simp [R16.MKx_GetCalibration, StateT.run, h1, h2, R16.MKX_API_MAGIC, bind, StateT.bind, get,
          getThe, MonadStateOf.get, StateT.get, pure, StateT.pure]
      · simp [R16.MKx_GetCalibration, StateT.run, h1, h2, R16.MKX_API_MAGIC, bind, StateT.bind, get,
          getThe, MonadStateOf.get, StateT.get, pure, StateT.pure]
  · by_cases h1 : pMKx = Ptr.NULL
    · simp [R17.MKx_GetStats, StateT.run, h1, pure, StateT.pure, bind, StateT.bind]
    · by_cases h2 : w.mem.MKx.Magic = 0xC0DA
      · by_cases h3 : Radio > R17.MKX_RADIO_MAX
        · simp [R17.MKx_GetStats, StateT.run, h1, h2, h3, R17.MKX_API_MAGIC, bind, StateT.bind,
            get, getThe, MonadStateOf.get, StateT.get, pure, StateT.pure]
        · simp [R17.MKx_GetStats, StateT.run, h1, h2, h3, R17.MKX_API_MAGIC, bind, StateT.bind,
            get, getThe, MonadStateOf.get, StateT.get, pure, StateT.pure]
      · simp [R17.MKx_GetStats, StateT.run, h1, h2, R17.MKX_API_MAGIC, bind, StateT.bind, get,
          getThe, MonadStateOf.get, StateT.get, pure, StateT.pure]
  · by_cases h1 : pMKx = Ptr.NULL
    · simp [R17.MKx_GetAuxADCCfg, StateT.run, h1, pure, StateT.pure, bind, StateT.bind]
    · by_cases h2 : w.mem.MKx.Magic = 0xC0DA
      · simp [R17.MKx_GetAuxADCCfg, StateT.run, h1, h2, R17.MKX_API_MAGIC, bind, StateT.bind, get,
          getThe, MonadStateOf.get, StateT.get, pure, StateT.pure]
      · simp [R17.MKx_GetAuxADCCfg, StateT.run, h1, h2, R17.MKX_API_MAGIC, bind, StateT.bind, get,
          getThe, MonadStateOf.get, StateT.get, pure, StateT.pure]
  · by_cases h1 : pMKx = Ptr.NULL
    · simp [R17.MKx_GetTemp, StateT.run, h1, pure, StateT.pure, bind, StateT.bind]
    · by_cases h2 : w.mem.MKx.Magic = 0xC0DA
      · simp [R17.MKx_GetTemp, StateT.run, h1, h2, R17.MKX_API_MAGIC, bind, StateT.bind, get,
          getThe, MonadStateOf.get, StateT.get, pure, StateT.pure]
      · simp [R17.MKx_GetTemp, StateT.run, h1, h2, R17.MKX_API_MAGIC, bind, StateT.bind, get,
          getThe, MonadStateOf.get, StateT.get, pure, StateT.pure]
  · by_cases h1 : pMKx = Ptr.NULL
    · simp [R17.MKx_GetCalibration, StateT.run, h1, pure, StateT.pure, bind, StateT.bind]
    · by_cases h2 : w.mem.MKx.Magic = 0xC0DA
      · simp [R17.MKx_GetCalibration, StateT.run, h1, h2, R17.MKX_API_MAGIC, bind, StateT.bind, get,
          getThe, MonadStateOf.get, StateT.get, pure, StateT.pure]
      · simp [R17.MKx_GetCalibration, StateT.run, h1, h2, R17.MKX_API_MAGIC, bind, StateT.bind, get,
          getThe, MonadStateOf.get, StateT.get, pure, StateT.pure]

/-! ## The two forms of the forwarding wrappers -/

/-- C26: for `MKx_TxReq`, `MKx_TxFlush`, `MKx_SetTSF`, `MKx_SetAuxADCCfg`, `MKx_SetTemp` and
`MKx_SetCalibration` the early-return form of r16 and the single-exit form of r17.1 compute
the same function of the input.  Both return `MKXSTATUS_FAILURE_INVALID_HANDLE` when the
handle is null or its `Magic` is not 0xC0DA; the three `Set` helpers then return
`MKXSTATUS_FAILURE_INVALID_PARAM` when the message pointer is null; otherwise both call the
device function once, with the arguments of the wrapper and on the memory as the caller left
it, and return its result.  The state both leave behind (memory and calls made) is the same;
only the numeric values of the two failure codes differ between the revisions. -/
theorem c26_single_exit_equals_early_return (API : MKxFunctions) (w : World)
    (pMKx pMsg pPriv : Ptr) (RadioID ChannelID TxQueue : Int) :
    (R16.MKx_TxReq API pMKx pMsg pPriv).run w
        = (if pMKx = Ptr.NULL ∨ w.mem.MKx.Magic ≠ 0xC0DA then
            (R16.MKXSTATUS_FAILURE_INVALID_HANDLE, w)
          else
            ((API.TxReq pMsg pPriv w.mem).1,
              { w with mem := (API.TxReq pMsg pPriv w.mem).2,
                       calls := w.calls ++ [Call.TxReq pMKx pMsg pPriv w.mem] }))
      ∧ (R17.MKx_TxReq API pMKx pMsg pPriv).run w
        = (if pMKx = Ptr.NULL ∨ w.mem.MKx.Magic ≠ 0xC0DA then
            (R17.MKXSTATUS_FAILURE_INVALID_HANDLE, w)
          else
            ((API.TxReq pMsg pPriv w.mem).1,
              { w with mem := (API.TxReq pMsg pPriv w.mem).2,
                       calls := w.calls ++ [Call.TxReq pMKx pMsg pPriv w.mem] }))
      ∧ (R16.MKx_TxFlush API pMKx RadioID ChannelID TxQueue).run w
        = (if pMKx = Ptr.NULL ∨ w.mem.MKx.Magic ≠ 0xC0DA then
            (R16.MKXSTATUS_FAILURE_INVALID_HANDLE, w)
          else
            ((API.TxFlush RadioID ChannelID TxQueue w.mem).1,
              { w with mem := (API.TxFlush RadioID ChannelID TxQueue w.mem).2,
                       calls := w.calls
                         ++ [Call.TxFlush pMKx RadioID ChannelID TxQueue w.mem] }))
      ∧ (R17.MKx_TxFlush API pMKx RadioID ChannelID TxQueue).run w
        = (if pMKx = Ptr.NULL ∨ w.mem.MKx.Magic ≠ 0xC0DA then
            (R17.MKXSTATUS_FAILURE_INVALID_HANDLE, w)
          else
            ((API.TxFlush RadioID ChannelID TxQueue w.mem).1,
              { w with mem := (API.TxFlush RadioID ChannelID TxQueue w.mem).2,
                       calls := w.calls
                         ++ [Call.TxFlush pMKx RadioID ChannelID TxQueue w.mem] }))
      ∧ (R16.MKx_SetTSF API pMKx pMsg).run w
        = (if pMKx = Ptr.NULL ∨ w.mem.MKx.Magic ≠ 0xC0DA then
            (R16.MKXSTATUS_FAILURE_INVALID_HANDLE, w)
          else
            ((API.SetTSF pMsg w.mem).1,
              { w with mem := (API.SetTSF pMsg w.mem).2,
                       calls := w.calls ++ [Call.SetTSF pMKx pMsg w.mem] }))
      ∧ (R17.MKx_SetTSF API pMKx pMsg).run w
        = (if pMKx = Ptr.NULL ∨ w.mem.MKx.Magic ≠ 0xC0DA then
            (R17.MKXSTATUS_FAILURE_INVALID_HANDLE, w)
          else
            ((API.SetTSF pMsg w.mem).1,
              { w with mem := (API.SetTSF pMsg w.mem).2,
                       calls := w.calls ++ [Call.SetTSF pMKx pMsg w.mem] }))
      ∧ (R16.MKx_SetAuxADCCfg API pMKx pMsg).run w
        = (if pMKx = Ptr.NULL ∨ w.mem.MKx.Magic ≠ 0xC0DA then
            (R16.MKXSTATUS_FAILURE_INVALID_HANDLE, w)
          else if pMsg = Ptr.NULL then
            (R16.MKXSTATUS_FAILURE_INVALID_PARAM, w)
          else
            ((API.AuxADCCfg w.mem).1,
              { w with mem := (API.AuxADCCfg w.mem).2,
                       calls := w.calls ++ [Call.AuxADCCfg pMKx pMsg w.mem] }))
      ∧ (R17.MKx_SetAuxADCCfg API pMKx pMsg).run w
        = (if pMKx = Ptr.NULL ∨ w.mem.MKx.Magic ≠ 0xC0DA then
            (R17.MKXSTATUS_FAILURE_INVALID_HANDLE, w)
          else if pMsg = Ptr.NULL then
            (R17.MKXSTATUS_FAILURE_INVALID_PARAM, w)
          else
            ((API.AuxADCCfg w.mem).1,
              { w with mem := (API.AuxADCCfg w.mem).2,
                       calls := w.calls ++ [Call.AuxADCCfg pMKx pMsg w.mem] }))
      ∧ (R16.MKx_SetTemp API pMKx pMsg).run w
        = (if pMKx = Ptr.NULL ∨ w.mem.MKx.Magic ≠ 0xC0DA then
            (R16.MKXSTATUS_FAILURE_INVALID_HANDLE, w)
          else if pMsg = Ptr.NULL then
            (R16.MKXSTATUS_FAILURE_INVALID_PARAM, w)
          else
            ((API.Temp w.mem).1,
              { w with mem := (API.Temp w.mem).2,
                       calls := w.calls ++ [Call.Temp pMKx pMsg w.mem] }))
      ∧ (R17.MKx_SetTemp API pMKx pMsg).run w
        = (if pMKx = Ptr.NULL ∨ w.mem.MKx.Magic ≠ 0xC0DA then
            (R17.MKXSTATUS_FAILURE_INVALID_HANDLE, w)
          else if pMsg = Ptr.NULL then
            (R17.MKXSTATUS_FAILURE_INVALID_PARAM, w)
          else
            ((API.Temp w.mem).1,
              { w with mem := (API.Temp w.mem).2,
                       calls := w.calls ++ [Call.Temp pMKx pMsg w.mem] }))
      ∧ (R16.MKx_SetCalibration API pMKx pMsg).run w
        = (if pMKx = Ptr.NULL ∨ w.mem.MKx.Magic ≠ 0xC0DA then
            (R16.MKXSTATUS_FAILURE_INVALID_HANDLE, w)
          else if pMsg = Ptr.NULL then
            (R16.MKXSTATUS_FAILURE_INVALID_PARAM, w)
          else
            ((API.Calibration w.mem).1,
              { w with mem := (API.Calibration w.mem).2,
                       calls := w.calls ++ [Call.Calibration pMKx pMsg w.mem] }))
      ∧ (R17.MKx_SetCalibration API pMKx pMsg).run w
        = (if pMKx = Ptr.NULL ∨ w.mem.MKx.Magic ≠ 0xC0DA then
            (R17.MKXSTATUS_FAILURE_INVALID_HANDLE, w)
          else if pMsg = Ptr.NULL then
            (R17.MKXSTATUS_FAILURE_INVALID_PARAM, w)
          else
            ((API.Calibration w.mem).1,
              { w with mem := (API.Calibration w.mem).2,
                       calls := w.calls ++ [Call.Calibration pMKx pMsg w.mem] }))
      ∧ ((R16.MKx_TxReq API pMKx pMsg pPriv).run w).2
        = ((R17.MKx_TxReq API pMKx pMsg pPriv).run w).2
      ∧ ((R16.MKx_TxFlush API pMKx RadioID ChannelID TxQueue).run w).2
        = ((R17.MKx_TxFlush API pMKx RadioID ChannelID TxQueue).run w).2
      ∧ ((R16.MKx_SetTSF API pMKx pMsg).run w).2
        = ((R17.MKx_SetTSF API pMKx pMsg).run w).2
      ∧ ((R16.MKx_SetAuxADCCfg API pMKx pMsg).run w).2
        = ((R17.MKx_SetAuxADCCfg API pMKx pMsg).run w).2
      ∧ ((R16.MKx_SetTemp API pMKx pMsg).run w).2
        = ((R17.MKx_SetTemp API pMKx pMsg).run w).2
      ∧ ((R16.MKx_SetCalibration API pMKx pMsg).run w).2
        = ((R17.MKx_SetCalibration API pMKx pMsg).run w).2 := by
  have e0 : (R16.MKx_TxReq API pMKx pMsg pPriv).run w
          = (if pMKx = Ptr.NULL ∨ w.mem.MKx.Magic ≠ 0xC0DA then
              (R16.MKXSTATUS_FAILURE_INVALID_HANDLE, w)
            else
              ((API.TxReq pMsg pPriv w.mem).1,
                { w with mem := (API.TxReq pMsg pPriv w.mem).2,
                         calls := w.calls ++ [Call.TxReq pMKx pMsg pPriv w.mem] })) := by
    by_cases h1 : pMKx = Ptr.NULL
    · simp [R16.MKx_TxReq, StateT.run, h1, pure, StateT.pure, bind, StateT.bind]
    · by_cases h2 : w.mem.MKx.Magic = 0xC0DA
      · simp [R16.MKx_TxReq, StateT.run, h1, h2, R16.MKX_API_MAGIC, bind, StateT.bind, get,
          getThe, MonadStateOf.get, StateT.get, pure, StateT.pure, invoke]
      · simp [R16.MKx_TxReq, StateT.run, h1, h2, R16.MKX_API_MAGIC, bind, StateT.bind, get,
          getThe, MonadStateOf.get, StateT.get, pure, StateT.pure]
  have e1 : (R17.MKx_TxReq API pMKx pMsg pPriv).run w
          = (if pMKx = Ptr.NULL ∨ w.mem.MKx.Magic ≠ 0xC0DA then
              (R17.MKXSTATUS_FAILURE_INVALID_HANDLE, w)
            else
              ((API.TxReq pMsg pPriv w.mem).1,
                { w with mem := (API.TxReq pMsg pPriv w.mem).2,
                         calls := w.calls ++ [Call.TxReq pMKx pMsg pPriv w.mem] })) := by
    by_cases h1 : pMKx = Ptr.NULL
    · simp [R17.MKx_TxReq, StateT.run, h1, pure, StateT.pure, bind, StateT.bind]
    · by_cases h2 : w.mem.MKx.Magic = 0xC0DA
      · simp [R17.MKx_TxReq, StateT.run, h1, h2, R17.MKX_API_MAGIC, bind, StateT.bind, get,
          getThe, MonadStateOf.get, StateT.get, pure, StateT.pure, invoke]
      · simp [R17.MKx_TxReq, StateT.run, h1, h2, R17.MKX_API_MAGIC, bind, StateT.bind, get,
          getThe, MonadStateOf.get, StateT.get, pure, StateT.pure]
  have e2 : (R16.MKx_TxFlush API pMKx RadioID ChannelID TxQueue).run w
          = (if pMKx = Ptr.NULL ∨ w.mem.MKx.Magic ≠ 0xC0DA then
              (R16.MKXSTATUS_FAILURE_INVALID_HANDLE, w)
            else
              ((API.TxFlush RadioID ChannelID TxQueue w.mem).1,
                { w with mem := (API.TxFlush RadioID ChannelID TxQueue w.mem).2,
                         calls := w.calls
                           ++ [Call.TxFlush pMKx RadioID ChannelID TxQueue w.mem] })) := by
    by_cases h1 : pMKx = Ptr.NULL
    · simp [R16.MKx_TxFlush, StateT.run, h1, pure, StateT.pure, bind, StateT.bind]
    · by_cases h2 : w.mem.MKx.Magic = 0xC0DA
      · simp [R16.MKx_TxFlush, StateT.run, h1, h2, R16.MKX_API_MAGIC, bind, StateT.bind, get,
          getThe, MonadStateOf.get, StateT.get, pure, StateT.pure, invoke]
      · simp [R16.MKx_TxFlush, StateT.run, h1, h2, R16.MKX_API_MAGIC, bind, StateT.bind, get,
          getThe, MonadStateOf.get, StateT.get, pure, StateT.pure]
  have e3 : (R17.MKx_TxFlush API pMKx RadioID ChannelID TxQueue).run w
          = (if pMKx = Ptr.NULL ∨ w.mem.MKx.Magic ≠ 0xC0DA then
              (R17.MKXSTATUS_FAILURE_INVALID_HANDLE, w)
            else
              ((API.TxFlush RadioID ChannelID TxQueue w.mem).1,
                { w with mem := (API.TxFlush RadioID ChannelID TxQueue w.mem).2,
                         calls := w.calls
                           ++ [Call.TxFlush pMKx RadioID ChannelID TxQueue w.mem] })) := by
    by_cases h1 : pMKx = Ptr.NULL
    · simp [R17.MKx_TxFlush, StateT.run, h1, pure, StateT.pure, bind, StateT.bind]
    · by_cases h2 : w.mem.MKx.Magic = 0xC0DA
      · simp [R17.MKx_TxFlush, StateT.run, h1, h2, R17.MKX_API_MAGIC, bind, StateT.bind, get,
          getThe, MonadStateOf.get, StateT.get, pure, StateT.pure, invoke]
      · simp [R17.MKx_TxFlush, StateT.run, h1, h2, R17.MKX_API_MAGIC, bind, StateT.bind, get,
          getThe, MonadStateOf.get, StateT.get, pure, StateT.pure]
  have e4 : (R16.MKx_SetTSF API pMKx pMsg).run w
          = (if pMKx = Ptr.NULL ∨ w.mem.MKx.Magic ≠ 0xC0DA then
              (R16.MKXSTATUS_FAILURE_INVALID_HANDLE, w)
            else
              ((API.SetTSF pMsg w.mem).1,
                { w with mem := (API.SetTSF pMsg w.mem).2,
                         calls := w.calls ++ [Call.SetTSF pMKx pMsg w.mem] })) := by
    by_cases h1 : pMKx = Ptr.NULL
    · simp [R16.MKx_SetTSF, StateT.run, h1, pure, StateT.pure, bind, StateT.bind]
    · by_cases h2 : w.mem.MKx.Magic = 0xC0DA
      · simp [R16.MKx_SetTSF, StateT.run, h1, h2, R16.MKX_API_MAGIC, bind, StateT.bind, get,
          getThe, MonadStateOf.get, StateT.get, pure, StateT.pure, invoke]
      · simp [R16.MKx_SetTSF, StateT.run, h1, h2, R16.MKX_API_MAGIC, bind, StateT.bind, get,
          getThe, MonadStateOf.get, StateT.get, pure, StateT.pure]
  have e5 : (R17.MKx_SetTSF API pMKx pMsg).run w
          = (if pMKx = Ptr.NULL ∨ w.mem.MKx.Magic ≠ 0xC0DA then
              (R17.MKXSTATUS_FAILURE_INVALID_HANDLE, w)
            else
              ((API.SetTSF pMsg w.mem).1,
                { w with mem := (API.SetTSF pMsg w.mem).2,
                         calls := w.calls ++ [Call.SetTSF pMKx pMsg w.mem] })) := by
    by_cases h1 : pMKx = Ptr.NULL
    · simp [R17.MKx_SetTSF, StateT.run, h1, pure, StateT.pure, bind, StateT.bind]
    · by_cases h2 : w.mem.MKx.Magic = 0xC0DA
      · simp [R17.MKx_SetTSF, StateT.run, h1, h2, R17.MKX_API_MAGIC, bind, StateT.bind, get,
          getThe, MonadStateOf.get, StateT.get, pure, StateT.pure, invoke]
      · simp [R17.MKx_SetTSF, StateT.run, h1, h2, R17.MKX_API_MAGIC, bind, StateT.bind, get,
          getThe, MonadStateOf.get, StateT.get, pure, StateT.pure]
  have e6 : (R16.MKx_SetAuxADCCfg API pMKx pMsg).run w
          = (if pMKx = Ptr.NULL ∨ w.mem.MKx.Magic ≠ 0xC0DA then
              (R16.MKXSTATUS_FAILURE_INVALID_HANDLE, w)
            else if pMsg = Ptr.NULL then
              (R16.MKXSTATUS_FAILURE_INVALID_PARAM, w)
            else
              ((API.AuxADCCfg w.mem).1,
                { w with mem := (API.AuxADCCfg w.mem).2,
                         calls := w.calls ++ [Call.AuxADCCfg pMKx pMsg w.mem] })) := by
    by_cases h1 : pMKx = Ptr.NULL
    · simp [R16.MKx_SetAuxADCCfg, StateT.run, h1, pure, StateT.pure, bind, StateT.bind]
    · by_cases h2 : w.mem.MKx.Magic = 0xC0DA
      · by_cases h3 : pMsg = Ptr.NULL
        · simp [R16.MKx_SetAuxADCCfg, StateT.run, h1, h2, h3, R16.MKX_API_MAGIC, bind, StateT.bind,
            get, getThe, MonadStateOf.get, StateT.get, pure, StateT.pure]
        · simp [R16.MKx_SetAuxADCCfg, StateT.run, h1, h2, h3, R16.MKX_API_MAGIC, bind, StateT.bind,
            get, getThe, MonadStateOf.get, StateT.get, pure, StateT.pure, invoke]
      · simp [R16.MKx_SetAuxADCCfg, StateT.run, h1, h2, R16.MKX_API_MAGIC, bind, StateT.bind, get,
          getThe, MonadStateOf.get, StateT.get, pure, StateT.pure]
  have e7 : (R17.MKx_SetAuxADCCfg API pMKx pMsg).run w
          = (if pMKx = Ptr.NULL ∨ w.mem.MKx.Magic ≠ 0xC0DA then
              (R17.MKXSTATUS_FAILURE_INVALID_HANDLE, w)
            else if pMsg = Ptr.NULL then
              (R17.MKXSTATUS_FAILURE_INVALID_PARAM, w)
            else
              ((API.AuxADCCfg w.mem).1,
                { w with mem := (API.AuxADCCfg w.mem).2,
                         calls := w.calls ++ [Call.AuxADCCfg pMKx pMsg w.mem] })) := by
    by_cases h1 : pMKx = Ptr.NULL
    · simp [R17.MKx_SetAuxADCCfg, StateT.run, h1, pure, StateT.pure, bind, StateT.bind]
    · by_cases h2 : w.mem.MKx.Magic = 0xC0DA
      · by_cases h3 : pMsg = Ptr.NULL
        · simp [R17.MKx_SetAuxADCCfg, StateT.run, h1, h2, h3, R17.MKX_API_MAGIC, bind, StateT.bind,
            get, getThe, MonadStateOf.get, StateT.get, pure, StateT.pure]
        · simp [R17.MKx_SetAuxADCCfg, StateT.run, h1, h2, h3, R17.MKX_API_MAGIC, bind, StateT.bind,
            get, getThe, MonadStateOf.get, StateT.get, pure, StateT.pure, invoke]
      · simp [R17.MKx_SetAuxADCCfg, StateT.run, h1, h2, R17.MKX_API_MAGIC, bind, StateT.bind, get,
          getThe, MonadStateOf.get, StateT.get, pure, StateT.pure]
  have e8 : (R16.MKx_SetTemp API pMKx pMsg).run w
          = (if pMKx = Ptr.NULL ∨ w.mem.MKx.Magic ≠ 0xC0DA then
              (R16.MKXSTATUS_FAILURE_INVALID_HANDLE, w)
            else if pMsg = Ptr.NULL then
              (R16.MKXSTATUS_FAILURE_INVALID_PARAM, w)
            else
              ((API.Temp w.mem).1,
                { w with mem := (API.Temp w.mem).2,
                         calls := w.calls ++ [Call.Temp pMKx pMsg w.mem] })) := by
    by_cases h1 : pMKx = Ptr.NULL
    · simp [R16.MKx_SetTemp, StateT.run, h1, pure, StateT.pure, bind, StateT.bind]
    · by_cases h2 : w.mem.MKx.Magic = 0xC0DA
      · by_cases h3 : pMsg = Ptr.NULL
        · simp [R16.MKx_SetTemp, StateT.run, h1, h2, h3, R16.MKX_API_MAGIC, bind, StateT.bind,
            get, getThe, MonadStateOf.get, StateT.get, pure, StateT.pure]
        · simp [R16.MKx_SetTemp, StateT.run, h1, h2, h3, R16.MKX_API_MAGIC, bind, StateT.bind,
            get, getThe, MonadStateOf.get, StateT.get, pure, StateT.pure, invoke]
      · simp [R16.MKx_SetTemp, StateT.run, h1, h2, R16.MKX_API_MAGIC, bind, StateT.bind, get,
          getThe, MonadStateOf.get, StateT.get, pure, StateT.pure]
  have e9 : (R17.MKx_SetTemp API pMKx pMsg).run w
          = (if pMKx = Ptr.NULL ∨ w.mem.MKx.Magic ≠ 0xC0DA then
              (R17.MKXSTATUS_FAILURE_INVALID_HANDLE, w)
            else if pMsg = Ptr.NULL then
              (R17.MKXSTATUS_FAILURE_INVALID_PARAM, w)
            else
              ((API.Temp w.mem).1,
                { w with mem := (API.Temp w.mem).2,
                         calls := w.calls ++ [Call.Temp pMKx pMsg w.mem] })) := by
    by_cases h1 : pMKx = Ptr.NULL
    · simp [R17.MKx_SetTemp, StateT.run, h1, pure, StateT.pure, bind, StateT.bind]
    · by_cases h2 : w.mem.MKx.Magic = 0xC0DA
      · by_cases h3 : pMsg = Ptr.NULL
        · simp [R17.MKx_SetTemp, StateT.run, h1, h2, h3, R17.MKX_API_MAGIC, bind, StateT.bind,
            get, getThe, MonadStateOf.get, StateT.get, pure, StateT.pure]
        · simp [R17.MKx_SetTemp, StateT.run, h1, h2, h3, R17.MKX_API_MAGIC, bind, StateT.bind,
            get, getThe, MonadStateOf.get, StateT.get, pure, StateT.pure, invoke]
      · simp [R17.MKx_SetTemp, StateT.run, h1, h2, R17.MKX_API_MAGIC, bind, StateT.bind, get,
          getThe, MonadStateOf.get, StateT.get, pure, StateT.pure]
  have e10 : (R16.MKx_SetCalibration API pMKx pMsg).run w
          = (if pMKx = Ptr.NULL ∨ w.mem.MKx.Magic ≠ 0xC0DA then
              (R16.MKXSTATUS_FAILURE_INVALID_HANDLE, w)
            else if pMsg = Ptr.NULL then
              (R16.MKXSTATUS_FAILURE_INVALID_PARAM, w)
            else
              ((API.Calibration w.mem).1,
                { w with mem := (API.Calibration w.mem).2,
                         calls := w.calls ++ [Call.Calibration pMKx pMsg w.mem] })) := by
    by_cases h1 : pMKx = Ptr.NULL
    · simp [R16.MKx_SetCalibration, StateT.run, h1, pure, StateT.pure, bind, StateT.bind]
    · by_cases h2 : w.mem.MKx.Magic = 0xC0DA
      · by_cases h3 : pMsg = Ptr.NULL
        · simp [R16.MKx_SetCalibration, StateT.run, h1, h2, h3, R16.MKX_API_MAGIC, bind,
            StateT.bind, get, getThe, MonadStateOf.get, StateT.get, pure, StateT.pure]
        · simp [R16.MKx_SetCalibration, StateT.run, h1, h2, h3, R16.MKX_API_MAGIC, bind,
            StateT.bind, get, getThe, MonadStateOf.get, StateT.get, pure, StateT.pure, invoke]
      · simp [R16.MKx_SetCalibration, StateT.run, h1, h2, R16.MKX_API_MAGIC, bind, StateT.bind,
          get,           getThe, MonadStateOf.get, StateT.get, pure, StateT.pure]
  have e11 : (R17.MKx_SetCalibration API pMKx pMsg).run w
          = (if pMKx = Ptr.NULL ∨ w.mem.MKx.Magic ≠ 0xC0DA then
              (R17.MKXSTATUS_FAILURE_INVALID_HANDLE, w)
            else if pMsg = Ptr.NULL then
              (R17.MKXSTATUS_FAILURE_INVALID_PARAM, w)
            else
              ((API.Calibration w.mem).1,
                { w with mem := (API.Calibration w.mem).2,
                         calls := w.calls ++ [Call.Calibration pMKx pMsg w.mem] })) := by
    by_cases h1 : pMKx = Ptr.NULL
    · simp [R17.MKx_SetCalibration, StateT.run, h1, pure, StateT.pure, bind, StateT.bind]
    · by_cases h2 : w.mem.MKx.Magic = 0xC0DA
      · by_cases h3 : pMsg = Ptr.NULL
        · simp [R17.MKx_SetCalibration, StateT.run, h1, h2, h3, R17.MKX_API_MAGIC, bind,
            StateT.bind, get, getThe, MonadStateOf.get, StateT.get, pure, StateT.pure]
        · simp [R17.MKx_SetCalibration, StateT.run, h1, h2, h3, R17.MKX_API_MAGIC, bind,
            StateT.bind, get, getThe, MonadStateOf.get, StateT.get, pure, StateT.pure, invoke]
      · simp [R17.MKx_SetCalibration, StateT.run, h1, h2, R17.MKX_API_MAGIC, bind, StateT.bind,
          get,           getThe, MonadStateOf.get, StateT.get, pure, StateT.pure]
  refine ⟨e0, e1, e2, e3, e4, e5, e6, e7, e8, e9, e10, e11, ?_, ?_, ?_, ?_, ?_, ?_⟩
  · rw [e0, e1]
    split_ifs <;> rfl
  · rw [e2, e3]
    split_ifs <;> rfl
  · rw [e4, e5]
    split_ifs <;> rfl
  · rw [e6, e7]
    split_ifs <;> rfl
  · rw [e8, e9]
    split_ifs <;> rfl
  · rw [e10, e11]
    split_ifs <;> rfl

/-! ## Message sizes of r17.1 -/

/-- C27: in r17.1 the packed size of the message header is 12 and the packed sizes of the
fixed-size message structures are `tMKxTxPacket` 32, `tMKxRxPacket` 56, `tMKxTxEvent` 52,
`tMKxSetTSF` 32, `tMKxGetTSF` 20, `tMKxFlushQueue` 16, `tMKxRadioConfig` 424,
`tMKxRadioStats` 340, `tMKxC2XSec` 20, `tMKxCalibration` 680, `tMKxTemp` 16, `tMKxAuxADC` 96,
`tMKxAuxADCConfig` 16, `tMKxLog` 132, `tMKxGPIO` 20, `tMKxAPIVersion` 16, `tMKxLoopback` 20,
`tMKxFault` 28 and `tMKxReset` 16, each a multiple of 4; every `MKXC2XSEC_CMD_*_LC` and
`MKXC2XSEC_RSP_*_LR` constant is a multiple of 4.  In r16 `tMKxFlushQueue` is 11 bytes and
`tMKxTemp` is 10, neither a multiple of 4. -/
theorem c27_r17_sizes_multiple_of_4 :
    [R17.tMKxIFMsg, R17.tMKxTxPacket, R17.tMKxRxPacket, R17.tMKxTxEvent, R17.tMKxSetTSF,
        R17.tMKxGetTSF, R17.tMKxFlushQueue, R17.tMKxRadioConfig, R17.tMKxRadioStats,
        R17.tMKxC2XSec, R17.tMKxCalibration, R17.tMKxTemp, R17.tMKxAuxADC,
        R17.tMKxAuxADCConfig, R17.tMKxLog, R17.tMKxGPIO, R17.tMKxAPIVersion, R17.tMKxLoopback,
        R17.tMKxFault, R17.tMKxReset].map CType.sizeof
        = [12, 32, 56, 52, 32, 20, 16, 424, 340, 20, 680, 16, 96, 16, 132, 20, 16, 20, 28, 16]
      ∧ (∀ t ∈ [R17.tMKxIFMsg, R17.tMKxTxPacket, R17.tMKxRxPacket, R17.tMKxTxEvent,
            R17.tMKxSetTSF, R17.tMKxGetTSF, R17.tMKxFlushQueue, R17.tMKxRadioConfig,
            R17.tMKxRadioStats, R17.tMKxC2XSec, R17.tMKxCalibration, R17.tMKxTemp,
            R17.tMKxAuxADC, R17.tMKxAuxADCConfig, R17.tMKxLog, R17.tMKxGPIO,
            R17.tMKxAPIVersion, R17.tMKxLoopback, R17.tMKxFault, R17.tMKxReset],
          t.sizeof % 4 = 0)
      ∧ (∀ c ∈ [R17.MKXC2XSEC_CMD_VSOH256_LC, R17.MKXC2XSEC_CMD_VSOH384_LC,
            R17.MKXC2XSEC_CMD_DPKVSOH256_LC, R17.MKXC2XSEC_CMD_DPKVSOH384_LC,
            R17.MKXC2XSEC_CMD_DPK256_LC, R17.MKXC2XSEC_CMD_DPK384_LC,
            R17.MKXC2XSEC_CMD_REPK256_LC, R17.MKXC2XSEC_CMD_REPK384_LC,
            R17.MKXC2XSEC_RSP_VER_LR, R17.MKXC2XSEC_RSP_PK256_LR, R17.MKXC2XSEC_RSP_PK384_LR,
            R17.MKXC2XSEC_RSP_VERPK256_LR, R17.MKXC2XSEC_RSP_VERPK384_LR],
          c % 4 = 0)
      ∧ R16.tMKxFlushQueue.sizeof = 11 ∧ R16.tMKxTemp.sizeof = 10
      ∧ R16.tMKxFlushQueue.sizeof % 4 ≠ 0 ∧ R16.tMKxTemp.sizeof % 4 ≠ 0 := by
  have h : [R17.tMKxIFMsg, R17.tMKxTxPacket, R17.tMKxRxPacket, R17.tMKxTxEvent, R17.tMKxSetTSF,
        R17.tMKxGetTSF, R17.tMKxFlushQueue, R17.tMKxRadioConfig, R17.tMKxRadioStats,
        R17.tMKxC2XSec, R17.tMKxCalibration, R17.tMKxTemp, R17.tMKxAuxADC,
        R17.tMKxAuxADCConfig, R17.tMKxLog, R17.tMKxGPIO, R17.tMKxAPIVersion, R17.tMKxLoopback,
        R17.tMKxFault, R17.tMKxReset].map CType.sizeof
        = [12, 32, 56, 52, 32, 20, 16, 424, 340, 20, 680, 16, 96, 16, 132, 20, 16, 20, 28, 16] := by
    decide
  refine ⟨h, ?_, by decide, by decide, by decide, by decide, by decide⟩
  intro t ht
  have hm : t.sizeof ∈ [12, 32, 56, 52, 32, 20, 16, 424, 340, 20, 680, 16, 96, 16, 132, 20, 16,
      20, 28, 16] := by
    rw [← h]
    exact List.mem_map_of_mem _ ht
  revert hm
  generalize t.sizeof = n
  intro hm
  simp only [List.mem_cons, List.mem_singleton, List.not_mem_nil, or_false] at hm
  omega

/-! ## The two forms of the address matching entry -/

/-- C28: the two conditional forms of `tMKxAddressMatching` agree in both revisions.  Both
are 16 bytes; in both `Mask` occupies bytes 0-5, bytes 6-7 are padding (`Pad0`, `Reserved0`)
and `Addr` occupies bytes 8-13; the byte-array form has a two-byte `MatchCtrl` at bytes
14-15 where the bit-field form has its one-byte `MatchCtrl` (byte 14) and `Pad1` (byte 15).
On any 16 bytes the bit-field members `Mask`, `Addr` and `MatchCtrl` are the little-endian
values of bytes 0-5, 8-13 and 14, the byte-array `MatchCtrl` is
`byte 14 + 256 * byte 15`, and the two `MatchCtrl` readings are equal when byte 15 is zero.
`wrapper.h` defines `LLC_NO_BITFIELDS`, which selects the byte-array form. -/
theorem c28_address_matching_forms_agree
    (b0 b1 b2 b3 b4 b5 b6 b7 b8 b9 b10 b11 b12 b13 b14 b15 : Nat)
    (hb : ∀ b ∈ [b0, b1, b2, b3, b4, b5, b6, b7, b8, b9, b10, b11, b12, b13, b14, b15],
      b < 256) :
    LLC_NO_BITFIELDS = true
      ∧ R16.tMKxAddressMatching.sizeof = 16 ∧ R17.tMKxAddressMatching.sizeof = 16
      ∧ (R16.tMKxAddressMatching_bitfields.map (·.2)).sum = 8 * 16
      ∧ (R17.tMKxAddressMatching_bitfields.map (·.2)).sum = 8 * 16
      ∧ R16.tMKxAddressMatching.layout
        = [("Mask", 0, 6), ("Reserved0", 6, 2), ("Addr", 8, 6), ("MatchCtrl", 14, 2)]
      ∧ R17.tMKxAddressMatching.layout
        = [("Mask", 0, 6), ("Reserved0", 6, 2), ("Addr", 8, 6), ("MatchCtrl", 14, 2)]
      ∧ (∀ f ∈ bitFieldsFrom 0 R16.tMKxAddressMatching_bitfields,
          f.2.2.1 % 8 = 0 ∧ f.2.2.2 % 8 = 0)
      ∧ (bitFieldsFrom 0 R16.tMKxAddressMatching_bitfields).map
          (fun f => (f.1, (64 * f.2.1 + f.2.2.1) / 8, f.2.2.2 / 8))
        = [("Mask", 0, 6), ("Pad0", 6, 2), ("Addr", 8, 6), ("MatchCtrl", 14, 1), ("Pad1", 15, 1)]
      ∧ R17.tMKxAddressMatching_bitfields = R16.tMKxAddressMatching_bitfields
      ∧ readBitField R16.tMKxAddressMatching_bitfields "Mask"
          [leValue [b0, b1, b2, b3, b4, b5, b6, b7],
            leValue [b8, b9, b10, b11, b12, b13, b14, b15]]
        = some (leValue [b0, b1, b2, b3, b4, b5])
      ∧ readBitField R16.tMKxAddressMatching_bitfields "Addr"
          [leValue [b0, b1, b2, b3, b4, b5, b6, b7],
            leValue [b8, b9, b10, b11, b12, b13, b14, b15]]
        = some (leValue [b8, b9, b10, b11, b12, b13])
      ∧ readBitField R16.tMKxAddressMatching_bitfields "MatchCtrl"
          [leValue [b0, b1, b2, b3, b4, b5, b6, b7],
            leValue [b8, b9, b10, b11, b12, b13, b14, b15]]
        = some b14
      ∧ leValue
          (([b0, b1, b2, b3, b4, b5, b6, b7, b8, b9, b10, b11, b12, b13, b14, b15].drop 14).take 2)
        = b14 + 256 * b15
      ∧ (b15 = 0 →
          readBitField R16.tMKxAddressMatching_bitfields "MatchCtrl"
              [leValue [b0, b1, b2, b3, b4, b5, b6, b7],
                leValue [b8, b9, b10, b11, b12, b13, b14, b15]]
            = some (leValue
                (([b0, b1, b2, b3, b4, b5, b6, b7, b8, b9, b10, b11, b12, b13, b14, b15].drop
                  14).take 2))) := by
  simp only [List.mem_cons, List.mem_singleton, List.not_mem_nil, or_false, forall_eq_or_imp,
    forall_eq] at hb
  obtain ⟨h0, h1, h2, h3, h4, h5, h6, h7, h8, h9, h10, h11, h12, h13, h14, h15⟩ := hb
  have rMask : readBitField R16.tMKxAddressMatching_bitfields "Mask"
      [leValue [b0, b1, b2, b3, b4, b5, b6, b7], leValue [b8, b9, b10, b11, b12, b13, b14, b15]]
      = some (leValue [b0, b1, b2, b3, b4, b5]) := by
    simp [readBitField, bitFieldsFrom, R16.tMKxAddressMatching_bitfields]
    simp only [bitsOf, Nat.shiftRight_eq_div_pow, leValue]
    omega
  have rAddr : readBitField R16.tMKxAddressMatching_bitfields "Addr"
      [leValue [b0, b1, b2, b3, b4, b5, b6, b7], leValue [b8, b9, b10, b11, b12, b13, b14, b15]]
      = some (leValue [b8, b9, b10, b11, b12, b13]) := by
    simp [readBitField, bitFieldsFrom, R16.tMKxAddressMatching_bitfields]
    simp only [bitsOf, Nat.shiftRight_eq_div_pow, leValue]
    omega
  have rCtrl : readBitField R16.tMKxAddressMatching_bitfields "MatchCtrl"
      [leValue [b0, b1, b2, b3, b4, b5, b6, b7], leValue [b8, b9, b10, b11, b12, b13, b14, b15]]
      = some b14 := by
    simp [readBitField, bitFieldsFrom, R16.tMKxAddressMatching_bitfields]
    simp only [bitsOf, Nat.shiftRight_eq_div_pow, leValue]
    omega
  have rArr : leValue
      (([b0, b1, b2, b3, b4, b5, b6, b7, b8, b9, b10, b11, b12, b13, b14, b15].drop 14).take 2)
      = b14 + 256 * b15 := by
    simp [leValue]
  refine ⟨rfl, by decide, by decide, by decide, by decide, by decide, by decide, by decide,
    by decide, by decide, rMask, rAddr, rCtrl, rArr, ?_⟩
  intro hz
  rw [rCtrl, rArr, hz, Nat.mul_zero, Nat.add_zero]

/-- C28 (instance): the unicast entry with `Mask` ff:ff:ff:ff:ff:ff, `Addr`
01:23:45:67:89:ab and control byte 0x01, byte 15 being zero. -/
theorem c28_address_matching_forms_agree_witness :
    (∀ b ∈ [0xFF, 0xFF, 0xFF, 0xFF, 0xFF, 0xFF, 0, 0, 0x01, 0x23, 0x45, 0x67, 0x89, 0xAB, 0x01,
        0], b < 256)
      ∧ readBitField R16.tMKxAddressMatching_bitfields "MatchCtrl"
          [leValue [0xFF, 0xFF, 0xFF, 0xFF, 0xFF, 0xFF, 0, 0],
            leValue [0x01, 0x23, 0x45, 0x67, 0x89, 0xAB, 0x01, 0]]
        = some (leValue
            (([0xFF, 0xFF, 0xFF, 0xFF, 0xFF, 0xFF, 0, 0, 0x01, 0x23, 0x45, 0x67, 0x89, 0xAB, 0x01,
              0].drop 14).take 2)) :=
  ⟨by decide,
    (c28_address_matching_forms_agree 0xFF 0xFF 0xFF 0xFF 0xFF 0xFF 0 0 0x01 0x23 0x45 0x67 0x89
      0xAB 0x01 0 (by decide)).2.2.2.2.2.2.2.2.2.2.2.2.2.2 rfl⟩

end LLC
